import Mathlib

/-! FreeType2-Ruby binding (`ft2.c`): ownership and error mapping

A shallow embedding of the C extension `ft2.c`.  The FreeType engine is an
external collaborator: it is represented by an oracle (`Engine`) that, given
the history of engine calls made so far, answers the next call and tells what
native memory holds.  Every engine call the binding makes is appended to a
trace, so that "which call was made, with which arguments, how often" can be
stated and proved.
-/

namespace FT2

/-! ## Native side -/

/-- A native pointer value handed out by the engine (`FT_Face`, `FT_Glyph`,
`FT_Library`, ...).  `0` is `NULL`. -/
abbrev Handle := Nat

/-- Members of the engine's records that `ft2.c` reads or takes the address of. -/
inductive Field where
  | glyph | size | charmap          -- of `FT_FaceRec`
  | library | face | next           -- of `FT_GlyphSlotRec`, `FT_SizeRec`, `FT_GlyphRec`
  | metrics | bitmap | outline
  | clazz
  | linearHoriAdvance | linearVertAdvance   -- of `FT_GlyphSlotRec`
  | face_flags | style_flags                -- of `FT_FaceRec`
  deriving DecidableEq, Repr

/-- The `void *` stored in a wrapper (`DATA_PTR`). -/
inductive Ptr where
  /-- the `i`-th block obtained from `malloc` by the binding -/
  | cell (i : Nat)
  /-- the address of the native record `h` itself -/
  | obj (h : Handle)
  /-- the address of member `f` inside the native record `h` -/
  | field (h : Handle) (f : Field)
  deriving DecidableEq, Repr

/-! ## Ruby side -/

/-- The classes `Init_ft2` defines, together with `String` and `Object`. -/
inductive Klass where
  | rb_cObject | rb_cString
  | cBitmap | cBitmapGlyph | cCharMap | cFace | cGlyph | cGlyphClass
  | cGlyphSlot | cGlyphMetrics | cLibrary | cMemory | cOutline
  | cOutlineGlyph | cSubGlyph | cSize | cSizeMetrics
  deriving DecidableEq, Repr

/-- Superclass given to `rb_define_class_under` in `Init_ft2`. -/
def Klass.super : Klass → Option Klass
  | .rb_cObject => none
  | .cBitmapGlyph => some .cGlyph
  | .cOutlineGlyph => some .cGlyph
  | _ => some .rb_cObject

/-- The three `dfree` callbacks `ft2.c` passes to `Data_Wrap_Struct`. -/
inductive Dfree where
  | face_free | glyph_free | dont_free
  deriving DecidableEq, Repr

/-- A Ruby `VALUE`.  `Float` arguments are not represented. -/
inductive Value where
  | Qnil | Qtrue | Qfalse
  /-- an Integer -/
  | int (n : Int)
  /-- a String -/
  | str (s : String)
  /-- an Array -/
  | ary (xs : List Value)
  /-- a `T_DATA` object made by `Data_Wrap_Struct (klass, 0, dfree, ptr)` -/
  | data (klass : Klass) (dfree : Dfree) (ptr : Ptr)
  /-- a plain `T_OBJECT` instance of `klass`, as `klass.new` allocates it -/
  | object (klass : Klass)
  /-- a Hash from Integers to Integers (the only kind `ft2.c` builds), as the
  list of its entries in insertion order -/
  | hash (kv : List (Int × Int))

/-- The `char *` obtained by `RSTRING(v)->ptr`. -/
inductive CharPtr where
  /-- the bytes of a String -/
  | bytes (s : String)
  /-- the word found where a String keeps `ptr`, read from a heap object that is
  not a String (`RSTRING` is an unchecked cast) -/
  | miscast (v : Value)

/-- The engine calls made by `ft2.c`, with the values of the C argument
expressions (before conversion to the parameter type).  Out-parameters are
recorded by the pointer that is passed. -/
inductive NativeCall where
  | FT_Init_FreeType
  | FT_New_Face (library : Handle) (path : CharPtr) (face_index : Int) (aface : Ptr)
  | FT_New_Memory_Face (library : Handle) (mem : CharPtr) (len : Int) (face_index : Int)
      (aface : Ptr)
  | FT_Done_Face (face : Handle)
  | FT_Attach_File (face : Handle) (path : CharPtr)
  | FT_Set_Char_Size (face : Handle) (char_width char_height : Int) (horz_res vert_res : Int)
  | FT_Set_Pixel_Sizes (face : Handle) (pixel_width pixel_height : Int)
  | FT_Load_Glyph (face : Handle) (glyph_index : Int) (load_flags : Int)
  | FT_Load_Char (face : Handle) (char_code : Int) (load_flags : Int)
  | FT_Get_Kerning (face : Handle) (left_glyph right_glyph : Int) (kern_mode : Int)
  | FT_Get_Glyph_Name (face : Handle) (glyph_index : Int) (buffer_max : Nat)
  | FT_Select_Charmap (face : Handle) (encoding : Int)
  /-- a null pointer for `matrix` or `delta` is `none` -/
  | FT_Set_Transform (face : Handle) (matrix : Option (Int × Int × Int × Int))
      (delta : Option (Int × Int))
  /-- the shutdown call of the engine; no function of `ft2.c` makes it -/
  | FT_Done_FreeType (library : Handle)
  | FT_Get_First_Char (face : Handle)
  | FT_Get_Next_Char (face : Handle) (char_code : Int)
  | FT_Set_Charmap (face : Handle) (charmap : Handle)
  | FT_Render_Glyph (slot : Handle) (render_mode : Int)
  | FT_Get_Glyph (slot : Handle) (aglyph : Ptr)
  | FT_Done_Glyph (glyph : Handle)
  | FT_Glyph_Copy (source : Handle) (target : Ptr)
  | FT_Glyph_Transform (glyph : Handle) (xx xy yx yy : Int) (dx dy : Int)
  /-- Here `cur` is the word `*the_glyph` holds when the call is made -/
  | FT_Glyph_To_Bitmap (the_glyph : Ptr) (cur : Handle) (render_mode : Int)
      (ox oy : Int) (destroy : Int)

/-- What an engine call hands back: its `FT_Error`, and what its out-parameters
hold when it returns. -/
structure Reply where
  status : Int
  handle : Handle := 0
  x : Int := 0
  y : Int := 0
  name : String := ""
  /-- the `FT_ULong` a char-code query returns -/
  char_code : Nat := 0
  /-- the `FT_UInt` a char-code query stores through `agindex` -/
  glyph_index : Nat := 0

/-- The engine as an oracle over the history of calls. -/
structure Engine where
  /-- answer to call `c` after the calls `tr` -/
  reply : List NativeCall → NativeCall → Reply
  /-- the pointer-sized word native memory holds at `p` after the calls `tr` -/
  rd : List NativeCall → Ptr → Handle
  /-- the words of the record native memory holds at `p` after the calls `tr` -/
  rds : List NativeCall → Ptr → List Int
  /-- the integer member native memory holds at `p` after the calls `tr` -/
  rdi : List NativeCall → Ptr → Int

/-- Content of a block obtained from `malloc`. -/
inductive Cell where
  | uninit
  /-- one pointer-sized word -/
  | word (h : Handle)
  /-- a record copied by structure assignment -/
  | record (words : List Int)
  deriving DecidableEq, Repr

/-- State of the process as far as the binding touches it. -/
structure State where
  /-- engine calls made so far, oldest first -/
  trace : List NativeCall := []
  /-- blocks obtained from `malloc`, in allocation order -/
  cells : List Cell := []
  /-- pointers passed to `free`, oldest first -/
  freed : List Ptr := []

/-- Things that are fixed outside `ft2.c`. -/
structure Env where
  /-- the `static FT_Library library` set by `Init_ft2` -/
  library : Handle
  /-- the `FT_ERRORDEF (e, v, s)` lines of `FT_ERRORS_H`, as pairs `(e, s)` -/
  errdefs : List (Int × String)
  /-- the value of `(double) n` (equal to `n` when `|n| ≤ 2^53`) -/
  dbl : Int → Int
  /-- the result of the unchecked `(int) ((long) v >> 1)` on the address of a
  heap object -/
  fix2int_addr : Value → Int
  /-- whether `long` and `VALUE` have 64 bits (LP64) or 32 bits (ILP32); `int`
  has 32 bits on both -/
  lp64 : Bool
  /-- the address of a heap object, which is its `VALUE` -/
  addr : Value → Int

/-- The number of bits of `long` and of `VALUE`. -/
def Env.long_bits (env : Env) : Nat := if env.lp64 then 64 else 32

/-- A Ruby exception raised by `rb_raise` or by a conversion macro.  `fatal`
stands for undefined behaviour of the C code (a wild dereference). -/
inductive Raised where
  | rb_eException (msg : String)
  | rb_eArgError (msg : String)
  | rb_eTypeError
  | rb_eRangeError
  | fatal
  deriving DecidableEq, Repr

/-- Result of running a function of the binding. -/
structure Outcome (α : Type) where
  result : Except Raised α
  state : State

/-! ## Memory helpers -/

/-- The call `malloc(sizeof(T))`: a fresh block. -/
def malloc (s : State) : Ptr × State :=
  (.cell s.cells.length, { s with cells := s.cells ++ [.uninit] })

/-- The call `free(ptr)`. -/
def free (s : State) (p : Ptr) : State :=
  { s with freed := s.freed ++ [p] }

/-- Store through a pointer.  Stores into native memory are the engine's
business and show up through `Engine.rd`. -/
def poke (s : State) (p : Ptr) (c : Cell) : State :=
  match p with
  | .cell i => { s with cells := s.cells.set i c }
  | _ => s

/-- Read of `*(T **) p`: one pointer-sized word. -/
def deref (E : Engine) (s : State) (p : Ptr) : Handle :=
  match p with
  | .cell i =>
    match s.cells.getD i .uninit with
    | .word h => h
    | _ => E.rd s.trace p
  | _ => E.rd s.trace p

/-- Make the engine call `c`: it is appended to the trace. -/
def call (E : Engine) (s : State) (c : NativeCall) : Reply × State :=
  (E.reply s.trace c, { s with trace := s.trace ++ [c] })

/-! ## Error mapping -/

/-- The table `errors[]` that the three macros defined in `handle_error` build
from `FT_ERRORS_H`: one `{ e, s }` per `FT_ERRORDEF`, closed by `{ 0, 0 }`. -/
def errors (env : Env) : List (Int × Option String) :=
  env.errdefs.map (fun d => (d.1, some d.2)) ++ [(0, none)]

/-- How `%s` prints a `char *`; a null pointer prints as `(null)`. -/
def fmt_s : Option String → String
  | some s => s
  | none => "(null)"

/-- The `for` loop of `handle_error`: the string of the first entry whose code
is `err`. -/
def handle_error.scan (err : Int) : List (Int × Option String) → Option (Option String)
  | [] => none
  | e :: rest => if err = e.1 then some e.2 else handle_error.scan err rest

/-- The exception `handle_error (err)` raises (it never returns). -/
def handle_error (env : Env) (err : Int) : Raised :=
  match handle_error.scan err (errors env) with
  | some str => .rb_eException ("FreeType2 Error: " ++ fmt_s str ++ ".")
  | none => .rb_eException ("FreeType2 Error: Unknown error " ++ toString err ++ ".")

/-! ## Destructors -/

/-- The definition `static void dont_free(void *ptr) { UNUSED(ptr); }` -/
def dont_free (_E : Engine) (s : State) (_ptr : Ptr) : Outcome Unit :=
  ⟨.ok (), s⟩

/-- The function `face_free`: `FT_Done_Face (*ptr)`, then `handle_error` on failure, else
`free (ptr)`. -/
def face_free (env : Env) (E : Engine) (s : State) (ptr : Ptr) : Outcome Unit :=
  let face := deref E s ptr
  let (r, s1) := call E s (.FT_Done_Face face)
  if r.status ≠ 0 then ⟨.error (handle_error env r.status), s1⟩
  else ⟨.ok (), free s1 ptr⟩

/-- The function `glyph_free`: `FT_Done_Glyph (*ptr)`, then `free (ptr)`. -/
def glyph_free (E : Engine) (s : State) (ptr : Ptr) : Outcome Unit :=
  let glyph := deref E s ptr
  let (_, s1) := call E s (.FT_Done_Glyph glyph)
  ⟨.ok (), free s1 ptr⟩

/-- What the garbage collector does with a wrapper: `(*dfree) (DATA_PTR (obj))`.
Objects that are not `T_DATA` have no `dfree`. -/
def run_dfree (env : Env) (E : Engine) (s : State) : Value → Outcome Unit
  | .data _ .face_free p => face_free env E s p
  | .data _ .glyph_free p => glyph_free E s p
  | .data _ .dont_free p => dont_free E s p
  | _ => ⟨.ok (), s⟩

/-! ## Conversion macros of the Ruby C API (Ruby 1.8) -/

/-- Smallest and largest C `int`. -/
def INT_MIN : Int := -2147483648

/-- Largest C `int`. -/
def INT_MAX : Int := 2147483647

/-- The C expression `NUM2INT (v)`: the Integer as a C `int`; `RangeError` outside the range of
`int`, `TypeError` for what is not a number. -/
def NUM2INT : Value → Except Raised Int
  | .int n => if INT_MIN ≤ n ∧ n ≤ INT_MAX then .ok n else .error .rb_eRangeError
  | _ => .error .rb_eTypeError

/-- The C expression `NUM2DBL (v)`: the Integer as a `double`, given by its (integral) value. -/
def NUM2DBL (env : Env) : Value → Except Raised Int
  | .int n => .ok (env.dbl n)
  | _ => .error .rb_eTypeError

/-- The C expression `DBL2FTFIX (a)`: `(double) (a) * 0x10000`. -/
def DBL2FTFIX (a : Int) : Int := a * 0x10000

/-- Whether the Integer fits a Fixnum (`FIXABLE`): one bit of the word is the
tag, one the sign. -/
def FIXABLE (env : Env) (n : Int) : Bool :=
  decide (-(2 ^ (env.long_bits - 2) : Int) ≤ n) && decide (n < (2 ^ (env.long_bits - 2) : Int))

/-- The C expression `FIX2INT (v)` of Ruby 1.8.  Where `int` is shorter than
`long` it is `rb_fix2int (v)`, which converts like `NUM2INT` and checks the
range of `int`.  Where they have the same size it is the unchecked
`(int) ((long) v >> 1)`; with Ruby 1.8 `Qfalse`, `Qtrue` and `Qnil` are the
words 0, 2 and 4. -/
def FIX2INT (env : Env) (v : Value) : Except Raised Int :=
  if env.lp64 then NUM2INT v
  else
    match v with
    | .int n => .ok (if FIXABLE env n then n else env.fix2int_addr (.int n))
    | .Qfalse => .ok 0
    | .Qtrue => .ok 1
    | .Qnil => .ok 2
    | v => .ok (env.fix2int_addr v)

/-- The C expression `INT2FIX (n)`: `(VALUE) (((long) (n)) << 1 | FIXNUM_FLAG)`,
no check.  The Fixnum made has the low `long_bits - 1` bits of `n`, read as a
signed number: `n` itself when `n` fits a Fixnum. -/
def INT2FIX (env : Env) (n : Int) : Value :=
  .int ((n + 2 ^ (env.long_bits - 2)) % 2 ^ (env.long_bits - 1) - 2 ^ (env.long_bits - 2))

/-- The VALUE whose machine word is the C integer `n`, for the words that are
special constants: 0 is `Qfalse`, 2 is `Qtrue`, 4 is `Qnil`, an odd word is
a Fixnum. -/
def VALUE_of_word (n : Int) : Option Value :=
  if n = 0 then some .Qfalse
  else if n = 2 then some .Qtrue
  else if n = 4 then some .Qnil
  else if n % 2 = 1 then some (.int ((n - 1) / 2))
  else none

/-- The C expression `Data_Get_Struct (obj, T, p)`: `Check_Type (obj, T_DATA)`, then
`p = DATA_PTR (obj)`.  The class of `obj` is not looked at. -/
def Data_Get_Struct : Value → Except Raised Ptr
  | .data _ _ p => .ok p
  | _ => .error .rb_eTypeError

/-- The C expression `Data_Wrap_Struct (klass, 0, dfree, ptr)`. -/
def Data_Wrap_Struct (klass : Klass) (dfree : Dfree) (ptr : Ptr) : Value :=
  .data klass dfree ptr

/-- The C expression `RSTRING (v)->ptr`: an unchecked cast.  On a special constant it
dereferences an address near zero. -/
def RSTRING_ptr : Value → Except Raised CharPtr
  | .str s => .ok (.bytes s)
  | .Qnil => .error .fatal
  | .Qtrue => .error .fatal
  | .Qfalse => .error .fatal
  | .int _ => .error .fatal
  | v => .ok (.miscast v)

/-- The C expression `rb_ary_entry (ary, i)`: the element, or `nil` outside the array.  There is
no `Check_Type`: on what is not an Array the behaviour is undefined. -/
def rb_ary_entry : Value → Int → Except Raised Value
  | .ary xs, i =>
    if 0 ≤ i then .ok (xs.getD i.toNat .Qnil)
    else if 0 ≤ i + xs.length then .ok (xs.getD (i + xs.length).toNat .Qnil)
    else .ok .Qnil
  | _, _ => .error .fatal

/-- Class of a value (`CLASS_OF`). -/
def klass_of : Value → Option Klass
  | .str _ => some .rb_cString
  | .data k _ _ => some k
  | .object k => some k
  | _ => none

/-- Whether `c` is `k` or an ancestor of `k` among the classes of `Init_ft2`. -/
def Klass.is_a (k c : Klass) : Bool :=
  k == c || k.super == some c || c == .rb_cObject

/-- The C expression `rb_obj_is_kind_of (v, c)` for `c` one of `rb_cString`, `cLibrary`, ... -/
def rb_obj_is_kind_of (v : Value) (c : Klass) : Bool :=
  match klass_of v with
  | some k => k.is_a c
  | none => false

/-! ## FT2::Face constructors -/

/-- The `switch (argc)` of `ft_face_new`: the library pointer, the VALUE used as
path and the face index, or the exception raised on the way.  `lib` starts as
`&library`, written `none` here. -/
def ft_face_new.args (argv : List Value) :
    Except Raised (Option Ptr × Value × Int) :=
  match argv with
  | [a0] => .ok (none, a0, 0)
  | [a0, a1] =>
    if rb_obj_is_kind_of a0 .rb_cString then do
      let face_index ← NUM2INT a1
      pure (none, a0, face_index)
    else if rb_obj_is_kind_of a0 .cLibrary then do
      let lib ← Data_Get_Struct a0
      pure (some lib, a0, 0)
    else .error (.rb_eArgError "Invalid first argument.")
  | [a0, a1, _] => do
    let lib ← Data_Get_Struct a0
    let face_index ← NUM2INT a1
    pure (some lib, a1, face_index)
  | _ => .error (.rb_eArgError ("Invalid argument count: " ++ toString argv.length ++ "."))

/-- The value of `*lib`. -/
def lib_handle (env : Env) (E : Engine) (s : State) : Option Ptr → Handle
  | none => env.library
  | some p => deref E s p

/-- The function `ft_face_new (argc, argv, klass)`, bound to `FT2::Face.new` and
`FT2::Face.load`.  `rb_obj_call_init` runs `Object#initialize`, which does
nothing. -/
def ft_face_new (env : Env) (E : Engine) (s : State) (argv : List Value) (klass : Klass) :
    Outcome Value :=
  match ft_face_new.args argv with
  | .error e => ⟨.error e, s⟩
  | .ok (lib, path, face_index) =>
    let (face, s1) := malloc s
    match RSTRING_ptr path with
    | .error e => ⟨.error e, s1⟩
    | .ok cpath =>
      let (r, s2) := call E s1 (.FT_New_Face (lib_handle env E s1 lib) cpath face_index face)
      let s3 := poke s2 face (.word r.handle)
      if r.status ≠ 0 then ⟨.error (handle_error env r.status), s3⟩
      else ⟨.ok (Data_Wrap_Struct klass .face_free face), s3⟩

/-- The `switch (argc)` of `ft_face_new_from_memory`: library pointer, `mem`,
`len` and the face index, or the exception raised on the way. -/
def ft_face_new_from_memory.args (argv : List Value) :
    Except Raised (Option Ptr × CharPtr × Int × Int) :=
  match argv with
  | [a0, a1] => do
    let mem ← RSTRING_ptr a0
    let len ← NUM2INT a1
    pure (none, mem, len, 0)
  | [a0, a1, a2] =>
    if rb_obj_is_kind_of a0 .rb_cString then do
      let mem ← RSTRING_ptr a0
      let len ← NUM2INT a1
      let face_index ← NUM2INT a2
      pure (none, mem, len, face_index)
    else if rb_obj_is_kind_of a0 .cLibrary then do
      let lib ← Data_Get_Struct a0
      let mem ← RSTRING_ptr a1
      let len ← NUM2INT a2
      pure (some lib, mem, len, 0)
    else .error (.rb_eArgError "Invalid first argument.")
  | [a0, a1, a2, a3] => do
    let lib ← Data_Get_Struct a0
    let mem ← RSTRING_ptr a1
    let len ← NUM2INT a2
    let face_index ← NUM2INT a3
    pure (some lib, mem, len, face_index)
  | _ => .error (.rb_eArgError ("Invalid argument count: " ++ toString argv.length ++ "."))

/-- The function `ft_face_new_from_memory (argc, argv, klass)`, bound to
`FT2::Face.new_from_memory`. -/
def ft_face_new_from_memory (env : Env) (E : Engine) (s : State) (argv : List Value)
    (klass : Klass) : Outcome Value :=
  match ft_face_new_from_memory.args argv with
  | .error e => ⟨.error e, s⟩
  | .ok (lib, mem, len, face_index) =>
    let (face, s1) := malloc s
    let (r, s2) :=
      call E s1 (.FT_New_Memory_Face (lib_handle env E s1 lib) mem len face_index face)
    let s3 := poke s2 face (.word r.handle)
    if r.status ≠ 0 then ⟨.error (handle_error env r.status), s3⟩
    else ⟨.ok (Data_Wrap_Struct klass .face_free face), s3⟩

/-! ## FT2::Face methods -/

/-- Values of enumerators of the FreeType headers that `ft2.c` names. -/
def FT_LOAD_DEFAULT : Int := 0

/-- The enumerator `ft_kerning_default` of the FreeType headers. -/
def ft_kerning_default : Int := 0

/-- The enumerator `ft_render_mode_normal` of the FreeType headers. -/
def ft_render_mode_normal : Int := 0

/-- Finish of the methods that make one status-returning call and answer
`self`: `if (err != FT_Err_Ok) handle_error (err); return self;`. -/
def status_or (env : Env) (r : Reply) (s : State) (v : Value) : Outcome Value :=
  if r.status ≠ 0 then ⟨.error (handle_error env r.status), s⟩ else ⟨.ok v, s⟩

/-- The function `ft_face_glyph (self)`, bound to `FT2::Face#glyph`. -/
def ft_face_glyph (E : Engine) (s : State) (self : Value) : Outcome Value :=
  match Data_Get_Struct self with
  | .error e => ⟨.error e, s⟩
  | .ok face =>
    if E.rd s.trace (.field (deref E s face) .glyph) ≠ 0 then
      ⟨.ok (Data_Wrap_Struct .cGlyphSlot .dont_free (.field (deref E s face) .glyph)), s⟩
    else ⟨.ok .Qnil, s⟩

/-- The function `ft_face_size (self)`, bound to `FT2::Face#size`. -/
def ft_face_size (E : Engine) (s : State) (self : Value) : Outcome Value :=
  match Data_Get_Struct self with
  | .error e => ⟨.error e, s⟩
  | .ok face =>
    if E.rd s.trace (.field (deref E s face) .size) ≠ 0 then
      ⟨.ok (Data_Wrap_Struct .cSize .dont_free
        (.obj (E.rd s.trace (.field (deref E s face) .size)))), s⟩
    else ⟨.ok .Qnil, s⟩

/-- The function `ft_face_charmap (self)`, bound to `FT2::Face#charmap`. -/
def ft_face_charmap (E : Engine) (s : State) (self : Value) : Outcome Value :=
  match Data_Get_Struct self with
  | .error e => ⟨.error e, s⟩
  | .ok face =>
    if E.rd s.trace (.field (deref E s face) .charmap) ≠ 0 then
      ⟨.ok (Data_Wrap_Struct .cCharMap .dont_free
        (.obj (E.rd s.trace (.field (deref E s face) .charmap)))), s⟩
    else ⟨.ok .Qnil, s⟩

/-- The function `ft_face_attach (self, path)`, bound to `FT2::Face#attach`. -/
def ft_face_attach (env : Env) (E : Engine) (s : State) (self path : Value) :
    Outcome Value :=
  match (do
      let face ← Data_Get_Struct self
      let cpath ← RSTRING_ptr path
      pure (face, cpath) : Except Raised (Ptr × CharPtr)) with
  | .error e => ⟨.error e, s⟩
  | .ok (face, cpath) =>
    let (r, s1) := call E s (.FT_Attach_File (deref E s face) cpath)
    status_or env r s1 self

/-- The function `ft_face_set_char_size (self, c_w, c_h, h_r, v_r)`, bound to
`FT2::Face#set_char_size`. -/
def ft_face_set_char_size (env : Env) (E : Engine) (s : State)
    (self c_w c_h h_r v_r : Value) : Outcome Value :=
  match (do
      let face ← Data_Get_Struct self
      let w ← NUM2DBL env c_w
      let h ← NUM2DBL env c_h
      let hr ← NUM2INT h_r
      let vr ← NUM2INT v_r
      pure (face, w, h, hr, vr) : Except Raised (Ptr × Int × Int × Int × Int)) with
  | .error e => ⟨.error e, s⟩
  | .ok (face, w, h, hr, vr) =>
    let (r, s1) := call E s (.FT_Set_Char_Size (deref E s face) w h hr vr)
    status_or env r s1 self

/-- The function `ft_face_set_pixel_sizes (self, pixel_w, pixel_h)`, bound to
`FT2::Face#set_pixel_sizes`. -/
def ft_face_set_pixel_sizes (env : Env) (E : Engine) (s : State)
    (self pixel_w pixel_h : Value) : Outcome Value :=
  match (do
      let face ← Data_Get_Struct self
      let w ← NUM2INT pixel_w
      let h ← NUM2INT pixel_h
      pure (face, w, h) : Except Raised (Ptr × Int × Int)) with
  | .error e => ⟨.error e, s⟩
  | .ok (face, w, h) =>
    let (r, s1) := call E s (.FT_Set_Pixel_Sizes (deref E s face) w h)
    status_or env r s1 self

/-- The C expression `flags == Qnil` and the like: identity of VALUE words. -/
def Value.is_nil : Value → Bool
  | .Qnil => true
  | _ => false

/-- The function `ft_face_load_glyph (self, glyph_index, flags)`, bound to
`FT2::Face#load_glyph`. -/
def ft_face_load_glyph (env : Env) (E : Engine) (s : State)
    (self glyph_index flags : Value) : Outcome Value :=
  match (do
      let face ← Data_Get_Struct self
      let flags := if flags.is_nil then INT2FIX env FT_LOAD_DEFAULT else flags
      let i ← NUM2INT glyph_index
      let f ← NUM2INT flags
      pure (face, i, f) : Except Raised (Ptr × Int × Int)) with
  | .error e => ⟨.error e, s⟩
  | .ok (face, i, f) =>
    let (r, s1) := call E s (.FT_Load_Glyph (deref E s face) i f)
    status_or env r s1 self

/-- The function `ft_face_load_char (self, char_code, flags)`, bound to
`FT2::Face#load_char`. -/
def ft_face_load_char (env : Env) (E : Engine) (s : State)
    (self char_code flags : Value) : Outcome Value :=
  match (do
      let face ← Data_Get_Struct self
      let c ← NUM2INT char_code
      let f ← NUM2INT flags
      pure (face, c, f) : Except Raised (Ptr × Int × Int)) with
  | .error e => ⟨.error e, s⟩
  | .ok (face, c, f) =>
    let (r, s1) := call E s (.FT_Load_Char (deref E s face) c f)
    status_or env r s1 self

/-- The C expression `NUM2INT (n)` where `n` is a C integer used as a VALUE. -/
def NUM2INT_word (n : Int) : Except Raised Int :=
  match VALUE_of_word n with
  | some v => NUM2INT v
  | none => .error .fatal

/-- The function `ft_face_kerning (self, left_glyph, right_glyph, kern_mode)`, bound to
`FT2::Face#kerning`.  For `nil` the code does
`kern_mode = NUM2INT (ft_kerning_default)` and later `NUM2INT (kern_mode)`. -/
def ft_face_kerning (env : Env) (E : Engine) (s : State)
    (self left_glyph right_glyph kern_mode : Value) : Outcome Value :=
  match (do
      let face ← Data_Get_Struct self
      let km ←
        if kern_mode.is_nil then (NUM2INT_word ft_kerning_default).map Sum.inr
        else pure (Sum.inl kern_mode)
      let l ← NUM2INT left_glyph
      let r ← NUM2INT right_glyph
      let mode ←
        match km with
        | Sum.inl v => NUM2INT v
        | Sum.inr k => NUM2INT_word k
      pure (face, l, r, mode) : Except Raised (Ptr × Int × Int × Int)) with
  | .error e => ⟨.error e, s⟩
  | .ok (face, l, r, mode) =>
    let (rep, s1) := call E s (.FT_Get_Kerning (deref E s face) l r mode)
    status_or env rep s1 (.ary [INT2FIX env rep.x, INT2FIX env rep.y])

/-- The function `ft_face_glyph_name (self, glyph_index)`, bound to `FT2::Face#glyph_name`;
`buf` is `char buf[1024]`. -/
def ft_face_glyph_name (env : Env) (E : Engine) (s : State)
    (self glyph_index : Value) : Outcome Value :=
  match (do
      let face ← Data_Get_Struct self
      let i ← NUM2INT glyph_index
      pure (face, i) : Except Raised (Ptr × Int)) with
  | .error e => ⟨.error e, s⟩
  | .ok (face, i) =>
    let (r, s1) := call E s (.FT_Get_Glyph_Name (deref E s face) i 1024)
    status_or env r s1 (if r.name.length ≠ 0 then .str r.name else .Qnil)

/-- The function `ft_face_select_charmap (self, encoding)`, bound to
`FT2::Face#select_charmap`. -/
def ft_face_select_charmap (env : Env) (E : Engine) (s : State)
    (self encoding : Value) : Outcome Value :=
  match (do
      let face ← Data_Get_Struct self
      let e ← NUM2INT encoding
      pure (face, e) : Except Raised (Ptr × Int)) with
  | .error e => ⟨.error e, s⟩
  | .ok (face, e) =>
    let (r, s1) := call E s (.FT_Select_Charmap (deref E s face) e)
    status_or env r s1 self

/-- The function `ft_face_set_charmap (self, charmap)`, bound to `FT2::Face#set_charmap`. -/
def ft_face_set_charmap (env : Env) (E : Engine) (s : State)
    (self charmap : Value) : Outcome Value :=
  match (do
      let face ← Data_Get_Struct self
      let cm ← Data_Get_Struct charmap
      pure (face, cm) : Except Raised (Ptr × Ptr)) with
  | .error e => ⟨.error e, s⟩
  | .ok (face, cm) =>
    let (r, s1) := call E s (.FT_Set_Charmap (deref E s face) (deref E s cm))
    status_or env r s1 self

/-! ## FT2::GlyphSlot methods -/

/-- The function `ft_glyphslot_render (self, render_mode)`, bound to `FT2::GlyphSlot#render`. -/
def ft_glyphslot_render (env : Env) (E : Engine) (s : State)
    (self render_mode : Value) : Outcome Value :=
  match (do
      let glyph ← Data_Get_Struct self
      let render_mode := if render_mode.is_nil then INT2FIX env ft_render_mode_normal else render_mode
      let m ← NUM2INT render_mode
      pure (glyph, m) : Except Raised (Ptr × Int)) with
  | .error e => ⟨.error e, s⟩
  | .ok (glyph, m) =>
    let (r, s1) := call E s (.FT_Render_Glyph (deref E s glyph) m)
    status_or env r s1 self

/-- The function `ft_glyphslot_glyph (self)`, bound to `FT2::GlyphSlot#glyph`: the block is
allocated first, and released again when the engine fails. -/
def ft_glyphslot_glyph (env : Env) (E : Engine) (s : State) (self : Value) :
    Outcome Value :=
  let (glyph, s1) := malloc s
  match Data_Get_Struct self with
  | .error e => ⟨.error e, s1⟩
  | .ok slot =>
    let (r, s2) := call E s1 (.FT_Get_Glyph (deref E s1 slot) glyph)
    let s3 := poke s2 glyph (.word r.handle)
    if r.status ≠ 0 then ⟨.error (handle_error env r.status), free s3 glyph⟩
    else ⟨.ok (Data_Wrap_Struct .cGlyph .glyph_free glyph), s3⟩

/-- The accessors that copy one pointer member into a fresh block:
`p = malloc (..); *p = (*self)->member; Data_Wrap_Struct (klass, 0, dont_free, p)`. -/
def wrap_member_copy (E : Engine) (s : State) (self : Value) (member : Field)
    (klass : Klass) : Outcome Value :=
  match Data_Get_Struct self with
  | .error e => ⟨.error e, s⟩
  | .ok p =>
    let (q, s1) := malloc s
    let s2 := poke s1 q (.word (E.rd s.trace (.field (deref E s p) member)))
    ⟨.ok (Data_Wrap_Struct klass .dont_free q), s2⟩

/-- The accessors that copy one record member into a fresh block by structure
assignment. -/
def wrap_record_copy (E : Engine) (s : State) (self : Value) (member : Field)
    (klass : Klass) : Outcome Value :=
  match Data_Get_Struct self with
  | .error e => ⟨.error e, s⟩
  | .ok p =>
    let (q, s1) := malloc s
    let s2 := poke s1 q (.record (E.rds s.trace (.field (deref E s p) member)))
    ⟨.ok (Data_Wrap_Struct klass .dont_free q), s2⟩

/-- The function `ft_glyphslot_library (self)`, bound to `FT2::GlyphSlot#library`. -/
def ft_glyphslot_library (E : Engine) (s : State) (self : Value) : Outcome Value :=
  wrap_member_copy E s self .library .cLibrary

/-- The function `ft_glyphslot_face (self)`, bound to `FT2::GlyphSlot#face`. -/
def ft_glyphslot_face (E : Engine) (s : State) (self : Value) : Outcome Value :=
  wrap_member_copy E s self .face .cFace

/-- The function `ft_glyphslot_next (self)`, bound to `FT2::GlyphSlot#next`. -/
def ft_glyphslot_next (E : Engine) (s : State) (self : Value) : Outcome Value :=
  wrap_member_copy E s self .next .cGlyphSlot

/-- The function `ft_glyphslot_metrics (self)`, bound to `FT2::GlyphSlot#metrics`. -/
def ft_glyphslot_metrics (E : Engine) (s : State) (self : Value) : Outcome Value :=
  wrap_record_copy E s self .metrics .cGlyphMetrics

/-- The function `ft_glyphslot_bitmap (self)`, bound to `FT2::GlyphSlot#bitmap`. -/
def ft_glyphslot_bitmap (E : Engine) (s : State) (self : Value) : Outcome Value :=
  wrap_record_copy E s self .bitmap .cBitmap

/-- The function `ft_glyphslot_outline (self)`, bound to `FT2::GlyphSlot#outline`. -/
def ft_glyphslot_outline (E : Engine) (s : State) (self : Value) : Outcome Value :=
  wrap_record_copy E s self .outline .cOutline

/-! ## FT2::Size methods -/

/-- The function `ft_size_face (self)`, bound to `FT2::Size#face`. -/
def ft_size_face (E : Engine) (s : State) (self : Value) : Outcome Value :=
  wrap_member_copy E s self .face .cFace

/-- The function `ft_size_metrics (self)`, bound to `FT2::Size#metrics`. -/
def ft_size_metrics (E : Engine) (s : State) (self : Value) : Outcome Value :=
  wrap_record_copy E s self .metrics .cSizeMetrics

/-! ## FT2::Glyph, FT2::BitmapGlyph and FT2::OutlineGlyph methods -/

/-- The function `ft_glyph_library (self)`, bound to `FT2::Glyph#library`: the member itself
becomes the data pointer. -/
def ft_glyph_library (E : Engine) (s : State) (self : Value) : Outcome Value :=
  match Data_Get_Struct self with
  | .error e => ⟨.error e, s⟩
  | .ok glyph =>
    ⟨.ok (Data_Wrap_Struct .cLibrary .dont_free
      (.obj (E.rd s.trace (.field (deref E s glyph) .library)))), s⟩

/-- The accessors that wrap the address of a member:
`Data_Wrap_Struct (klass, 0, dfree, &(*glyph)->member)`. -/
def wrap_member_addr (E : Engine) (s : State) (self : Value) (member : Field)
    (klass : Klass) (dfree : Dfree) : Outcome Value :=
  match Data_Get_Struct self with
  | .error e => ⟨.error e, s⟩
  | .ok glyph => ⟨.ok (Data_Wrap_Struct klass dfree (.field (deref E s glyph) member)), s⟩

/-- The function `ft_glyph_class (self)`, bound to `FT2::Glyph#class`. -/
def ft_glyph_class (E : Engine) (s : State) (self : Value) : Outcome Value :=
  wrap_member_addr E s self .clazz .cGlyphClass .dont_free

/-- The function `ft_glyph_dup (self)`, bound to `FT2::Glyph#dup`. -/
def ft_glyph_dup (env : Env) (E : Engine) (s : State) (self : Value) : Outcome Value :=
  let (new_glyph, s1) := malloc s
  match Data_Get_Struct self with
  | .error e => ⟨.error e, s1⟩
  | .ok glyph =>
    let (r, s2) := call E s1 (.FT_Glyph_Copy (deref E s1 glyph) new_glyph)
    let s3 := poke s2 new_glyph (.word r.handle)
    if r.status ≠ 0 then ⟨.error (handle_error env r.status), s3⟩
    else ⟨.ok (Data_Wrap_Struct .cGlyph .glyph_free new_glyph), s3⟩

/-- Entry `[i][j]` of the matrix argument:
`DBL2FTFIX (NUM2DBL (rb_ary_entry (rb_ary_entry (matrix_ary, i), j)))`. -/
def matrix_entry (env : Env) (matrix_ary : Value) (i j : Int) : Except Raised Int := do
  let row ← rb_ary_entry matrix_ary i
  let e ← rb_ary_entry row j
  let d ← NUM2DBL env e
  pure (DBL2FTFIX d)

/-- Entry `i` of a vector argument: `NUM2INT (rb_ary_entry (ary, i))`. -/
def vector_entry (ary : Value) (i : Int) : Except Raised Int := do
  let e ← rb_ary_entry ary i
  NUM2INT e

/-- The function `ft_glyph_transform (self, matrix_ary, delta_ary)`, bound to
`FT2::Glyph#transform`. -/
def ft_glyph_transform (env : Env) (E : Engine) (s : State)
    (self matrix_ary delta_ary : Value) : Outcome Value :=
  match (do
      let xx ← matrix_entry env matrix_ary 0 0
      let xy ← matrix_entry env matrix_ary 0 1
      let yx ← matrix_entry env matrix_ary 1 0
      let yy ← matrix_entry env matrix_ary 1 1
      let dx ← vector_entry delta_ary 0
      let dy ← vector_entry delta_ary 1
      let glyph ← Data_Get_Struct self
      pure (glyph, xx, xy, yx, yy, dx, dy) :
        Except Raised (Ptr × Int × Int × Int × Int × Int × Int)) with
  | .error e => ⟨.error e, s⟩
  | .ok (glyph, xx, xy, yx, yy, dx, dy) =>
    let (r, s1) := call E s (.FT_Glyph_Transform (deref E s glyph) xx xy yx yy dx dy)
    status_or env r s1 self

/-- The function `ft_glyph_to_bmap (self, render_mode, origin, destroy)`, bound to
`FT2::Glyph#to_bmap`.  The engine replaces `*glyph` in place. -/
def ft_glyph_to_bmap (env : Env) (E : Engine) (s : State)
    (self render_mode origin destroy : Value) : Outcome Value :=
  match (do
      let glyph ← Data_Get_Struct self
      let x ← vector_entry origin 0
      let y ← vector_entry origin 1
      let d : Int := if !destroy.is_nil then 1 else 0
      let m ← FIX2INT env render_mode
      pure (glyph, x, y, d, m) : Except Raised (Ptr × Int × Int × Int × Int)) with
  | .error e => ⟨.error e, s⟩
  | .ok (glyph, x, y, d, m) =>
    let (r, s1) := call E s (.FT_Glyph_To_Bitmap glyph (deref E s glyph) m x y d)
    let s2 := poke s1 glyph (.word r.handle)
    status_or env r s2 self

/-- The function `ft_bmapglyph_bitmap (self)`, bound to `FT2::BitmapGlyph#bitmap`. -/
def ft_bmapglyph_bitmap (E : Engine) (s : State) (self : Value) : Outcome Value :=
  wrap_member_addr E s self .bitmap .cBitmapGlyph .glyph_free

/-- The sixteen methods whose engine call returns an `FT_Error`, with their
arguments. -/
inductive StatusOp where
  | face_new (argv : List Value) (klass : Klass)
  | face_new_from_memory (argv : List Value) (klass : Klass)
  | face_attach (self path : Value)
  | face_set_char_size (self c_w c_h h_r v_r : Value)
  | face_set_pixel_sizes (self pixel_w pixel_h : Value)
  | face_load_glyph (self glyph_index flags : Value)
  | face_load_char (self char_code flags : Value)
  | face_kerning (self left_glyph right_glyph kern_mode : Value)
  | face_glyph_name (self glyph_index : Value)
  | face_select_charmap (self encoding : Value)
  | face_set_charmap (self charmap : Value)
  | glyphslot_render (self render_mode : Value)
  | glyphslot_glyph (self : Value)
  | glyph_dup (self : Value)
  | glyph_transform (self matrix_ary delta_ary : Value)
  | glyph_to_bmap (self render_mode origin destroy : Value)

/-- Run the C function behind the method. -/
def StatusOp.run (env : Env) (E : Engine) (s : State) : StatusOp → Outcome Value
  | .face_new argv klass => ft_face_new env E s argv klass
  | .face_new_from_memory argv klass => ft_face_new_from_memory env E s argv klass
  | .face_attach self path => ft_face_attach env E s self path
  | .face_set_char_size self c_w c_h h_r v_r => ft_face_set_char_size env E s self c_w c_h h_r v_r
  | .face_set_pixel_sizes self w h => ft_face_set_pixel_sizes env E s self w h
  | .face_load_glyph self i f => ft_face_load_glyph env E s self i f
  | .face_load_char self c f => ft_face_load_char env E s self c f
  | .face_kerning self l r m => ft_face_kerning env E s self l r m
  | .face_glyph_name self i => ft_face_glyph_name env E s self i
  | .face_select_charmap self e => ft_face_select_charmap env E s self e
  | .face_set_charmap self cm => ft_face_set_charmap env E s self cm
  | .glyphslot_render self m => ft_glyphslot_render env E s self m
  | .glyphslot_glyph self => ft_glyphslot_glyph env E s self
  | .glyph_dup self => ft_glyph_dup env E s self
  | .glyph_transform self m d => ft_glyph_transform env E s self m d
  | .glyph_to_bmap self m o d => ft_glyph_to_bmap env E s self m o d

/-- The result the method documents for a successful engine call with reply
`r`: a new owning wrapper for the four that produce a native object, the
kerning vector, the glyph name (or `nil`), and the receiver for the rest. -/
def StatusOp.normal (env : Env) (r : Reply) (v : Value) : StatusOp → Prop
  | .face_new _ klass => ∃ p, v = .data klass .face_free p
  | .face_new_from_memory _ klass => ∃ p, v = .data klass .face_free p
  | .face_attach self _ => v = self
  | .face_set_char_size self _ _ _ _ => v = self
  | .face_set_pixel_sizes self _ _ => v = self
  | .face_load_glyph self _ _ => v = self
  | .face_load_char self _ _ => v = self
  | .face_kerning _ _ _ _ => v = .ary [INT2FIX env r.x, INT2FIX env r.y]
  | .face_glyph_name _ _ => v = if r.name.length ≠ 0 then .str r.name else .Qnil
  | .face_select_charmap self _ => v = self
  | .face_set_charmap self _ => v = self
  | .glyphslot_render self _ => v = self
  | .glyphslot_glyph _ => ∃ p, v = .data .cGlyph .glyph_free p
  | .glyph_dup _ => ∃ p, v = .data .cGlyph .glyph_free p
  | .glyph_transform self _ _ => v = self
  | .glyph_to_bmap self _ _ _ => v = self

/-- Whether the exception is the one `handle_error` raises (`rb_eException`). -/
def Raised.is_engine_error : Raised → Bool
  | .rb_eException _ => true
  | _ => false

/-- Fail-fast behaviour of an outcome `o` reached from state `s`: either an
argument was rejected before any engine call, or exactly one engine call `c`
was made, and then a non-zero status is raised through `handle_error` while
status zero yields a value satisfying `normal`. -/
def FailFast (env : Env) (E : Engine) (s : State) (o : Outcome Value)
    (normal : Reply → Value → Prop) : Prop :=
  (o.state.trace = s.trace ∧ ∃ e, o.result = .error e ∧ e.is_engine_error = false) ∨
  (∃ c, o.state.trace = s.trace ++ [c] ∧
    ((E.reply s.trace c).status ≠ 0 →
      o.result = .error (handle_error env (E.reply s.trace c).status)) ∧
    ((E.reply s.trace c).status = 0 →
      ∃ v, o.result = .ok v ∧ normal (E.reply s.trace c) v))

/-- The outcome `o`, reached from state `s`, made the engine call `c` and no
other: a non-zero status of `c` is raised through `handle_error`, status zero
yields the value `v`. -/
def OneCall (env : Env) (E : Engine) (s : State) (o : Outcome Value) (c : NativeCall)
    (v : Value) : Prop :=
  o.state.trace = s.trace ++ [c] ∧
  ((E.reply s.trace c).status ≠ 0 →
    o.result = .error (handle_error env (E.reply s.trace c).status)) ∧
  ((E.reply s.trace c).status = 0 → o.result = .ok v)

/-- An argument conversion raises nothing that `handle_error` raises. -/
def Clean {α : Type} (x : Except Raised α) : Prop :=
  ∀ e, x = .error e → e.is_engine_error = false

/-! ## Character-code iteration of FT2::Face -/

/-- The machine word of a VALUE, as the `unsigned long` it is: `Qfalse`, `Qtrue`
and `Qnil` are 0, 2 and 4, a Fixnum `n` is `2 n + 1`, anything else is the
address of its heap object. -/
def VALUE_word (env : Env) : Value → Int
  | .Qfalse => 0
  | .Qtrue => 2
  | .Qnil => 4
  | .int n => if FIXABLE env n then (2 * n + 1) % 2 ^ env.long_bits else env.addr (.int n)
  | v => env.addr v

/-- The C expression `UINT2NUM (n)`: the Integer with the value of the unsigned
number. -/
def UINT2NUM (n : Nat) : Value := .int n

/-- The function `ft_face_first_char (self)`, bound to `FT2::Face#first_char`. -/
def ft_face_first_char (E : Engine) (s : State) (self : Value) : Outcome Value :=
  match Data_Get_Struct self with
  | .error e => ⟨.error e, s⟩
  | .ok face =>
    let (r, s1) := call E s (.FT_Get_First_Char (deref E s face))
    ⟨.ok (.ary [UINT2NUM r.char_code, UINT2NUM r.glyph_index]), s1⟩

/-- The function `ft_face_next_char (self, char_code)`, bound to
`FT2::Face#next_char`: the VALUE `char_code` itself is the `FT_ULong` argument
of `FT_Get_Next_Char`. -/
def ft_face_next_char (env : Env) (E : Engine) (s : State) (self char_code : Value) :
    Outcome Value :=
  match Data_Get_Struct self with
  | .error e => ⟨.error e, s⟩
  | .ok face =>
    let (r, s1) := call E s (.FT_Get_Next_Char (deref E s face) (VALUE_word env char_code))
    ⟨.ok (.ary [UINT2NUM r.char_code, UINT2NUM r.glyph_index]), s1⟩

/-- The call `rb_hash_aset (hash, key, val)` on the entries of a Hash: the value
of an existing key is replaced, a new key is added at the end. -/
def rb_hash_aset : List (Int × Int) → Int → Int → List (Int × Int)
  | [], k, v => [(k, v)]
  | e :: rest, k, v => if e.1 = k then (k, v) :: rest else e :: rb_hash_aset rest k v

/-- The `while (c_code != 0)` loop of `ft_face_current_charmap`, run for at most
`fuel` tests of its condition; `none` when the fuel runs out. -/
def ft_face_current_charmap.loop (E : Engine) (face : Handle) :
    Nat → State → Nat → Nat → List (Int × Int) → Option (List (Int × Int) × State)
  | 0, _, _, _, _ => none
  | fuel + 1, s, c_code, g_idx, rtn =>
    if c_code ≠ 0 then
      let rtn1 := rb_hash_aset rtn c_code g_idx
      let (r, s1) := call E s (.FT_Get_Next_Char face c_code)
      ft_face_current_charmap.loop E face fuel s1 r.char_code r.glyph_index rtn1
    else some (rtn, s)

/-- The function `ft_face_current_charmap (self)`, bound to
`FT2::Face#current_charmap`; `none` when the loop does not end within `fuel`
tests. -/
def ft_face_current_charmap (E : Engine) (fuel : Nat) (s : State) (self : Value) :
    Option (Outcome Value) :=
  match Data_Get_Struct self with
  | .error e => some ⟨.error e, s⟩
  | .ok face =>
    let (r, s1) := call E s (.FT_Get_First_Char (deref E s face))
    if r.glyph_index = 0 ∨ r.char_code = 0 then some ⟨.ok .Qnil, s1⟩
    else
      match ft_face_current_charmap.loop E (deref E s face) fuel s1
          r.char_code r.glyph_index [] with
      | none => none
      | some (rtn, s2) => some ⟨.ok (.hash rtn), s2⟩

/-! ## Fixed-point conversions and the advances of FT2::GlyphSlot -/

/-- The C expression `FTFIX2DBL (a)`, that is `(double) (a) / 0x10000`, as the
real number it denotes. -/
def FTFIX2DBL (a : Int) : ℚ := (a : ℚ) / 0x10000

/-- The function `ft_fixed_to_double (fixed)`:
`((0xffff0000 & fixed) >> 16) + ((double) (0xffff & fixed) / 0xffff)`, as the
real number the expression denotes.  On a two's complement `long` the mask
`0xffff0000 & fixed` shifted right by 16 is the number made of bits 16 to 31,
`(fixed / 2^16) % 2^16`, and `0xffff & fixed` is `fixed % 2^16`. -/
def ft_fixed_to_double (fixed : Int) : ℚ :=
  ((fixed / 0x10000 % 0x10000 : Int) : ℚ) + ((fixed % 0x10000 : Int) : ℚ) / 0xffff

/-- The function `ft_glyphslot_h_advance (self)`, bound to
`FT2::GlyphSlot#h_advance`; the result is the number given to `rb_float_new`. -/
def ft_glyphslot_h_advance (E : Engine) (s : State) (self : Value) : Outcome ℚ :=
  match Data_Get_Struct self with
  | .error e => ⟨.error e, s⟩
  | .ok glyph =>
    ⟨.ok (FTFIX2DBL (E.rdi s.trace (.field (deref E s glyph) .linearHoriAdvance))), s⟩

/-- The function `ft_glyphslot_v_advance (self)`, bound to
`FT2::GlyphSlot#v_advance`; the result is the number given to `rb_float_new`. -/
def ft_glyphslot_v_advance (E : Engine) (s : State) (self : Value) : Outcome ℚ :=
  match Data_Get_Struct self with
  | .error e => ⟨.error e, s⟩
  | .ok glyph =>
    ⟨.ok (ft_fixed_to_double (E.rdi s.trace (.field (deref E s glyph) .linearVertAdvance))), s⟩

/-! ## The instance-method table built by `Init_ft2` -/

/-- The C functions that `Init_ft2` binds with `rb_define_method`. -/
inductive CFunc where
  | ft_bitmap_rows | ft_bitmap_width | ft_bitmap_pitch | ft_bitmap_buffer | ft_bitmap_num_grays
  | ft_bitmap_pixel_mode | ft_bitmap_palette_mode | ft_bitmap_palette | ft_face_faces
  | ft_face_index | ft_face_flags | ft_face_flag_scalable | ft_face_flag_fixed_sizes
  | ft_face_flag_fixed_width | ft_face_flag_horizontal | ft_face_flag_vertical
  | ft_face_flag_sfnt | ft_face_flag_kerning | ft_face_flag_external_stream
  | ft_face_flag_fast_glyphs | ft_face_style_flags | ft_face_flag_bold | ft_face_flag_italic
  | ft_face_glyphs | ft_face_family | ft_face_style | ft_face_fixed_sizes
  | ft_face_available_sizes | ft_face_num_charmaps | ft_face_charmaps | ft_face_bbox
  | ft_face_units_per_em | ft_face_ascender | ft_face_descender | ft_face_height
  | ft_face_max_advance_width | ft_face_max_advance_height | ft_face_underline_position
  | ft_face_underline_thickness | ft_face_glyph | ft_face_size | ft_face_charmap
  | ft_face_attach | ft_face_load_glyph | ft_face_load_char | ft_face_char_index
  | ft_face_name_index | ft_face_kerning | ft_face_glyph_name | ft_face_ps_name
  | ft_face_select_charmap | ft_face_set_charmap | ft_face_first_char | ft_face_next_char
  | ft_face_current_charmap | ft_face_set_char_size | ft_face_set_pixel_sizes
  | ft_face_set_transform | ft_glyphmetrics_width | ft_glyphmetrics_height
  | ft_glyphmetrics_h_bear_x | ft_glyphmetrics_h_bear_y | ft_glyphmetrics_h_advance
  | ft_glyphmetrics_v_bear_x | ft_glyphmetrics_v_bear_y | ft_glyphmetrics_v_advance
  | ft_glyphslot_library | ft_glyphslot_face | ft_glyphslot_next | ft_glyphslot_metrics
  | ft_glyphslot_h_advance | ft_glyphslot_v_advance | ft_glyphslot_advance | ft_glyphslot_format
  | ft_glyphslot_bitmap | ft_glyphslot_bitmap_left | ft_glyphslot_bitmap_top
  | ft_glyphslot_outline | ft_glyphslot_num_subglyphs | ft_glyphslot_subglyphs
  | ft_glyphslot_control_data | ft_glyphslot_control_len | ft_glyphslot_render
  | ft_glyphslot_glyph | ft_size_face | ft_size_metrics | ft_size_metrics_x_ppem
  | ft_size_metrics_y_ppem | ft_size_metrics_x_scale | ft_size_metrics_y_scale
  | ft_glyph_library | ft_glyph_class | ft_glyph_format | ft_glyph_advance | ft_glyph_dup
  | ft_glyph_transform | ft_glyph_cbox | ft_glyph_to_bmap | ft_bmapglyph_left | ft_bmapglyph_top
  | ft_bmapglyph_bitmap
  deriving DecidableEq, Repr

/-- The statements of `Init_ft2` that fill instance-method tables.
(`rb_define_singleton_method` puts a method on the class object itself and is
not listed.) -/
inductive InitStmt where
  | rb_define_method (klass : Klass) (name : String) (func : CFunc) (argc : Int)
  | rb_define_alias (klass : Klass) (new_name old_name : String)

/-- The statements of `Init_ft2` for `FT2::Bitmap`, in the order of the source. -/
def Init_ft2.stmts_cBitmap : List InitStmt := [
  InitStmt.rb_define_method Klass.cBitmap "rows" CFunc.ft_bitmap_rows 0,
  InitStmt.rb_define_method Klass.cBitmap "width" CFunc.ft_bitmap_width 0,
  InitStmt.rb_define_method Klass.cBitmap "pitch" CFunc.ft_bitmap_pitch 0,
  InitStmt.rb_define_method Klass.cBitmap "buffer" CFunc.ft_bitmap_buffer 0,
  InitStmt.rb_define_method Klass.cBitmap "num_grays" CFunc.ft_bitmap_num_grays 0,
  InitStmt.rb_define_method Klass.cBitmap "pixel_mode" CFunc.ft_bitmap_pixel_mode 0,
  InitStmt.rb_define_method Klass.cBitmap "palette_mode" CFunc.ft_bitmap_palette_mode 0,
  InitStmt.rb_define_method Klass.cBitmap "palette" CFunc.ft_bitmap_palette 0]

/-- The statements of `Init_ft2` for `FT2::Face` (part 1), in the order of the source. -/
def Init_ft2.stmts_cFace_1 : List InitStmt := [
  InitStmt.rb_define_method Klass.cFace "faces" CFunc.ft_face_faces 0,
  InitStmt.rb_define_alias Klass.cFace "num_faces" "faces",
  InitStmt.rb_define_method Klass.cFace "index" CFunc.ft_face_index 0,
  InitStmt.rb_define_alias Klass.cFace "face_index" "index",
  InitStmt.rb_define_method Klass.cFace "flags" CFunc.ft_face_flags 0,
  InitStmt.rb_define_alias Klass.cFace "face_flags" "flags",
  InitStmt.rb_define_method Klass.cFace "scalable?" CFunc.ft_face_flag_scalable 0,
  InitStmt.rb_define_method Klass.cFace "fixed_sizes?" CFunc.ft_face_flag_fixed_sizes 0,
  InitStmt.rb_define_method Klass.cFace "fixed_width?" CFunc.ft_face_flag_fixed_width 0,
  InitStmt.rb_define_method Klass.cFace "horizontal?" CFunc.ft_face_flag_horizontal 0,
  InitStmt.rb_define_method Klass.cFace "vertical?" CFunc.ft_face_flag_vertical 0,
  InitStmt.rb_define_method Klass.cFace "sfnt?" CFunc.ft_face_flag_sfnt 0,
  InitStmt.rb_define_method Klass.cFace "kerning?" CFunc.ft_face_flag_kerning 0,
  InitStmt.rb_define_method Klass.cFace "external_stream?" CFunc.ft_face_flag_external_stream 0,
  InitStmt.rb_define_method Klass.cFace "fast_glyphs?" CFunc.ft_face_flag_fast_glyphs 0,
  InitStmt.rb_define_method Klass.cFace "style_flags" CFunc.ft_face_style_flags 0,
  InitStmt.rb_define_method Klass.cFace "bold?" CFunc.ft_face_flag_bold 0,
  InitStmt.rb_define_method Klass.cFace "italic?" CFunc.ft_face_flag_italic 0,
  InitStmt.rb_define_method Klass.cFace "glyphs" CFunc.ft_face_glyphs 0,
  InitStmt.rb_define_alias Klass.cFace "num_glyphs" "glyphs",
  InitStmt.rb_define_method Klass.cFace "family" CFunc.ft_face_family 0,
  InitStmt.rb_define_method Klass.cFace "style" CFunc.ft_face_style 0,
  InitStmt.rb_define_method Klass.cFace "fixed_sizes" CFunc.ft_face_fixed_sizes 0,
  InitStmt.rb_define_alias Klass.cFace "num_fixed_sizes" "fixed_sizes"]

/-- The statements of `Init_ft2` for `FT2::Face` (part 2), in the order of the source. -/
def Init_ft2.stmts_cFace_2 : List InitStmt := [
  InitStmt.rb_define_method Klass.cFace "available_sizes" CFunc.ft_face_available_sizes 0,
  InitStmt.rb_define_alias Klass.cFace "num_available_sizes" "available_sizes",
  InitStmt.rb_define_method Klass.cFace "num_charmaps" CFunc.ft_face_num_charmaps 0,
  InitStmt.rb_define_method Klass.cFace "charmaps" CFunc.ft_face_charmaps 0,
  InitStmt.rb_define_method Klass.cFace "bbox" CFunc.ft_face_bbox 0,
  InitStmt.rb_define_method Klass.cFace "units_per_em" CFunc.ft_face_units_per_em 0,
  InitStmt.rb_define_alias Klass.cFace "units_per_EM" "units_per_em",
  InitStmt.rb_define_method Klass.cFace "ascender" CFunc.ft_face_ascender 0,
  InitStmt.rb_define_method Klass.cFace "descender" CFunc.ft_face_descender 0,
  InitStmt.rb_define_method Klass.cFace "height" CFunc.ft_face_height 0,
  InitStmt.rb_define_method Klass.cFace "max_advance_width" CFunc.ft_face_max_advance_width 0,
  InitStmt.rb_define_method Klass.cFace "max_advance_height" CFunc.ft_face_max_advance_height 0,
  InitStmt.rb_define_method Klass.cFace "underline_position" CFunc.ft_face_underline_position 0,
  InitStmt.rb_define_method Klass.cFace "underline_thickness" CFunc.ft_face_underline_thickness 0,
  InitStmt.rb_define_method Klass.cFace "glyph" CFunc.ft_face_glyph 0,
  InitStmt.rb_define_method Klass.cFace "size" CFunc.ft_face_size 0,
  InitStmt.rb_define_method Klass.cFace "charmap" CFunc.ft_face_charmap 0,
  InitStmt.rb_define_method Klass.cFace "attach" CFunc.ft_face_attach 1,
  InitStmt.rb_define_alias Klass.cFace "attach_file" "attach",
  InitStmt.rb_define_method Klass.cFace "load_glyph" CFunc.ft_face_load_glyph 2,
  InitStmt.rb_define_method Klass.cFace "load_char" CFunc.ft_face_load_char 2,
  InitStmt.rb_define_method Klass.cFace "char_index" CFunc.ft_face_char_index 1,
  InitStmt.rb_define_method Klass.cFace "name_index" CFunc.ft_face_name_index 1,
  InitStmt.rb_define_method Klass.cFace "kerning" CFunc.ft_face_kerning 3]

/-- The statements of `Init_ft2` for `FT2::Face` (part 3), in the order of the source. -/
def Init_ft2.stmts_cFace_3 : List InitStmt := [
  InitStmt.rb_define_alias Klass.cFace "get_kerning" "kerning",
  InitStmt.rb_define_method Klass.cFace "glyph_name" CFunc.ft_face_glyph_name 1,
  InitStmt.rb_define_method Klass.cFace "postscript_name" CFunc.ft_face_ps_name 0,
  InitStmt.rb_define_alias Klass.cFace "name" "postscript_name",
  InitStmt.rb_define_method Klass.cFace "select_charmap" CFunc.ft_face_select_charmap 1,
  InitStmt.rb_define_method Klass.cFace "set_charmap" CFunc.ft_face_set_charmap 1,
  InitStmt.rb_define_alias Klass.cFace "charmap=" "set_charmap",
  InitStmt.rb_define_method Klass.cFace "first_char" CFunc.ft_face_first_char 0,
  InitStmt.rb_define_method Klass.cFace "next_char" CFunc.ft_face_next_char 1,
  InitStmt.rb_define_method Klass.cFace "current_charmap" CFunc.ft_face_current_charmap 0,
  InitStmt.rb_define_method Klass.cFace "set_char_size" CFunc.ft_face_set_char_size 4,
  InitStmt.rb_define_method Klass.cFace "set_pixel_sizes" CFunc.ft_face_set_pixel_sizes 2,
  InitStmt.rb_define_method Klass.cFace "set_transform" CFunc.ft_face_set_transform 2]

/-- The statements of `Init_ft2` for `FT2::GlyphMetrics` (part 1), in the order of the source. -/
def Init_ft2.stmts_cGlyphMetrics_1 : List InitStmt := [
  InitStmt.rb_define_method Klass.cGlyphMetrics "width" CFunc.ft_glyphmetrics_width 0,
  InitStmt.rb_define_alias Klass.cGlyphMetrics "w" "width",
  InitStmt.rb_define_method Klass.cGlyphMetrics "height" CFunc.ft_glyphmetrics_height 0,
  InitStmt.rb_define_alias Klass.cGlyphMetrics "h" "height",
  InitStmt.rb_define_method Klass.cGlyphMetrics "h_bearing_x" CFunc.ft_glyphmetrics_h_bear_x 0,
  InitStmt.rb_define_alias Klass.cGlyphMetrics "horiBearingX" "h_bearing_x",
  InitStmt.rb_define_alias Klass.cGlyphMetrics "h_bear_x" "h_bearing_x",
  InitStmt.rb_define_alias Klass.cGlyphMetrics "hbx" "h_bearing_x",
  InitStmt.rb_define_method Klass.cGlyphMetrics "h_bearing_y" CFunc.ft_glyphmetrics_h_bear_y 0,
  InitStmt.rb_define_alias Klass.cGlyphMetrics "horiBearingY" "h_bearing_y",
  InitStmt.rb_define_alias Klass.cGlyphMetrics "h_bear_y" "h_bearing_y",
  InitStmt.rb_define_alias Klass.cGlyphMetrics "hby" "h_bearing_y",
  InitStmt.rb_define_method Klass.cGlyphMetrics "h_advance" CFunc.ft_glyphmetrics_h_advance 0,
  InitStmt.rb_define_alias Klass.cGlyphMetrics "horiAdvance" "h_advance",
  InitStmt.rb_define_alias Klass.cGlyphMetrics "ha" "h_advance",
  InitStmt.rb_define_method Klass.cGlyphMetrics "v_bearing_x" CFunc.ft_glyphmetrics_v_bear_x 0,
  InitStmt.rb_define_alias Klass.cGlyphMetrics "vertBearingX" "v_bearing_x",
  InitStmt.rb_define_alias Klass.cGlyphMetrics "v_bear_x" "v_bearing_x",
  InitStmt.rb_define_alias Klass.cGlyphMetrics "vbx" "v_bearing_x",
  InitStmt.rb_define_method Klass.cGlyphMetrics "v_bearing_y" CFunc.ft_glyphmetrics_v_bear_y 0,
  InitStmt.rb_define_alias Klass.cGlyphMetrics "vertBearingY" "v_bearing_y",
  InitStmt.rb_define_alias Klass.cGlyphMetrics "v_bear_y" "v_bearing_y",
  InitStmt.rb_define_alias Klass.cGlyphMetrics "vby" "v_bearing_y",
  InitStmt.rb_define_method Klass.cGlyphMetrics "v_advance" CFunc.ft_glyphmetrics_v_advance 0]

/-- The statements of `Init_ft2` for `FT2::GlyphMetrics` (part 2), in the order of the source. -/
def Init_ft2.stmts_cGlyphMetrics_2 : List InitStmt := [
  InitStmt.rb_define_alias Klass.cGlyphMetrics "vertAdvance" "v_advance",
  InitStmt.rb_define_alias Klass.cGlyphMetrics "va" "v_advance"]

/-- The statements of `Init_ft2` for `FT2::GlyphSlot` (part 1), in the order of the source. -/
def Init_ft2.stmts_cGlyphSlot_1 : List InitStmt := [
  InitStmt.rb_define_method Klass.cGlyphSlot "library" CFunc.ft_glyphslot_library 0,
  InitStmt.rb_define_method Klass.cGlyphSlot "face" CFunc.ft_glyphslot_face 0,
  InitStmt.rb_define_method Klass.cGlyphSlot "next" CFunc.ft_glyphslot_next 0,
  InitStmt.rb_define_method Klass.cGlyphSlot "metrics" CFunc.ft_glyphslot_metrics 0,
  InitStmt.rb_define_method Klass.cGlyphSlot "h_advance" CFunc.ft_glyphslot_h_advance 0,
  InitStmt.rb_define_alias Klass.cGlyphSlot "linearHoriAdvance" "h_advance",
  InitStmt.rb_define_alias Klass.cGlyphSlot "h_adv" "h_advance",
  InitStmt.rb_define_alias Klass.cGlyphSlot "ha" "h_advance",
  InitStmt.rb_define_method Klass.cGlyphSlot "v_advance" CFunc.ft_glyphslot_v_advance 0,
  InitStmt.rb_define_alias Klass.cGlyphSlot "linearVertAdvance" "h_advance",
  InitStmt.rb_define_alias Klass.cGlyphSlot "v_adv" "h_advance",
  InitStmt.rb_define_alias Klass.cGlyphSlot "va" "h_advance",
  InitStmt.rb_define_method Klass.cGlyphSlot "advance" CFunc.ft_glyphslot_advance 0,
  InitStmt.rb_define_method Klass.cGlyphSlot "format" CFunc.ft_glyphslot_format 0,
  InitStmt.rb_define_method Klass.cGlyphSlot "bitmap" CFunc.ft_glyphslot_bitmap 0,
  InitStmt.rb_define_method Klass.cGlyphSlot "bitmap_left" CFunc.ft_glyphslot_bitmap_left 0,
  InitStmt.rb_define_method Klass.cGlyphSlot "bitmap_top" CFunc.ft_glyphslot_bitmap_top 0,
  InitStmt.rb_define_method Klass.cGlyphSlot "outline" CFunc.ft_glyphslot_outline 0,
  InitStmt.rb_define_method Klass.cGlyphSlot "num_subglyphs" CFunc.ft_glyphslot_num_subglyphs 0,
  InitStmt.rb_define_method Klass.cGlyphSlot "subglyphs" CFunc.ft_glyphslot_subglyphs 0,
  InitStmt.rb_define_method Klass.cGlyphSlot "control_data" CFunc.ft_glyphslot_control_data 0,
  InitStmt.rb_define_method Klass.cGlyphSlot "control_len" CFunc.ft_glyphslot_control_len 0,
  InitStmt.rb_define_method Klass.cGlyphSlot "render" CFunc.ft_glyphslot_render 1,
  InitStmt.rb_define_alias Klass.cGlyphSlot "render_glyph" "render"]

/-- The statements of `Init_ft2` for `FT2::GlyphSlot` (part 2), in the order of the source. -/
def Init_ft2.stmts_cGlyphSlot_2 : List InitStmt := [
  InitStmt.rb_define_method Klass.cGlyphSlot "glyph" CFunc.ft_glyphslot_glyph 0,
  InitStmt.rb_define_alias Klass.cGlyphSlot "get_glyph" "glyph"]

/-- The statements of `Init_ft2` for `FT2::Size`, in the order of the source. -/
def Init_ft2.stmts_cSize : List InitStmt := [
  InitStmt.rb_define_method Klass.cSize "face" CFunc.ft_size_face 0,
  InitStmt.rb_define_method Klass.cSize "metrics" CFunc.ft_size_metrics 0]

/-- The statements of `Init_ft2` for `FT2::SizeMetrics`, in the order of the source. -/
def Init_ft2.stmts_cSizeMetrics : List InitStmt := [
  InitStmt.rb_define_method Klass.cSizeMetrics "x_ppem" CFunc.ft_size_metrics_x_ppem 0,
  InitStmt.rb_define_method Klass.cSizeMetrics "y_ppem" CFunc.ft_size_metrics_y_ppem 0,
  InitStmt.rb_define_method Klass.cSizeMetrics "x_scale" CFunc.ft_size_metrics_x_scale 0,
  InitStmt.rb_define_method Klass.cSizeMetrics "y_scale" CFunc.ft_size_metrics_y_scale 0]

/-- The statements of `Init_ft2` for `FT2::Glyph`, in the order of the source. -/
def Init_ft2.stmts_cGlyph : List InitStmt := [
  InitStmt.rb_define_method Klass.cGlyph "library" CFunc.ft_glyph_library 0,
  InitStmt.rb_define_method Klass.cGlyph "class" CFunc.ft_glyph_class 0,
  InitStmt.rb_define_alias Klass.cGlyph "clazz" "class",
  InitStmt.rb_define_method Klass.cGlyph "format" CFunc.ft_glyph_format 0,
  InitStmt.rb_define_method Klass.cGlyph "advance" CFunc.ft_glyph_advance 0,
  InitStmt.rb_define_method Klass.cGlyph "dup" CFunc.ft_glyph_dup 0,
  InitStmt.rb_define_alias Klass.cGlyph "copy" "dup",
  InitStmt.rb_define_method Klass.cGlyph "transform" CFunc.ft_glyph_transform 2,
  InitStmt.rb_define_method Klass.cGlyph "cbox" CFunc.ft_glyph_cbox 1,
  InitStmt.rb_define_alias Klass.cGlyph "control_box" "cbox",
  InitStmt.rb_define_method Klass.cGlyph "to_bmap" CFunc.ft_glyph_to_bmap 3,
  InitStmt.rb_define_alias Klass.cGlyph "to_bitmap" "to_bmap"]

/-- The statements of `Init_ft2` for `FT2::BitmapGlyph`, in the order of the source. -/
def Init_ft2.stmts_cBitmapGlyph : List InitStmt := [
  InitStmt.rb_define_method Klass.cBitmapGlyph "left" CFunc.ft_bmapglyph_left 0,
  InitStmt.rb_define_method Klass.cBitmapGlyph "top" CFunc.ft_bmapglyph_top 0,
  InitStmt.rb_define_method Klass.cBitmapGlyph "bitmap" CFunc.ft_bmapglyph_bitmap 0]

/-- The `rb_define_method` and `rb_define_alias` statements of `Init_ft2`, in
the order of the source. -/
def Init_ft2.stmts : List InitStmt :=
  Init_ft2.stmts_cBitmap ++
  Init_ft2.stmts_cFace_1 ++
  Init_ft2.stmts_cFace_2 ++
  Init_ft2.stmts_cFace_3 ++
  Init_ft2.stmts_cGlyphMetrics_1 ++
  Init_ft2.stmts_cGlyphMetrics_2 ++
  Init_ft2.stmts_cGlyphSlot_1 ++
  Init_ft2.stmts_cGlyphSlot_2 ++
  Init_ft2.stmts_cSize ++
  Init_ft2.stmts_cSizeMetrics ++
  Init_ft2.stmts_cGlyph ++
  Init_ft2.stmts_cBitmapGlyph

/-- A method table: class, method name and the C function bound to it, newest
entry first. -/
abbrev MethodTable := List (Klass × String × CFunc)

/-- The entry of `klass` itself for `name`. -/
def MethodTable.own (tbl : MethodTable) (klass : Klass) (name : String) : Option CFunc :=
  (tbl.find? (fun e => e.1 == klass && e.2.1 == name)).map (fun e => e.2.2)

/-- Method lookup: the class itself, then its superclasses (the classes of
`Init_ft2` are at most two steps below `Object`). -/
def MethodTable.search (tbl : MethodTable) (klass : Klass) (name : String) : Option CFunc :=
  match tbl.own klass name with
  | some f => some f
  | none =>
    match klass.super with
    | none => none
    | some k1 =>
      match tbl.own k1 name with
      | some f => some f
      | none =>
        match k1.super with
        | none => none
        | some k2 => tbl.own k2 name

/-- Effect of one statement on the table: `rb_define_method` binds the function,
`rb_define_alias` binds the new name to what the old name denotes at that
moment (an alias of an unbound name, which Ruby rejects with `NameError`, adds
nothing; `Init_ft2` has none). -/
def InitStmt.exec (tbl : MethodTable) : InitStmt → MethodTable
  | .rb_define_method klass name func _ => (klass, name, func) :: tbl
  | .rb_define_alias klass new_name old_name =>
    match tbl.search klass old_name with
    | some f => (klass, new_name, f) :: tbl
    | none => tbl

/-- The instance-method table when `Init_ft2` has run. -/
def Init_ft2.methods : MethodTable :=
  List.foldl InitStmt.exec [] Init_ft2.stmts

/-- The C function that runs when the method `name` is called on `v`, if the
binding defines one for the class of `v`. -/
def method_of (v : Value) (name : String) : Option CFunc :=
  match klass_of v with
  | some k => Init_ft2.methods.search k name
  | none => none

/-- Dispatch of the GlyphSlot methods that end in one of the two advance
functions: the function the method table gives for `name` is run on `self`;
`none` when `name` is bound to neither. -/
def send_advance (E : Engine) (s : State) (self : Value) (name : String) :
    Option (Outcome ℚ) :=
  match method_of self name with
  | some .ft_glyphslot_h_advance => some (ft_glyphslot_h_advance E s self)
  | some .ft_glyphslot_v_advance => some (ft_glyphslot_v_advance E s self)
  | _ => none

/-- The constant `FT2::KerningMode::DEFAULT`, defined in `define_constants` as
`INT2FIX (ft_kerning_default)`. -/
def KerningMode_DEFAULT (env : Env) : Value := INT2FIX env ft_kerning_default

/-! ## FT2::SizeMetrics methods -/

/-- The record a data pointer points at: the copy held by a block of the
binding, or what native memory holds there.  The words are the members of the
record in the order of their declaration. -/
def load_record (E : Engine) (s : State) : Ptr → List Int
  | .cell i =>
    match s.cells.getD i .uninit with
    | .record words => words
    | _ => E.rds s.trace (.cell i)
  | p => E.rds s.trace p

/-- The C cast `(int) n` of a `long`. -/
def int_cast (n : Int) : Int := (n + 2 ^ 31) % 2 ^ 32 - 2 ^ 31

/-- The accessors of `FT2::SizeMetrics`:
`Data_Get_Struct (self, FT_Size_Metrics, size_metrics);
return INT2FIX ((int) (*size_metrics).member);` for the member number `i` of
`FT_Size_Metrics` (`x_ppem`, `y_ppem`, `x_scale`, `y_scale` are members 0 to 3). -/
def size_metrics_member (env : Env) (E : Engine) (s : State) (self : Value) (i : Nat) : Outcome Value :=
  match Data_Get_Struct self with
  | .error e => ⟨.error e, s⟩
  | .ok size_metrics => ⟨.ok (INT2FIX env (int_cast ((load_record E s size_metrics).getD i 0))), s⟩

/-- The function `ft_size_metrics_x_ppem (self)`, bound to
`FT2::SizeMetrics#x_ppem`. -/
def ft_size_metrics_x_ppem (env : Env) (E : Engine) (s : State) (self : Value) : Outcome Value :=
  size_metrics_member env E s self 0

/-- The function `ft_size_metrics_y_ppem (self)`, bound to
`FT2::SizeMetrics#y_ppem`. -/
def ft_size_metrics_y_ppem (env : Env) (E : Engine) (s : State) (self : Value) : Outcome Value :=
  size_metrics_member env E s self 1

/-- The function `ft_size_metrics_x_scale (self)`, bound to
`FT2::SizeMetrics#x_scale`. -/
def ft_size_metrics_x_scale (env : Env) (E : Engine) (s : State) (self : Value) : Outcome Value :=
  size_metrics_member env E s self 2

/-- The function `ft_size_metrics_y_scale (self)`, bound to
`FT2::SizeMetrics#y_scale`. -/
def ft_size_metrics_y_scale (env : Env) (E : Engine) (s : State) (self : Value) : Outcome Value :=
  size_metrics_member env E s self 3

/-! ## The charmap protocol of the engine -/

/-- Widening of a charmap entry to the Integers a Hash holds. -/
def entry_to_int (e : Nat × Nat) : Int × Int := ((e.1 : Int), (e.2 : Int))

/-- What `FT_Get_First_Char` reports on a charmap given as the list of its
(code, glyph index) entries: the first entry, or code 0 with glyph index 0. -/
def first_entry (cm : List (Nat × Nat)) : Nat × Nat :=
  cm.headD (0, 0)

/-- What `FT_Get_Next_Char` reports after code `c`: the first entry whose code
is greater than `c`, or code 0 with glyph index 0. -/
def next_entry (cm : List (Nat × Nat)) (c : Int) : Nat × Nat :=
  (cm.find? (fun e => decide (c < (e.1 : Int)))).getD (0, 0)

/-- The engine follows the charmap protocol for the charmap `cm` of `face`, at
every point of the history. -/
def IsCharmap (E : Engine) (face : Handle) (cm : List (Nat × Nat)) : Prop :=
  (∀ tr, ((E.reply tr (.FT_Get_First_Char face)).char_code,
      (E.reply tr (.FT_Get_First_Char face)).glyph_index) = first_entry cm) ∧
  (∀ tr c, ((E.reply tr (.FT_Get_Next_Char face c)).char_code,
      (E.reply tr (.FT_Get_Next_Char face c)).glyph_index) = next_entry cm c)

/-! ## The transform of FT2::Face -/

/-- The first `if` of `ft_face_set_transform`: the matrix `m` built when
`matrix != Qnil`, members `xx`, `xy`, `yx`, `yy` in this order; `xy` is taken
from entry `[1][0]` and `yx` from entry `[0][1]`, as in the source. -/
def ft_face_set_transform.matrix (env : Env) (matrix : Value) :
    Except Raised (Option (Int × Int × Int × Int)) :=
  if !matrix.is_nil then do
    let xx ← matrix_entry env matrix 0 0
    let xy ← matrix_entry env matrix 1 0
    let yx ← matrix_entry env matrix 0 1
    let yy ← matrix_entry env matrix 1 1
    pure (some (xx, xy, yx, yy))
  else pure none

/-- The second `if` of `ft_face_set_transform`: the vector `v` built when
`delta != Qnil`. -/
def ft_face_set_transform.delta (delta : Value) : Except Raised (Option (Int × Int)) :=
  if !delta.is_nil then do
    let x ← vector_entry delta 0
    let y ← vector_entry delta 1
    pure (some (x, y))
  else pure none

/-- The function `ft_face_set_transform (self, matrix, delta)`, bound to
`FT2::Face#set_transform`.  `FT_Set_Transform` returns nothing; each of the
four branches passes `&m` or `NULL` and `&v` or `NULL`. -/
def ft_face_set_transform (env : Env) (E : Engine) (s : State)
    (self matrix delta : Value) : Outcome Value :=
  match (do
      let face ← Data_Get_Struct self
      let m ← ft_face_set_transform.matrix env matrix
      let v ← ft_face_set_transform.delta delta
      pure (face, m, v) :
        Except Raised (Ptr × Option (Int × Int × Int × Int) × Option (Int × Int))) with
  | .error e => ⟨.error e, s⟩
  | .ok (face, m, v) =>
    if !matrix.is_nil && !delta.is_nil then
      ⟨.ok self, (call E s (.FT_Set_Transform (deref E s face) m v)).2⟩
    else if matrix.is_nil && !delta.is_nil then
      ⟨.ok self, (call E s (.FT_Set_Transform (deref E s face) none v)).2⟩
    else if !matrix.is_nil && delta.is_nil then
      ⟨.ok self, (call E s (.FT_Set_Transform (deref E s face) m none)).2⟩
    else
      ⟨.ok self, (call E s (.FT_Set_Transform (deref E s face) none none)).2⟩

/-! ## Accessors of the record wrappers -/

/-- The C expression `INT2NUM (n)`. -/
def INT2NUM (n : Int) : Value := .int n

/-- The accessors of `FT2::GlyphMetrics`:
`Data_Get_Struct (self, FT_Glyph_Metrics, glyph); return INT2NUM (glyph->member);`
for the member number `i` of `FT_Glyph_Metrics` (`width`, `height`,
`horiBearingX`, `horiBearingY`, `horiAdvance`, `vertBearingX`, `vertBearingY`,
`vertAdvance` are members 0 to 7). -/
def glyphmetrics_member (E : Engine) (s : State) (self : Value) (i : Nat) : Outcome Value :=
  match Data_Get_Struct self with
  | .error e => ⟨.error e, s⟩
  | .ok glyph => ⟨.ok (INT2NUM ((load_record E s glyph).getD i 0)), s⟩

/-- The function `ft_glyphmetrics_width (self)`, bound to `FT2::GlyphMetrics#width`. -/
def ft_glyphmetrics_width (E : Engine) (s : State) (self : Value) : Outcome Value :=
  glyphmetrics_member E s self 0

/-- The function `ft_glyphmetrics_height (self)`, bound to
`FT2::GlyphMetrics#height`. -/
def ft_glyphmetrics_height (E : Engine) (s : State) (self : Value) : Outcome Value :=
  glyphmetrics_member E s self 1

/-- The function `ft_glyphmetrics_h_bear_x (self)`, bound to
`FT2::GlyphMetrics#h_bearing_x`. -/
def ft_glyphmetrics_h_bear_x (E : Engine) (s : State) (self : Value) : Outcome Value :=
  glyphmetrics_member E s self 2

/-- The function `ft_glyphmetrics_h_bear_y (self)`, bound to
`FT2::GlyphMetrics#h_bearing_y`. -/
def ft_glyphmetrics_h_bear_y (E : Engine) (s : State) (self : Value) : Outcome Value :=
  glyphmetrics_member E s self 3

/-- The function `ft_glyphmetrics_h_advance (self)`, bound to
`FT2::GlyphMetrics#h_advance`. -/
def ft_glyphmetrics_h_advance (E : Engine) (s : State) (self : Value) : Outcome Value :=
  glyphmetrics_member E s self 4

/-- The function `ft_glyphmetrics_v_bear_x (self)`, bound to
`FT2::GlyphMetrics#v_bearing_x`. -/
def ft_glyphmetrics_v_bear_x (E : Engine) (s : State) (self : Value) : Outcome Value :=
  glyphmetrics_member E s self 5

/-- The function `ft_glyphmetrics_v_bear_y (self)`, bound to
`FT2::GlyphMetrics#v_bearing_y`. -/
def ft_glyphmetrics_v_bear_y (E : Engine) (s : State) (self : Value) : Outcome Value :=
  glyphmetrics_member E s self 6

/-- The function `ft_glyphmetrics_v_advance (self)`, bound to
`FT2::GlyphMetrics#v_advance`. -/
def ft_glyphmetrics_v_advance (E : Engine) (s : State) (self : Value) : Outcome Value :=
  glyphmetrics_member E s self 7

/-- The scalar accessors of `FT2::Bitmap`:
`Data_Get_Struct (self, FT_Bitmap, bitmap); return INT2FIX (bitmap->member);`
for the member number `i` of `FT_Bitmap` (`rows`, `width`, `pitch`, `buffer`,
`num_grays`, `pixel_mode`, `palette_mode`, `palette` are members 0 to 7). -/
def bitmap_member (env : Env) (E : Engine) (s : State) (self : Value) (i : Nat) : Outcome Value :=
  match Data_Get_Struct self with
  | .error e => ⟨.error e, s⟩
  | .ok bitmap => ⟨.ok (INT2FIX env ((load_record E s bitmap).getD i 0)), s⟩

/-- The function `ft_bitmap_rows (self)`, bound to `FT2::Bitmap#rows`. -/
def ft_bitmap_rows (env : Env) (E : Engine) (s : State) (self : Value) : Outcome Value :=
  bitmap_member env E s self 0

/-- The function `ft_bitmap_width (self)`, bound to `FT2::Bitmap#width`. -/
def ft_bitmap_width (env : Env) (E : Engine) (s : State) (self : Value) : Outcome Value :=
  bitmap_member env E s self 1

/-- The function `ft_bitmap_pitch (self)`, bound to `FT2::Bitmap#pitch`. -/
def ft_bitmap_pitch (env : Env) (E : Engine) (s : State) (self : Value) : Outcome Value :=
  bitmap_member env E s self 2

/-- The function `ft_bitmap_num_grays (self)`, bound to `FT2::Bitmap#num_grays`. -/
def ft_bitmap_num_grays (env : Env) (E : Engine) (s : State) (self : Value) : Outcome Value :=
  bitmap_member env E s self 4

/-- The function `ft_bitmap_pixel_mode (self)`, bound to `FT2::Bitmap#pixel_mode`. -/
def ft_bitmap_pixel_mode (env : Env) (E : Engine) (s : State) (self : Value) : Outcome Value :=
  bitmap_member env E s self 5

/-- The three accessors that return a copied record. -/
inductive SnapshotSource where
  | glyphslot_metrics | size_metrics | glyphslot_bitmap
  deriving DecidableEq, Repr

/-- Run the accessor on its parent `self`. -/
def SnapshotSource.run (E : Engine) (s : State) (self : Value) : SnapshotSource → Outcome Value
  | .glyphslot_metrics => ft_glyphslot_metrics E s self
  | .size_metrics => ft_size_metrics E s self
  | .glyphslot_bitmap => ft_glyphslot_bitmap E s self

/-- The member of the parent record that the accessor copies. -/
def SnapshotSource.member : SnapshotSource → Field
  | .glyphslot_metrics => .metrics
  | .size_metrics => .metrics
  | .glyphslot_bitmap => .bitmap

/-- The scalar accessors of the copied records: eight of `FT2::GlyphMetrics`,
four of `FT2::SizeMetrics`, five of `FT2::Bitmap`. -/
inductive SnapshotAccessor where
  | glyphmetrics_width | glyphmetrics_height | glyphmetrics_h_bear_x | glyphmetrics_h_bear_y
  | glyphmetrics_h_advance | glyphmetrics_v_bear_x | glyphmetrics_v_bear_y
  | glyphmetrics_v_advance
  | size_metrics_x_ppem | size_metrics_y_ppem | size_metrics_x_scale | size_metrics_y_scale
  | bitmap_rows | bitmap_width | bitmap_pitch | bitmap_num_grays | bitmap_pixel_mode
  deriving DecidableEq, Repr

/-- Run the accessor on the wrapper `w`. -/
def SnapshotAccessor.run (env : Env) (E : Engine) (s : State) (w : Value) : SnapshotAccessor → Outcome Value
  | .glyphmetrics_width => ft_glyphmetrics_width E s w
  | .glyphmetrics_height => ft_glyphmetrics_height E s w
  | .glyphmetrics_h_bear_x => ft_glyphmetrics_h_bear_x E s w
  | .glyphmetrics_h_bear_y => ft_glyphmetrics_h_bear_y E s w
  | .glyphmetrics_h_advance => ft_glyphmetrics_h_advance E s w
  | .glyphmetrics_v_bear_x => ft_glyphmetrics_v_bear_x E s w
  | .glyphmetrics_v_bear_y => ft_glyphmetrics_v_bear_y E s w
  | .glyphmetrics_v_advance => ft_glyphmetrics_v_advance E s w
  | .size_metrics_x_ppem => ft_size_metrics_x_ppem env E s w
  | .size_metrics_y_ppem => ft_size_metrics_y_ppem env E s w
  | .size_metrics_x_scale => ft_size_metrics_x_scale env E s w
  | .size_metrics_y_scale => ft_size_metrics_y_scale env E s w
  | .bitmap_rows => ft_bitmap_rows env E s w
  | .bitmap_width => ft_bitmap_width env E s w
  | .bitmap_pitch => ft_bitmap_pitch env E s w
  | .bitmap_num_grays => ft_bitmap_num_grays env E s w
  | .bitmap_pixel_mode => ft_bitmap_pixel_mode env E s w

/-- Whether the operation is one of those that change the parent of a snapshot:
`load_glyph`, `load_char`, `render`, `set_char_size`, `set_pixel_sizes`. -/
def StatusOp.changes_parent : StatusOp → Bool
  | .face_load_glyph _ _ _ => true
  | .face_load_char _ _ _ => true
  | .glyphslot_render _ _ => true
  | .face_set_char_size _ _ _ _ _ => true
  | .face_set_pixel_sizes _ _ _ => true
  | _ => false

/-- Run a sequence of operations one after the other, whatever each returns or
raises; the state reached. -/
def run_ops (env : Env) (E : Engine) : List StatusOp → State → State
  | [], s => s
  | op :: rest, s => run_ops env E rest (op.run env E s).state

/-! ## The flags of FT2::Face -/

/-- The flag macros of the FreeType header used by `ft2.c`.  Each
`FT_FACE_FLAG_*` and `FT_STYLE_FLAG_*` macro is `( 1L << k )`; the field gives
the bit number `k`. -/
structure FlagBits where
  FT_FACE_FLAG_SCALABLE : Nat
  FT_FACE_FLAG_FIXED_SIZES : Nat
  FT_FACE_FLAG_FIXED_WIDTH : Nat
  FT_FACE_FLAG_HORIZONTAL : Nat
  FT_FACE_FLAG_VERTICAL : Nat
  FT_FACE_FLAG_SFNT : Nat
  FT_FACE_FLAG_KERNING : Nat
  FT_FACE_FLAG_MULTIPLE_MASTERS : Nat
  FT_FACE_FLAG_GLYPH_NAMES : Nat
  FT_FACE_FLAG_EXTERNAL_STREAM : Nat
  FT_FACE_FLAG_FAST_GLYPHS : Nat
  FT_STYLE_FLAG_BOLD : Nat
  FT_STYLE_FLAG_ITALIC : Nat

/-- The value of the macro `( 1L << k )`. -/
def FLAG (k : Nat) : Int := ((2 ^ k : Nat) : Int)

/-- The function `ft_face_flags (self)`, bound to `FT2::Face#flags`:
`INT2FIX ((int) (*face)->face_flags)`. -/
def ft_face_flags (env : Env) (E : Engine) (s : State) (self : Value) : Outcome Value :=
  match Data_Get_Struct self with
  | .error e => ⟨.error e, s⟩
  | .ok face =>
    ⟨.ok (INT2FIX env (int_cast (E.rdi s.trace (.field (deref E s face) .face_flags)))), s⟩

/-- The function `ft_face_style_flags (self)`, bound to `FT2::Face#style_flags`:
`INT2FIX ((int) (*face)->style_flags)`. -/
def ft_face_style_flags (env : Env) (E : Engine) (s : State) (self : Value) : Outcome Value :=
  match Data_Get_Struct self with
  | .error e => ⟨.error e, s⟩
  | .ok face =>
    ⟨.ok (INT2FIX env (int_cast (E.rdi s.trace (.field (deref E s face) .style_flags)))), s⟩

/-- The body shared by the boolean flag methods:
`return ((*face)->member & MACRO) ? Qtrue : Qfalse;` with `MACRO` the flag whose
bit number is `k`. -/
def face_flag_test (E : Engine) (s : State) (self : Value) (member : Field) (k : Nat) :
    Outcome Value :=
  match Data_Get_Struct self with
  | .error e => ⟨.error e, s⟩
  | .ok face =>
    if Int.land (E.rdi s.trace (.field (deref E s face) member)) (FLAG k) ≠ 0 then
      ⟨.ok .Qtrue, s⟩
    else ⟨.ok .Qfalse, s⟩

/-- The function `ft_face_flag_scalable (self)`, bound to `FT2::Face#scalable?`. -/
def ft_face_flag_scalable (fm : FlagBits) (E : Engine) (s : State) (self : Value) :
    Outcome Value :=
  face_flag_test E s self .face_flags fm.FT_FACE_FLAG_SCALABLE

/-- The function `ft_face_flag_fixed_sizes (self)`, bound to
`FT2::Face#fixed_sizes?`. -/
def ft_face_flag_fixed_sizes (fm : FlagBits) (E : Engine) (s : State) (self : Value) :
    Outcome Value :=
  face_flag_test E s self .face_flags fm.FT_FACE_FLAG_FIXED_SIZES

/-- The function `ft_face_flag_fixed_width (self)`, bound to
`FT2::Face#fixed_width?`. -/
def ft_face_flag_fixed_width (fm : FlagBits) (E : Engine) (s : State) (self : Value) :
    Outcome Value :=
  face_flag_test E s self .face_flags fm.FT_FACE_FLAG_FIXED_WIDTH

/-- The function `ft_face_flag_horizontal (self)`, bound to
`FT2::Face#horizontal?`. -/
def ft_face_flag_horizontal (fm : FlagBits) (E : Engine) (s : State) (self : Value) :
    Outcome Value :=
  face_flag_test E s self .face_flags fm.FT_FACE_FLAG_HORIZONTAL

/-- The function `ft_face_flag_vertical (self)`, bound to `FT2::Face#vertical?`. -/
def ft_face_flag_vertical (fm : FlagBits) (E : Engine) (s : State) (self : Value) :
    Outcome Value :=
  face_flag_test E s self .face_flags fm.FT_FACE_FLAG_VERTICAL

/-- The function `ft_face_flag_sfnt (self)`, bound to `FT2::Face#sfnt?`. -/
def ft_face_flag_sfnt (fm : FlagBits) (E : Engine) (s : State) (self : Value) :
    Outcome Value :=
  face_flag_test E s self .face_flags fm.FT_FACE_FLAG_SFNT

/-- The function `ft_face_flag_kerning (self)`, bound to `FT2::Face#kerning?`. -/
def ft_face_flag_kerning (fm : FlagBits) (E : Engine) (s : State) (self : Value) :
    Outcome Value :=
  face_flag_test E s self .face_flags fm.FT_FACE_FLAG_KERNING

/-- The function `ft_face_flag_external_stream (self)`, bound to
`FT2::Face#external_stream?`. -/
def ft_face_flag_external_stream (fm : FlagBits) (E : Engine) (s : State) (self : Value) :
    Outcome Value :=
  face_flag_test E s self .face_flags fm.FT_FACE_FLAG_EXTERNAL_STREAM

/-- The function `ft_face_flag_fast_glyphs (self)`, bound to
`FT2::Face#fast_glyphs?`. -/
def ft_face_flag_fast_glyphs (fm : FlagBits) (E : Engine) (s : State) (self : Value) :
    Outcome Value :=
  face_flag_test E s self .face_flags fm.FT_FACE_FLAG_FAST_GLYPHS

/-- The function `ft_face_flag_bold (self)`, bound to `FT2::Face#bold?`. -/
def ft_face_flag_bold (fm : FlagBits) (E : Engine) (s : State) (self : Value) :
    Outcome Value :=
  face_flag_test E s self .style_flags fm.FT_STYLE_FLAG_BOLD

/-- The function `ft_face_flag_italic (self)`, bound to `FT2::Face#italic?`. -/
def ft_face_flag_italic (fm : FlagBits) (E : Engine) (s : State) (self : Value) :
    Outcome Value :=
  face_flag_test E s self .style_flags fm.FT_STYLE_FLAG_ITALIC

/-- The constants `Init_ft2` defines on `FT2::Face` with `rb_define_const`, in
the order of the source: name and value. -/
def Face_constants (env : Env) (fm : FlagBits) : List (String × Value) := [
  ("SCALABLE", INT2FIX env (FLAG fm.FT_FACE_FLAG_SCALABLE)),
  ("FIXED_SIZES", INT2FIX env (FLAG fm.FT_FACE_FLAG_FIXED_SIZES)),
  ("FIXED_WIDTH", INT2FIX env (FLAG fm.FT_FACE_FLAG_FIXED_WIDTH)),
  ("FIXED_HORIZONTAL", INT2FIX env (FLAG fm.FT_FACE_FLAG_HORIZONTAL)),
  ("FIXED_VERTICAL", INT2FIX env (FLAG fm.FT_FACE_FLAG_VERTICAL)),
  ("SFNT", INT2FIX env (FLAG fm.FT_FACE_FLAG_SFNT)),
  ("KERNING", INT2FIX env (FLAG fm.FT_FACE_FLAG_KERNING)),
  ("MULTIPLE_MASTERS", INT2FIX env (FLAG fm.FT_FACE_FLAG_MULTIPLE_MASTERS)),
  ("GLYPH_NAMES", INT2FIX env (FLAG fm.FT_FACE_FLAG_GLYPH_NAMES)),
  ("EXTERNAL_STREAM", INT2FIX env (FLAG fm.FT_FACE_FLAG_EXTERNAL_STREAM)),
  ("FAST_GLYPHS", INT2FIX env (FLAG fm.FT_FACE_FLAG_FAST_GLYPHS)),
  ("BOLD", INT2FIX env (FLAG fm.FT_STYLE_FLAG_BOLD)),
  ("ITALIC", INT2FIX env (FLAG fm.FT_STYLE_FLAG_ITALIC))]

/-- The value of the constant `FT2::Face::name`. -/
def Face_const (env : Env) (fm : FlagBits) (name : String) : Option Value :=
  ((Face_constants env fm).find? (fun e => e.1 == name)).map (fun e => e.2)

/-- The eleven boolean flag methods of `FT2::Face`. -/
inductive FlagMethod where
  | scalable | fixed_sizes | fixed_width | horizontal | vertical | sfnt | kerning
  | external_stream | fast_glyphs | bold | italic
  deriving DecidableEq, Repr

/-- The Ruby name of the method. -/
def FlagMethod.name : FlagMethod → String
  | .scalable => "scalable?"
  | .fixed_sizes => "fixed_sizes?"
  | .fixed_width => "fixed_width?"
  | .horizontal => "horizontal?"
  | .vertical => "vertical?"
  | .sfnt => "sfnt?"
  | .kerning => "kerning?"
  | .external_stream => "external_stream?"
  | .fast_glyphs => "fast_glyphs?"
  | .bold => "bold?"
  | .italic => "italic?"

/-- The C function the method table binds to the Ruby name of the method, run
on `self`; `none` for a function that is not one of the eleven. -/
def FlagMethod.run (fm : FlagBits) (E : Engine) (s : State) (self : Value)
    (m : FlagMethod) : Option (Outcome Value) :=
  match Init_ft2.methods.search .cFace m.name with
  | some .ft_face_flag_scalable => some (ft_face_flag_scalable fm E s self)
  | some .ft_face_flag_fixed_sizes => some (ft_face_flag_fixed_sizes fm E s self)
  | some .ft_face_flag_fixed_width => some (ft_face_flag_fixed_width fm E s self)
  | some .ft_face_flag_horizontal => some (ft_face_flag_horizontal fm E s self)
  | some .ft_face_flag_vertical => some (ft_face_flag_vertical fm E s self)
  | some .ft_face_flag_sfnt => some (ft_face_flag_sfnt fm E s self)
  | some .ft_face_flag_kerning => some (ft_face_flag_kerning fm E s self)
  | some .ft_face_flag_external_stream => some (ft_face_flag_external_stream fm E s self)
  | some .ft_face_flag_fast_glyphs => some (ft_face_flag_fast_glyphs fm E s self)
  | some .ft_face_flag_bold => some (ft_face_flag_bold fm E s self)
  | some .ft_face_flag_italic => some (ft_face_flag_italic fm E s self)
  | _ => none

/-- The constant of `FT2::Face` that belongs to the method. -/
def FlagMethod.constant : FlagMethod → String
  | .scalable => "SCALABLE"
  | .fixed_sizes => "FIXED_SIZES"
  | .fixed_width => "FIXED_WIDTH"
  | .horizontal => "FIXED_HORIZONTAL"
  | .vertical => "FIXED_VERTICAL"
  | .sfnt => "SFNT"
  | .kerning => "KERNING"
  | .external_stream => "EXTERNAL_STREAM"
  | .fast_glyphs => "FAST_GLYPHS"
  | .bold => "BOLD"
  | .italic => "ITALIC"

/-- The integer method the boolean method is compared with: `style_flags` for
`bold?` and `italic?`, `flags` for the others. -/
def FlagMethod.flags (env : Env) (E : Engine) (s : State) (self : Value) : FlagMethod → Outcome Value
  | .bold => ft_face_style_flags env E s self
  | .italic => ft_face_style_flags env E s self
  | _ => ft_face_flags env E s self

/-- Every flag macro is a bit of a positive C `int`. -/
def FlagBits.fit (fm : FlagBits) : Prop :=
  fm.FT_FACE_FLAG_SCALABLE < 31 ∧ fm.FT_FACE_FLAG_FIXED_SIZES < 31 ∧
  fm.FT_FACE_FLAG_FIXED_WIDTH < 31 ∧ fm.FT_FACE_FLAG_HORIZONTAL < 31 ∧
  fm.FT_FACE_FLAG_VERTICAL < 31 ∧ fm.FT_FACE_FLAG_SFNT < 31 ∧
  fm.FT_FACE_FLAG_KERNING < 31 ∧ fm.FT_FACE_FLAG_MULTIPLE_MASTERS < 31 ∧
  fm.FT_FACE_FLAG_GLYPH_NAMES < 31 ∧ fm.FT_FACE_FLAG_EXTERNAL_STREAM < 31 ∧
  fm.FT_FACE_FLAG_FAST_GLYPHS < 31 ∧ fm.FT_STYLE_FLAG_BOLD < 31 ∧
  fm.FT_STYLE_FLAG_ITALIC < 31

/-! ## Module load and process exit -/

/-- What `Init_ft2` leaves behind: the value of the static `library`, the method
table, and the calls registered to run at process exit (`Init_ft2` contains no
`rb_set_end_proc` and no `at_exit`). -/
structure Loaded where
  library : Handle
  methods : MethodTable
  end_procs : List NativeCall

/-- The function `Init_ft2 ()`: `FT_Init_FreeType (&library)`, `handle_error` on
failure, then the definitions of modules, constants, classes and methods. -/
def Init_ft2 (env : Env) (E : Engine) (s : State) : Outcome Loaded :=
  let (r, s1) := call E s .FT_Init_FreeType
  if r.status ≠ 0 then ⟨.error (handle_error env r.status), s1⟩
  else ⟨.ok { library := r.handle, methods := Init_ft2.methods, end_procs := [] }, s1⟩

/-- Run the destructors of the wrappers in `live` one after the other, whatever
each returns or raises; the state reached. -/
def run_dfrees (env : Env) (E : Engine) : List Value → State → State
  | [], s => s
  | v :: rest, s => run_dfrees env E rest (run_dfree env E s v).state

/-- Process exit as far as the binding is concerned: the registered calls are
made, then the interpreter runs the destructor of every wrapper still alive. -/
def process_exit (env : Env) (E : Engine) (l : Loaded) (live : List Value) (s : State) :
    State :=
  run_dfrees env E live (l.end_procs.foldl (fun st c => (call E st c).2) s)

/-- Whether the call is the shutdown call of the engine. -/
def NativeCall.is_shutdown : NativeCall → Bool
  | .FT_Done_FreeType _ => true
  | _ => false

/-! ## Programs: calls into the binding, dispatched by the class of the receiver -/

/-- A call that a Ruby program makes into the binding: one of the class
methods `FT2::Face.new` (also bound as `FT2::Face.load`) and
`FT2::Face.new_from_memory`, or an instance method sent to a receiver. -/
inductive RubyCall where
  | Face_new (argv : List Value)
  | Face_new_from_memory (argv : List Value)
  | send (self : Value) (name : String) (argv : List Value)

/-- Run the C function `f` as a method of `self` on the arguments `argv`, for
the functions of `ft2.c` that create a wrapper, allocate or release a block, or
make an engine call.  The result is `none` when the number of arguments is not
the one given to `rb_define_method` (Ruby raises `ArgumentError` before the
function runs), and for the other functions of `ft2.c`: these read one scalar
of a record and contain no `Data_Wrap_Struct`, `malloc`, `free` or engine
call. -/
def invoke (env : Env) (E : Engine) (s : State) (self : Value) :
    CFunc → List Value → Option (Outcome Value)
  | .ft_face_glyph, [] => some (ft_face_glyph E s self)
  | .ft_face_size, [] => some (ft_face_size E s self)
  | .ft_face_charmap, [] => some (ft_face_charmap E s self)
  | .ft_face_attach, [path] => some (ft_face_attach env E s self path)
  | .ft_face_load_glyph, [i, f] => some (ft_face_load_glyph env E s self i f)
  | .ft_face_load_char, [c, f] => some (ft_face_load_char env E s self c f)
  | .ft_face_kerning, [l, r, m] => some (ft_face_kerning env E s self l r m)
  | .ft_face_glyph_name, [i] => some (ft_face_glyph_name env E s self i)
  | .ft_face_select_charmap, [e] => some (ft_face_select_charmap env E s self e)
  | .ft_face_set_charmap, [cm] => some (ft_face_set_charmap env E s self cm)
  | .ft_face_first_char, [] => some (ft_face_first_char E s self)
  | .ft_face_next_char, [c] => some (ft_face_next_char env E s self c)
  | .ft_face_set_char_size, [w, h, hr, vr] =>
    some (ft_face_set_char_size env E s self w h hr vr)
  | .ft_face_set_pixel_sizes, [w, h] => some (ft_face_set_pixel_sizes env E s self w h)
  | .ft_face_set_transform, [m, d] => some (ft_face_set_transform env E s self m d)
  | .ft_glyphslot_library, [] => some (ft_glyphslot_library E s self)
  | .ft_glyphslot_face, [] => some (ft_glyphslot_face E s self)
  | .ft_glyphslot_next, [] => some (ft_glyphslot_next E s self)
  | .ft_glyphslot_metrics, [] => some (ft_glyphslot_metrics E s self)
  | .ft_glyphslot_bitmap, [] => some (ft_glyphslot_bitmap E s self)
  | .ft_glyphslot_outline, [] => some (ft_glyphslot_outline E s self)
  | .ft_glyphslot_render, [m] => some (ft_glyphslot_render env E s self m)
  | .ft_glyphslot_glyph, [] => some (ft_glyphslot_glyph env E s self)
  | .ft_size_face, [] => some (ft_size_face E s self)
  | .ft_size_metrics, [] => some (ft_size_metrics E s self)
  | .ft_glyph_library, [] => some (ft_glyph_library E s self)
  | .ft_glyph_class, [] => some (ft_glyph_class E s self)
  | .ft_glyph_dup, [] => some (ft_glyph_dup env E s self)
  | .ft_glyph_transform, [m, d] => some (ft_glyph_transform env E s self m d)
  | .ft_glyph_to_bmap, [m, o, d] => some (ft_glyph_to_bmap env E s self m o d)
  | .ft_bmapglyph_bitmap, [] => some (ft_bmapglyph_bitmap E s self)
  | _, _ => none

/-- The C function an instance-method call runs, by the class of the
receiver. -/
def RubyCall.func : RubyCall → Option CFunc
  | .send self name _ => method_of self name
  | _ => none

/-- Run the call: `none` when Ruby raises before a function of `ft2.c` runs
(`NoMethodError`, `ArgumentError`), or the function is one of those that
`invoke` leaves out. -/
def RubyCall.run (env : Env) (E : Engine) (s : State) : RubyCall → Option (Outcome Value)
  | .Face_new argv => some (ft_face_new env E s argv .cFace)
  | .Face_new_from_memory argv => some (ft_face_new_from_memory env E s argv .cFace)
  | .send self name argv =>
    match method_of self name with
    | some f => invoke env E s self f argv
    | none => none

/-- A sample environment: library handle 7 and the first lines of the error
table of FreeType. -/
def sampleEnv : Env where
  library := 7
  errdefs := [(0, "no error"), (1, "cannot open resource"), (2, "unknown file format"),
    (6, "invalid argument")]
  dbl := fun n => n
  fix2int_addr := fun _ => 0
  lp64 := false
  addr := fun _ => 0

/-- A sample engine: every call succeeds and stores the handle 5; every word of
native memory reads 9. -/
def sampleEngine : Engine where
  reply := fun _ _ => { status := 0, handle := 5 }
  rd := fun _ _ => 9
  rds := fun _ _ => []
  rdi := fun _ _ => 0

/-- A sample engine whose every call fails with status 1. -/
def failingEngine : Engine where
  reply := fun _ _ => { status := 1 }
  rd := fun _ _ => 9
  rds := fun _ _ => []
  rdi := fun _ _ => 0

/-- A state with one allocated block, holding the native handle 42. -/
def sampleState : State where
  trace := []
  cells := [.word 42]
  freed := []

/-- An `FT2::Library` wrapper over the block of `sampleState`, as
`FT2::GlyphSlot#library` returns it. -/
def sampleLib : Value := .data .cLibrary .dont_free (.cell 0)

/-- An `FT2::Glyph` wrapper over the block of `sampleState`, as
`FT2::GlyphSlot#glyph` returns it. -/
def sampleGlyph : Value := .data .cGlyph .glyph_free (.cell 0)

/-- A `T_DATA` receiver of class `FT2::BitmapGlyph` over the block of
`sampleState`. -/
def sampleBitmapGlyph : Value := .data .cBitmapGlyph .glyph_free (.cell 0)

/-- An engine whose selected charmap, for every face, is `cm`; every call
succeeds. -/
def charmapEngine (cm : List (Nat × Nat)) : Engine where
  reply := fun _ c =>
    match c with
    | .FT_Get_First_Char _ =>
      { status := 0, char_code := (first_entry cm).1, glyph_index := (first_entry cm).2 }
    | .FT_Get_Next_Char _ code =>
      { status := 0, char_code := (next_entry cm code).1, glyph_index := (next_entry cm code).2 }
    | _ => { status := 0 }
  rd := fun _ _ => 9
  rds := fun _ _ => []
  rdi := fun _ _ => 0

/-- An engine whose glyph slots all have `linearHoriAdvance` 2.0 (131072) and
`linearVertAdvance` 65535. -/
def advanceEngine : Engine where
  reply := fun _ _ => { status := 0 }
  rd := fun _ _ => 9
  rds := fun _ _ => []
  rdi := fun _ p =>
    match p with
    | .field _ .linearHoriAdvance => 131072
    | .field _ .linearVertAdvance => 65535
    | _ => 0

/-- An engine whose every call fails with status 6 (`Invalid_Argument`). -/
def invalidArgumentEngine : Engine where
  reply := fun _ _ => { status := 6 }
  rd := fun _ _ => 9
  rds := fun _ _ => []
  rdi := fun _ _ => 0

/-- An engine with one face record, 42, whose active size is the record 20.
The first member of a size record is its `face`, so the word at the address of
record 20 is 42, and the metrics of the size are ppem 12 by 12 with scale 1.0.
The word at the start of the face record 42 is 1, and where a size record
keeps its metrics the face record holds other data. -/
def layoutEngine : Engine where
  reply := fun _ _ => { status := 0 }
  rd := fun _ p =>
    match p with
    | .field 42 .size => 20
    | .obj 20 => 42
    | .field 20 .face => 42
    | .obj 42 => 1
    | .field 42 .face => 1
    | _ => 0
  rds := fun _ p =>
    match p with
    | .field 20 .metrics => [12, 12, 65536, 65536]
    | .field 42 .metrics => [0, 3, 7, 7]
    | _ => []
  rdi := fun _ _ => 0

/-- An `FT2::Face` wrapper over the block of `sampleState`, as `FT2::Face.new`
returns it. -/
def sampleFace : Value := .data .cFace .face_free (.cell 0)

/-- An `FT2::GlyphSlot` wrapper over the block of `sampleState`, as
`FT2::GlyphSlot#next` returns it. -/
def sampleSlot : Value := .data .cGlyphSlot .dont_free (.cell 0)

/-- An engine whose glyph slot and size records change with every engine call:
the first word of a `metrics` or `bitmap` member is the number of engine calls
made so far; every call succeeds. -/
def reloadingEngine : Engine where
  reply := fun _ _ => { status := 0 }
  rd := fun _ _ => 9
  rds := fun tr p =>
    match p with
    | .field _ .metrics => [(tr.length : Int), 640, 0, 576, 704, 0, 0, 0]
    | .field _ .bitmap => [(tr.length : Int), 10, 10, 0, 256, 2]
    | _ => []
  rdi := fun _ _ => 0

/-- FreeType's bit numbers for the `FT_FACE_FLAG_*` and `FT_STYLE_FLAG_*` masks. -/
def freetypeBits : FlagBits where
  FT_FACE_FLAG_SCALABLE := 0
  FT_FACE_FLAG_FIXED_SIZES := 1
  FT_FACE_FLAG_FIXED_WIDTH := 2
  FT_FACE_FLAG_SFNT := 3
  FT_FACE_FLAG_HORIZONTAL := 4
  FT_FACE_FLAG_VERTICAL := 5
  FT_FACE_FLAG_KERNING := 6
  FT_FACE_FLAG_FAST_GLYPHS := 7
  FT_FACE_FLAG_MULTIPLE_MASTERS := 8
  FT_FACE_FLAG_GLYPH_NAMES := 9
  FT_FACE_FLAG_EXTERNAL_STREAM := 10
  FT_STYLE_FLAG_ITALIC := 0
  FT_STYLE_FLAG_BOLD := 1

/-- An engine whose faces are scalable SFNT fonts with horizontal metrics and
kerning (`face_flags` 0x59) in bold style (`style_flags` 2). -/
def flagsEngine : Engine where
  reply := fun _ _ => { status := 0 }
  rd := fun _ _ => 9
  rds := fun _ _ => []
  rdi := fun _ p =>
    match p with
    | .field _ .face_flags => 89
    | .field _ .style_flags => 2
    | _ => 0

/-- An engine whose glyph and glyph slot records (handle 42) belong to the
library whose handle is 7; the first word of the library record 7 is 99.
Every call succeeds and stores the handle 5. -/
def glyphLibraryEngine : Engine where
  reply := fun _ _ => { status := 0, handle := 5 }
  rd := fun _ p =>
    match p with
    | .field 42 .library => 7
    | .obj 7 => 99
    | _ => 0
  rds := fun _ _ => []
  rdi := fun _ _ => 0

theorem clean_pure {α : Type} (a : α) : Clean (pure a : Except Raised α) := by
  intro e h; cases h

theorem clean_ok {α : Type} (a : α) : Clean (.ok a : Except Raised α) := by
  intro e h; cases h

theorem clean_bind {α β : Type} (x : Except Raised α) (f : α → Except Raised β)
    (hx : Clean x) (hf : ∀ a, Clean (f a)) : Clean (x >>= f) := by
  intro e h
  cases x with
  | error e1 =>
    have : e = e1 := by cases h; rfl
    subst this; exact hx e rfl
  | ok a => exact hf a e h

theorem clean_map {α β : Type} (x : Except Raised α) (f : α → β)
    (hx : Clean x) : Clean (x.map f) := by
  intro e h
  cases x with
  | error e1 =>
    have : e = e1 := by cases h; rfl
    subst this; exact hx e rfl
  | ok a => cases h

theorem clean_NUM2INT (v : Value) : Clean (NUM2INT v) := by
  intro e h
  cases v <;> simp [NUM2INT] at h <;> try (subst h; rfl)
  split_ifs at h
  cases h; rfl

theorem clean_NUM2DBL (env : Env) (v : Value) : Clean (NUM2DBL env v) := by
  intro e h
  cases v <;> simp [NUM2DBL] at h <;> try (subst h; rfl)

theorem clean_Data_Get_Struct (v : Value) : Clean (Data_Get_Struct v) := by
  intro e h
  cases v <;> simp [Data_Get_Struct] at h <;> try (subst h; rfl)

theorem clean_RSTRING_ptr (v : Value) : Clean (RSTRING_ptr v) := by
  intro e h
  cases v <;> simp [RSTRING_ptr] at h <;> try (subst h; rfl)

theorem clean_rb_ary_entry (v : Value) (i : Int) : Clean (rb_ary_entry v i) := by
  intro e h
  cases v <;> simp [rb_ary_entry] at h <;> try (subst h; rfl)
  split_ifs at h

theorem clean_NUM2INT_word (n : Int) : Clean (NUM2INT_word n) := by
  intro e h
  unfold NUM2INT_word at h
  split at h
  · exact clean_NUM2INT _ e h
  · cases h; rfl

theorem clean_FIX2INT (env : Env) (v : Value) : Clean (FIX2INT env v) := by
  unfold FIX2INT
  split_ifs
  · exact clean_NUM2INT v
  · intro e h
    cases v <;> cases h

theorem clean_vector_entry (v : Value) (i : Int) : Clean (vector_entry v i) :=
  clean_bind _ _ (clean_rb_ary_entry v i) (fun a => clean_NUM2INT a)

theorem clean_matrix_entry (env : Env) (v : Value) (i j : Int) :
    Clean (matrix_entry env v i j) :=
  clean_bind _ _ (clean_rb_ary_entry v i) (fun row =>
    clean_bind _ _ (clean_rb_ary_entry row j) (fun a =>
      clean_bind _ _ (clean_NUM2DBL env a) (fun _ => clean_pure _)))

theorem failfast_args {α : Type} (env : Env) (E : Engine) (s : State)
    (normal : Reply → Value → Prop) (args : Except Raised α) (hc : Clean args)
    (k : α → Outcome Value) (hk : ∀ a, FailFast env E s (k a) normal) :
    FailFast env E s
      (match args with
        | .error e => ⟨.error e, s⟩
        | .ok a => k a) normal := by
  cases args with
  | error e => exact Or.inl ⟨rfl, e, rfl, hc e rfl⟩
  | ok a => exact hk a

theorem failfast_status_or (env : Env) (E : Engine) (s s1 : State) (c : NativeCall)
    (normal : Reply → Value → Prop) (v : Value)
    (ht : s1.trace = s.trace ++ [c]) (hv : normal (E.reply s.trace c) v) :
    FailFast env E s (status_or env (E.reply s.trace c) s1 v) normal := by
  refine Or.inr ⟨c, ?_, ?_, ?_⟩
  · unfold status_or; split_ifs <;> exact ht
  · intro h; unfold status_or; rw [if_pos h]
  · intro h; refine ⟨v, ?_, hv⟩
    unfold status_or; rw [if_neg (by simpa using h)]

theorem failfast_ite (env : Env) (E : Engine) (s s1 s2 : State) (c : NativeCall)
    (normal : Reply → Value → Prop) (v : Value)
    (h1 : s1.trace = s.trace ++ [c]) (h2 : s2.trace = s.trace ++ [c])
    (hv : normal (E.reply s.trace c) v) :
    FailFast env E s
      (if (E.reply s.trace c).status ≠ 0 then
        ⟨.error (handle_error env (E.reply s.trace c).status), s1⟩
      else ⟨.ok v, s2⟩) normal := by
  refine Or.inr ⟨c, ?_, ?_, ?_⟩
  · split_ifs
    · exact h1
    · exact h2
  · intro h; rw [if_pos h]
  · intro h; refine ⟨v, ?_, hv⟩
    rw [if_neg (by simpa using h)]

theorem clean_face_new_args (argv : List Value) : Clean (ft_face_new.args argv) := by
  unfold ft_face_new.args
  split
  · exact clean_ok _
  · split_ifs
    · exact clean_bind _ _ (clean_NUM2INT _) (fun _ => clean_pure _)
    · exact clean_bind _ _ (clean_Data_Get_Struct _) (fun _ => clean_pure _)
    · intro e h; cases h; rfl
  · exact clean_bind _ _ (clean_Data_Get_Struct _) (fun _ =>
      clean_bind _ _ (clean_NUM2INT _) (fun _ => clean_pure _))
  · intro e h; cases h; rfl

theorem clean_face_new_from_memory_args (argv : List Value) :
    Clean (ft_face_new_from_memory.args argv) := by
  unfold ft_face_new_from_memory.args
  split
  · exact clean_bind _ _ (clean_RSTRING_ptr _) (fun _ =>
      clean_bind _ _ (clean_NUM2INT _) (fun _ => clean_pure _))
  · split_ifs
    · exact clean_bind _ _ (clean_RSTRING_ptr _) (fun _ =>
        clean_bind _ _ (clean_NUM2INT _) (fun _ =>
          clean_bind _ _ (clean_NUM2INT _) (fun _ => clean_pure _)))
    · exact clean_bind _ _ (clean_Data_Get_Struct _) (fun _ =>
        clean_bind _ _ (clean_RSTRING_ptr _) (fun _ =>
          clean_bind _ _ (clean_NUM2INT _) (fun _ => clean_pure _)))
    · intro e h; cases h; rfl
  · exact clean_bind _ _ (clean_Data_Get_Struct _) (fun _ =>
      clean_bind _ _ (clean_RSTRING_ptr _) (fun _ =>
        clean_bind _ _ (clean_NUM2INT _) (fun _ =>
          clean_bind _ _ (clean_NUM2INT _) (fun _ => clean_pure _))))
  · intro e h; cases h; rfl

theorem failfast_face_new (env : Env) (E : Engine) (s : State) (argv : List Value)
    (klass : Klass) :
    FailFast env E s (ft_face_new env E s argv klass)
      (fun _ v => ∃ p, v = .data klass .face_free p) := by
  unfold ft_face_new
  split
  · rename_i e heq
    exact Or.inl ⟨rfl, e, rfl, clean_face_new_args argv e heq⟩
  · simp only [malloc]
    split
    · rename_i e heq
      exact Or.inl ⟨rfl, e, rfl, clean_RSTRING_ptr _ e heq⟩
    · simp only [call, poke]
      exact failfast_ite env E s _ _ _ _ _ rfl rfl ⟨_, rfl⟩

theorem failfast_face_new_from_memory (env : Env) (E : Engine) (s : State)
    (argv : List Value) (klass : Klass) :
    FailFast env E s (ft_face_new_from_memory env E s argv klass)
      (fun _ v => ∃ p, v = .data klass .face_free p) := by
  unfold ft_face_new_from_memory
  split
  · rename_i e heq
    exact Or.inl ⟨rfl, e, rfl, clean_face_new_from_memory_args argv e heq⟩
  · simp only [malloc, call, poke]
    exact failfast_ite env E s _ _ _ _ _ rfl rfl ⟨_, rfl⟩

theorem failfast_face_attach (env : Env) (E : Engine) (s : State) (self path : Value) :
    FailFast env E s (ft_face_attach env E s self path) (fun _ v => v = self) := by
  unfold ft_face_attach
  split
  · rename_i e heq
    refine Or.inl ⟨rfl, e, rfl, ?_⟩
    revert e
    show Clean _
    repeat' first
      | exact clean_pure _
      | exact clean_NUM2INT _
      | exact clean_NUM2DBL _ _
      | exact clean_Data_Get_Struct _
      | exact clean_RSTRING_ptr _
      | apply clean_bind
      | intro _
  · simp only [call]
    exact failfast_status_or env E s _ _ _ _ rfl rfl

theorem failfast_face_set_char_size (env : Env) (E : Engine) (s : State)
    (self c_w c_h h_r v_r : Value) :
    FailFast env E s (ft_face_set_char_size env E s self c_w c_h h_r v_r)
      (fun _ v => v = self) := by
  unfold ft_face_set_char_size
  split
  · rename_i e heq
    refine Or.inl ⟨rfl, e, rfl, ?_⟩
    revert e
    show Clean _
    repeat' first
      | exact clean_pure _
      | exact clean_NUM2INT _
      | exact clean_NUM2DBL _ _
      | exact clean_Data_Get_Struct _
      | exact clean_RSTRING_ptr _
      | apply clean_bind
      | intro _
  · simp only [call]
    exact failfast_status_or env E s _ _ _ _ rfl rfl

theorem failfast_face_set_pixel_sizes (env : Env) (E : Engine) (s : State)
    (self pixel_w pixel_h : Value) :
    FailFast env E s (ft_face_set_pixel_sizes env E s self pixel_w pixel_h)
      (fun _ v => v = self) := by
  unfold ft_face_set_pixel_sizes
  split
  · rename_i e heq
    refine Or.inl ⟨rfl, e, rfl, ?_⟩
    revert e
    show Clean _
    repeat' first
      | exact clean_pure _
      | exact clean_NUM2INT _
      | exact clean_Data_Get_Struct _
      | apply clean_bind
      | intro _
  · simp only [call]
    exact failfast_status_or env E s _ _ _ _ rfl rfl

theorem failfast_face_load_glyph (env : Env) (E : Engine) (s : State)
    (self glyph_index flags : Value) :
    FailFast env E s (ft_face_load_glyph env E s self glyph_index flags)
      (fun _ v => v = self) := by
  unfold ft_face_load_glyph
  split
  · rename_i e heq
    refine Or.inl ⟨rfl, e, rfl, ?_⟩
    revert e
    show Clean _
    repeat' first
      | exact clean_pure _
      | exact clean_NUM2INT _
      | exact clean_Data_Get_Struct _
      | apply clean_bind
      | intro _
  · simp only [call]
    exact failfast_status_or env E s _ _ _ _ rfl rfl

theorem failfast_face_load_char (env : Env) (E : Engine) (s : State)
    (self char_code flags : Value) :
    FailFast env E s (ft_face_load_char env E s self char_code flags)
      (fun _ v => v = self) := by
  unfold ft_face_load_char
  split
  · rename_i e heq
    refine Or.inl ⟨rfl, e, rfl, ?_⟩
    revert e
    show Clean _
    repeat' first
      | exact clean_pure _
      | exact clean_NUM2INT _
      | exact clean_Data_Get_Struct _
      | apply clean_bind
      | intro _
  · simp only [call]
    exact failfast_status_or env E s _ _ _ _ rfl rfl

theorem failfast_face_kerning (env : Env) (E : Engine) (s : State)
    (self left_glyph right_glyph kern_mode : Value) :
    FailFast env E s (ft_face_kerning env E s self left_glyph right_glyph kern_mode)
      (fun r v => v = .ary [INT2FIX env r.x, INT2FIX env r.y]) := by
  unfold ft_face_kerning
  split
  · rename_i e heq
    refine Or.inl ⟨rfl, e, rfl, ?_⟩
    revert e
    show Clean _
    apply clean_bind _ _ (clean_Data_Get_Struct _)
    intro face
    have rest : ∀ km : Value ⊕ Int, Clean (do
        let l ← NUM2INT left_glyph
        let r ← NUM2INT right_glyph
        let mode ←
          match km with
          | Sum.inl v => NUM2INT v
          | Sum.inr k => NUM2INT_word k
        pure (face, l, r, mode) : Except Raised (Ptr × Int × Int × Int)) := by
      intro km
      apply clean_bind _ _ (clean_NUM2INT _)
      intro l
      apply clean_bind _ _ (clean_NUM2INT _)
      intro r
      cases km with
      | inl v => exact clean_bind _ _ (clean_NUM2INT _) (fun _ => clean_pure _)
      | inr k => exact clean_bind _ _ (clean_NUM2INT_word _) (fun _ => clean_pure _)
    dsimp only
    split_ifs
    · exact clean_bind _ _ (clean_map _ _ (clean_NUM2INT_word _)) rest
    · exact clean_bind _ _ (clean_pure _) rest
  · simp only [call]
    exact failfast_status_or env E s _ _ _ _ rfl rfl

theorem failfast_face_glyph_name (env : Env) (E : Engine) (s : State)
    (self glyph_index : Value) :
    FailFast env E s (ft_face_glyph_name env E s self glyph_index)
      (fun r v => v = if r.name.length ≠ 0 then .str r.name else .Qnil) := by
  unfold ft_face_glyph_name
  split
  · rename_i e heq
    refine Or.inl ⟨rfl, e, rfl, ?_⟩
    revert e
    show Clean _
    repeat' first
      | exact clean_pure _
      | exact clean_NUM2INT _
      | exact clean_Data_Get_Struct _
      | apply clean_bind
      | intro _
  · simp only [call]
    exact failfast_status_or env E s _ _ _ _ rfl rfl

theorem failfast_face_select_charmap (env : Env) (E : Engine) (s : State)
    (self encoding : Value) :
    FailFast env E s (ft_face_select_charmap env E s self encoding)
      (fun _ v => v = self) := by
  unfold ft_face_select_charmap
  split
  · rename_i e heq
    refine Or.inl ⟨rfl, e, rfl, ?_⟩
    revert e
    show Clean _
    repeat' first
      | exact clean_pure _
      | exact clean_NUM2INT _
      | exact clean_Data_Get_Struct _
      | apply clean_bind
      | intro _
  · simp only [call]
    exact failfast_status_or env E s _ _ _ _ rfl rfl

theorem failfast_face_set_charmap (env : Env) (E : Engine) (s : State)
    (self charmap : Value) :
    FailFast env E s (ft_face_set_charmap env E s self charmap)
      (fun _ v => v = self) := by
  unfold ft_face_set_charmap
  split
  · rename_i e heq
    refine Or.inl ⟨rfl, e, rfl, ?_⟩
    revert e
    show Clean _
    repeat' first
      | exact clean_pure _
      | exact clean_Data_Get_Struct _
      | apply clean_bind
      | intro _
  · simp only [call]
    exact failfast_status_or env E s _ _ _ _ rfl rfl

theorem failfast_glyphslot_render (env : Env) (E : Engine) (s : State)
    (self render_mode : Value) :
    FailFast env E s (ft_glyphslot_render env E s self render_mode)
      (fun _ v => v = self) := by
  unfold ft_glyphslot_render
  split
  · rename_i e heq
    refine Or.inl ⟨rfl, e, rfl, ?_⟩
    revert e
    show Clean _
    repeat' first
      | exact clean_pure _
      | exact clean_NUM2INT _
      | exact clean_Data_Get_Struct _
      | apply clean_bind
      | intro _
  · simp only [call]
    exact failfast_status_or env E s _ _ _ _ rfl rfl

theorem failfast_glyphslot_glyph (env : Env) (E : Engine) (s : State) (self : Value) :
    FailFast env E s (ft_glyphslot_glyph env E s self)
      (fun _ v => ∃ p, v = .data .cGlyph .glyph_free p) := by
  unfold ft_glyphslot_glyph
  simp only [malloc]
  split
  · rename_i e heq
    exact Or.inl ⟨rfl, e, rfl, clean_Data_Get_Struct _ e heq⟩
  · simp only [call, poke, free]
    exact failfast_ite env E s _ _ _ _ _ rfl rfl ⟨_, rfl⟩

theorem failfast_glyph_dup (env : Env) (E : Engine) (s : State) (self : Value) :
    FailFast env E s (ft_glyph_dup env E s self)
      (fun _ v => ∃ p, v = .data .cGlyph .glyph_free p) := by
  unfold ft_glyph_dup
  simp only [malloc]
  split
  · rename_i e heq
    exact Or.inl ⟨rfl, e, rfl, clean_Data_Get_Struct _ e heq⟩
  · simp only [call, poke]
    exact failfast_ite env E s _ _ _ _ _ rfl rfl ⟨_, rfl⟩

theorem failfast_glyph_transform (env : Env) (E : Engine) (s : State)
    (self matrix_ary delta_ary : Value) :
    FailFast env E s (ft_glyph_transform env E s self matrix_ary delta_ary)
      (fun _ v => v = self) := by
  unfold ft_glyph_transform
  split
  · rename_i e heq
    refine Or.inl ⟨rfl, e, rfl, ?_⟩
    revert e
    show Clean _
    repeat' first
      | exact clean_pure _
      | exact clean_matrix_entry _ _ _ _
      | exact clean_vector_entry _ _
      | exact clean_Data_Get_Struct _
      | apply clean_bind
      | intro _
  · simp only [call]
    exact failfast_status_or env E s _ _ _ _ rfl rfl

theorem poke_trace (s : State) (p : Ptr) (c : Cell) : (poke s p c).trace = s.trace := by
  cases p <;> rfl

theorem failfast_glyph_to_bmap (env : Env) (E : Engine) (s : State)
    (self render_mode origin destroy : Value) :
    FailFast env E s (ft_glyph_to_bmap env E s self render_mode origin destroy)
      (fun _ v => v = self) := by
  unfold ft_glyph_to_bmap
  split
  · rename_i e heq
    refine Or.inl ⟨rfl, e, rfl, ?_⟩
    revert e
    show Clean _
    repeat' first
      | exact clean_pure _
      | exact clean_vector_entry _ _
      | exact clean_FIX2INT _ _
      | exact clean_Data_Get_Struct _
      | apply clean_bind
      | intro _
  · simp only [call]
    exact failfast_status_or env E s _ _ _ _ (by rw [poke_trace]) rfl


/-! ### Memory lemmas -/

theorem deref_malloc (E : Engine) (s : State) (p : Ptr) :
    deref E (malloc s).2 p = deref E s p := by
  cases p with
  | cell i =>
    simp only [deref, malloc]
    rcases Nat.lt_or_ge i s.cells.length with h | h
    · rw [List.getD_append _ _ _ _ h]
    · rw [List.getD_append_right _ _ _ _ h, List.getD_eq_default _ _ h]
      cases hi : i - s.cells.length <;> simp
  | obj h => rfl
  | field h f => rfl

theorem deref_fresh (E : Engine) (s : State) (h : Handle) (tr : List NativeCall) :
    deref E { trace := tr, cells := (s.cells ++ [Cell.uninit]).set s.cells.length (.word h),
              freed := s.freed } (.cell s.cells.length) = h := by
  simp [deref]

/-! ### Claims -/

/-- C2: on the trace of engine calls, the destructor of an owning Face wrapper
(`face_free`) appends exactly one `FT_Done_Face` call, on the handle the wrapper
holds; the destructor of an owning Glyph wrapper (`glyph_free`) appends exactly
one `FT_Done_Glyph` call, on the handle the wrapper holds; the destructor of a
borrowing wrapper (`dont_free`) leaves the trace as it is.  This holds for every
engine, hence also when `FT_Done_Face` reports a failure. -/
theorem destructor_calls (env : Env) (E : Engine) (s : State) (klass : Klass) (p : Ptr) :
    (run_dfree env E s (.data klass .face_free p)).state.trace
        = s.trace ++ [.FT_Done_Face (deref E s p)] ∧
    (run_dfree env E s (.data klass .glyph_free p)).state.trace
        = s.trace ++ [.FT_Done_Glyph (deref E s p)] ∧
    (run_dfree env E s (.data klass .dont_free p)).state.trace = s.trace := by
  refine ⟨?_, rfl, rfl⟩
  simp only [run_dfree, face_free, call]
  split_ifs <;> rfl

theorem scan_eq_find (err : Int) (l : List (Int × Option String)) :
    handle_error.scan err l = (l.find? (fun e => e.1 == err)).map (fun e => e.2) := by
  induction l with
  | nil => rfl
  | cons e rest ih =>
    unfold handle_error.scan
    by_cases h : err = e.1
    · have : (e.1 == err) = true := by simp [h]
      simp [h, List.find?]
    · have : (e.1 == err) = false := by
        simp only [beq_eq_false_iff_ne, ne_eq]; exact fun h1 => h h1.symm
      simp [h, List.find?, this, ih]

/-- C3: `handle_error` maps a status code to the message through the table: when
the first table entry with that code carries the string `str`, the exception
message is `FreeType2 Error: str.`; when no table entry has that code, the
message is `FreeType2 Error: Unknown error <code>.` with the code in decimal. -/
theorem handle_error_message (env : Env) (err : Int) :
    (∀ str, (errors env).find? (fun e => e.1 == err) = some (err, some str) →
      handle_error env err = .rb_eException ("FreeType2 Error: " ++ str ++ ".")) ∧
    ((∀ e ∈ errors env, e.1 ≠ err) →
      handle_error env err
        = .rb_eException ("FreeType2 Error: Unknown error " ++ toString err ++ ".")) := by
  constructor
  · intro str h
    unfold handle_error
    rw [scan_eq_find, h]
    rfl
  · intro h
    unfold handle_error
    rw [scan_eq_find]
    have : (errors env).find? (fun e => e.1 == err) = none := by
      rw [List.find?_eq_none]
      intro e he
      simpa using h e he
    rw [this]
    rfl

/-- Witness of C3 on the sample table: code 1 is in the table, code 99 is not. -/
theorem handle_error_message_witness :
    handle_error sampleEnv 1 = .rb_eException "FreeType2 Error: cannot open resource." ∧
    handle_error sampleEnv 99 = .rb_eException "FreeType2 Error: Unknown error 99." :=
  ⟨(handle_error_message sampleEnv 1).1 "cannot open resource" (by decide),
   (handle_error_message sampleEnv 99).2 (by decide)⟩

/-! ### Destructor policy of the wrapper-creating accessors -/

theorem deref_word (E : Engine) (s : State) (i : Nat) (h : Handle)
    (hc : s.cells.getD i .uninit = .word h) : deref E s (.cell i) = h := by
  show (match s.cells.getD i .uninit with
    | .word h => h
    | _ => E.rd s.trace (.cell i)) = h
  rw [hc]

/-- C5 (evaluation at the failing input): `FT2::Face.new (lib, 'yudit.ttf')`
makes the engine's new-face call with the library handle of `lib` and index 0,
but the path it passes is `RSTRING (lib)->ptr`, taken from the first argument,
not the bytes of the String given second. -/
theorem face_new_lib_path_passes_lib_as_path :
    (ft_face_new sampleEnv sampleEngine sampleState
        [sampleLib, .str "yudit.ttf"] .cFace).state.trace
      = [.FT_New_Face 42 (.miscast sampleLib) 0 (.cell 1)] :=
  rfl

/-- C6 (evaluation at the failing input): `FT2::Face.new (lib, 'yudit.ttf', 1)`
converts the second argument, the String, with `NUM2INT` to get the face
index: it raises `TypeError` and makes no engine call. -/
theorem face_new_lib_path_index_raises :
    (ft_face_new sampleEnv sampleEngine sampleState
        [sampleLib, .str "yudit.ttf", .int 1] .cFace).result = .error .rb_eTypeError ∧
    (ft_face_new sampleEnv sampleEngine sampleState
        [sampleLib, .str "yudit.ttf", .int 1] .cFace).state.trace = [] :=
  ⟨rfl, rfl⟩

/-- C10 (evaluation at the failing input): `glyph.to_bmap (0, [0, 0], false)`
passes the destroy flag 1 to the engine's glyph-to-bitmap call, because the
flag is computed as `destroy != Qnil`. -/
theorem to_bmap_false_destroys :
    (ft_glyph_to_bmap sampleEnv sampleEngine sampleState sampleGlyph
        (.int 0) (.ary [.int 0, .int 0]) .Qfalse).state.trace
      = [.FT_Glyph_To_Bitmap (.cell 0) 42 0 0 0 1] :=
  rfl


theorem NUM2INT_int (i : Int) (hi : INT_MIN ≤ i ∧ i ≤ INT_MAX) : NUM2INT (.int i) = .ok i := by
  simp [NUM2INT, hi]

/-- C7: `FT2::Face.new (path)` and `FT2::Face.new (path, i)`, with `path` a
String and `i` an Integer in the range of a C `int`, make the engine's new-face
call with the process-wide library handle, the bytes of `path`, and face index
0, respectively `i`; when the engine answers status zero the result is a
wrapper with destructor `face_free` over the block that holds the new face
handle. -/
theorem face_new_default_library (env : Env) (E : Engine) (s : State) (path : String)
    (i : Int) (klass : Klass) (hi : INT_MIN ≤ i ∧ i ≤ INT_MAX) :
    (ft_face_new env E s [.str path] klass).state.trace
      = s.trace ++ [.FT_New_Face env.library (.bytes path) 0 (.cell s.cells.length)] ∧
    (ft_face_new env E s [.str path, .int i] klass).state.trace
      = s.trace ++ [.FT_New_Face env.library (.bytes path) i (.cell s.cells.length)] ∧
    ((E.reply s.trace
        (.FT_New_Face env.library (.bytes path) 0 (.cell s.cells.length))).status = 0 →
      (ft_face_new env E s [.str path] klass).result
        = .ok (.data klass .face_free (.cell s.cells.length)) ∧
      deref E (ft_face_new env E s [.str path] klass).state (.cell s.cells.length)
        = (E.reply s.trace
            (.FT_New_Face env.library (.bytes path) 0 (.cell s.cells.length))).handle) ∧
    ((E.reply s.trace
        (.FT_New_Face env.library (.bytes path) i (.cell s.cells.length))).status = 0 →
      (ft_face_new env E s [.str path, .int i] klass).result
        = .ok (.data klass .face_free (.cell s.cells.length)) ∧
      deref E (ft_face_new env E s [.str path, .int i] klass).state (.cell s.cells.length)
        = (E.reply s.trace
            (.FT_New_Face env.library (.bytes path) i (.cell s.cells.length))).handle) := by
  have h2 : ft_face_new.args [.str path, .int i] = .ok (none, .str path, i) := by
    simp [ft_face_new.args, rb_obj_is_kind_of, klass_of, Klass.is_a, NUM2INT_int i hi]
  refine ⟨?_, ?_, ?_, ?_⟩
  · simp only [ft_face_new, ft_face_new.args, malloc, RSTRING_ptr, call, poke, lib_handle]
    split_ifs <;> rfl
  · simp only [ft_face_new, h2, malloc, RSTRING_ptr, call, poke, lib_handle]
    split_ifs <;> rfl
  · intro h0
    simp only [ft_face_new, ft_face_new.args, malloc, RSTRING_ptr, call, poke, lib_handle,
      Data_Wrap_Struct]
    rw [if_neg (by simpa using h0)]
    exact ⟨rfl, deref_fresh E s _ _⟩
  · intro h0
    simp only [ft_face_new, h2, malloc, RSTRING_ptr, call, poke, lib_handle, Data_Wrap_Struct]
    rw [if_neg (by simpa using h0)]
    exact ⟨rfl, deref_fresh E s _ _⟩

/-- Witness of C7: `FT2::Face.new ('yudit.ttf', 1)` on the sample engine. -/
theorem face_new_default_library_witness :
    (INT_MIN ≤ 1 ∧ (1 : Int) ≤ INT_MAX) ∧
    (ft_face_new sampleEnv sampleEngine sampleState [.str "yudit.ttf", .int 1] .cFace).state.trace
      = [.FT_New_Face 7 (.bytes "yudit.ttf") 1 (.cell 1)] ∧
    (ft_face_new sampleEnv sampleEngine sampleState [.str "yudit.ttf", .int 1] .cFace).result
      = .ok (.data .cFace .face_free (.cell 1)) :=
  ⟨by decide,
   (face_new_default_library sampleEnv sampleEngine sampleState "yudit.ttf" 1 .cFace
      (by decide)).2.1,
   ((face_new_default_library sampleEnv sampleEngine sampleState "yudit.ttf" 1 .cFace
      (by decide)).2.2.2 rfl).1⟩

/-- C8: argument-validation failures of the face constructors raise
`ArgumentError` and leave the state untouched (no engine call): `Face.new` with
an argument count other than 1, 2, 3; `Face.new_from_memory` with an argument
count other than 2, 3, 4; `Face.new` with two arguments, and
`Face.new_from_memory` with three, whose first is neither a String nor an
`FT2::Library`. -/
theorem constructors_reject_arguments (env : Env) (E : Engine) (s : State) (klass : Klass) :
    (∀ argv : List Value, argv.length ≠ 1 → argv.length ≠ 2 → argv.length ≠ 3 →
      ft_face_new env E s argv klass
        = ⟨.error (.rb_eArgError
            ("Invalid argument count: " ++ toString argv.length ++ ".")), s⟩) ∧
    (∀ argv : List Value, argv.length ≠ 2 → argv.length ≠ 3 → argv.length ≠ 4 →
      ft_face_new_from_memory env E s argv klass
        = ⟨.error (.rb_eArgError
            ("Invalid argument count: " ++ toString argv.length ++ ".")), s⟩) ∧
    (∀ a0 a1 : Value, rb_obj_is_kind_of a0 .rb_cString = false →
      rb_obj_is_kind_of a0 .cLibrary = false →
      ft_face_new env E s [a0, a1] klass
        = ⟨.error (.rb_eArgError "Invalid first argument."), s⟩) ∧
    (∀ a0 a1 a2 : Value, rb_obj_is_kind_of a0 .rb_cString = false →
      rb_obj_is_kind_of a0 .cLibrary = false →
      ft_face_new_from_memory env E s [a0, a1, a2] klass
        = ⟨.error (.rb_eArgError "Invalid first argument."), s⟩) := by
  refine ⟨?_, ?_, ?_, ?_⟩
  · intro argv h1 h2 h3
    obtain _ | ⟨a0, _ | ⟨a1, _ | ⟨a2, _ | ⟨a3, rest⟩⟩⟩⟩ := argv
    · rfl
    · exact absurd rfl h1
    · exact absurd rfl h2
    · exact absurd rfl h3
    · rfl
  · intro argv h2 h3 h4
    obtain _ | ⟨a0, _ | ⟨a1, _ | ⟨a2, _ | ⟨a3, _ | ⟨a4, rest⟩⟩⟩⟩⟩ := argv
    · rfl
    · rfl
    · exact absurd rfl h2
    · exact absurd rfl h3
    · exact absurd rfl h4
    · rfl
  · intro a0 a1 hs hl
    simp [ft_face_new, ft_face_new.args, hs, hl]
  · intro a0 a1 a2 hs hl
    simp [ft_face_new_from_memory, ft_face_new_from_memory.args, hs, hl]

/-- Witness of C8: `Face.new ()`, `Face.new_from_memory ('x')`, `Face.new (3, 4)`
and `Face.new_from_memory (nil, 'b', 1)`. -/
theorem constructors_reject_arguments_witness :
    ft_face_new sampleEnv sampleEngine sampleState [] .cFace
      = ⟨.error (.rb_eArgError "Invalid argument count: 0."), sampleState⟩ ∧
    ft_face_new_from_memory sampleEnv sampleEngine sampleState [.str "x"] .cFace
      = ⟨.error (.rb_eArgError "Invalid argument count: 1."), sampleState⟩ ∧
    ft_face_new sampleEnv sampleEngine sampleState [.int 3, .int 4] .cFace
      = ⟨.error (.rb_eArgError "Invalid first argument."), sampleState⟩ ∧
    ft_face_new_from_memory sampleEnv sampleEngine sampleState [.Qnil, .str "b", .int 1] .cFace
      = ⟨.error (.rb_eArgError "Invalid first argument."), sampleState⟩ :=
  ⟨(constructors_reject_arguments sampleEnv sampleEngine sampleState .cFace).1 []
      (by decide) (by decide) (by decide),
   (constructors_reject_arguments sampleEnv sampleEngine sampleState .cFace).2.1 [.str "x"]
      (by decide) (by decide) (by decide),
   (constructors_reject_arguments sampleEnv sampleEngine sampleState .cFace).2.2.1
      (.int 3) (.int 4) rfl rfl,
   (constructors_reject_arguments sampleEnv sampleEngine sampleState .cFace).2.2.2
      .Qnil (.str "b") (.int 1) rfl rfl⟩


theorem face_new_from_memory_trace (env : Env) (E : Engine) (s : State) (argv : List Value)
    (klass : Klass) (lib : Option Ptr) (mem : CharPtr) (len face_index : Int)
    (h : ft_face_new_from_memory.args argv = .ok (lib, mem, len, face_index)) :
    (ft_face_new_from_memory env E s argv klass).state.trace
      = s.trace ++ [.FT_New_Memory_Face (lib_handle env E s lib) mem len face_index
          (.cell s.cells.length)] := by
  have hl : lib_handle env E (malloc s).2 lib = lib_handle env E s lib := by
    cases lib with
    | none => rfl
    | some p => exact deref_malloc E s p
  simp only [ft_face_new_from_memory, h, call, poke]
  rw [hl]
  simp only [malloc]
  split_ifs <;> rfl

/-- The arguments of the new-memory-face call: `FT2::Face.new_from_memory`
hands its arguments to the engine's
new-memory-face call as follows, for a String `buffer`, Integers `size` and
`i` in the range of a C `int`, and an `FT2::Library` wrapper `lib` (the handle
"held by" `lib` is the word its data pointer points at):
`(buffer, size)` uses the process-wide library and index 0; `(buffer, size, i)`
the process-wide library and index `i`; `(lib, buffer, size)` the handle held by
`lib` and index 0; `(lib, buffer, size, i)` the handle held by `lib` and index
`i`; every form passes the bytes of `buffer` and the length `size`. -/
theorem face_new_from_memory_arguments (env : Env) (E : Engine) (s : State)
    (buffer : String) (size i : Int) (d : Dfree) (p : Ptr) (klass : Klass)
    (hs : INT_MIN ≤ size ∧ size ≤ INT_MAX) (hi : INT_MIN ≤ i ∧ i ≤ INT_MAX) :
    (ft_face_new_from_memory env E s [.str buffer, .int size] klass).state.trace
      = s.trace ++ [.FT_New_Memory_Face env.library (.bytes buffer) size 0
          (.cell s.cells.length)] ∧
    (ft_face_new_from_memory env E s [.str buffer, .int size, .int i] klass).state.trace
      = s.trace ++ [.FT_New_Memory_Face env.library (.bytes buffer) size i
          (.cell s.cells.length)] ∧
    (ft_face_new_from_memory env E s
        [.data .cLibrary d p, .str buffer, .int size] klass).state.trace
      = s.trace ++ [.FT_New_Memory_Face (deref E s p) (.bytes buffer) size 0
          (.cell s.cells.length)] ∧
    (ft_face_new_from_memory env E s
        [.data .cLibrary d p, .str buffer, .int size, .int i] klass).state.trace
      = s.trace ++ [.FT_New_Memory_Face (deref E s p) (.bytes buffer) size i
          (.cell s.cells.length)] := by
  refine ⟨?_, ?_, ?_, ?_⟩
  · exact face_new_from_memory_trace env E s _ klass none _ _ _
      (by simp [ft_face_new_from_memory.args, RSTRING_ptr, NUM2INT_int size hs]; rfl)
  · exact face_new_from_memory_trace env E s _ klass none _ _ _
      (by simp [ft_face_new_from_memory.args, RSTRING_ptr, NUM2INT_int size hs,
            NUM2INT_int i hi, rb_obj_is_kind_of, klass_of, Klass.is_a]; rfl)
  · exact face_new_from_memory_trace env E s _ klass (some p) _ _ _
      (by simp [ft_face_new_from_memory.args, RSTRING_ptr, NUM2INT_int size hs,
            rb_obj_is_kind_of, klass_of, Klass.is_a, Data_Get_Struct, Klass.super]; rfl)
  · exact face_new_from_memory_trace env E s _ klass (some p) _ _ _
      (by simp [ft_face_new_from_memory.args, RSTRING_ptr, NUM2INT_int size hs,
            NUM2INT_int i hi, Data_Get_Struct]; rfl)

/-- Evaluation of `face_new_from_memory_arguments`: the four forms with a
three-byte buffer, on the sample engine. -/
theorem face_new_from_memory_arguments_witness :
    ((INT_MIN ≤ 3 ∧ (3 : Int) ≤ INT_MAX) ∧ (INT_MIN ≤ 1 ∧ (1 : Int) ≤ INT_MAX)) ∧
    (ft_face_new_from_memory sampleEnv sampleEngine sampleState
        [.str "ttf", .int 3] .cFace).state.trace
      = [.FT_New_Memory_Face 7 (.bytes "ttf") 3 0 (.cell 1)] ∧
    (ft_face_new_from_memory sampleEnv sampleEngine sampleState
        [.str "ttf", .int 3, .int 1] .cFace).state.trace
      = [.FT_New_Memory_Face 7 (.bytes "ttf") 3 1 (.cell 1)] ∧
    (ft_face_new_from_memory sampleEnv sampleEngine sampleState
        [sampleLib, .str "ttf", .int 3] .cFace).state.trace
      = [.FT_New_Memory_Face 42 (.bytes "ttf") 3 0 (.cell 1)] ∧
    (ft_face_new_from_memory sampleEnv sampleEngine sampleState
        [sampleLib, .str "ttf", .int 3, .int 1] .cFace).state.trace
      = [.FT_New_Memory_Face 42 (.bytes "ttf") 3 1 (.cell 1)] :=
  ⟨by decide,
   face_new_from_memory_arguments sampleEnv sampleEngine sampleState "ttf" 3 1
     .dont_free (.cell 0) .cFace (by decide) (by decide)⟩


/-- C9 (evaluation at the failing input): the glyph 42 belongs to the library
with handle 7.  `glyph.library` wraps that handle itself as the data pointer, so
`FT2::Face.new_from_memory (glyph.library, 'ttf', 3)` and its four-argument form
hand the engine the first word of the library record (99), not the handle of
`lib` (7).  Its sibling `slot.library` wraps a block that holds the handle, and
with it the engine receives 7. -/
theorem new_from_memory_glyph_library :
    glyphLibraryEngine.rd [] (.field 42 .library) = 7 ∧
    (ft_glyph_library glyphLibraryEngine sampleState sampleGlyph).result
      = .ok (.data .cLibrary .dont_free (.obj 7)) ∧
    (ft_face_new_from_memory sampleEnv glyphLibraryEngine sampleState
        [.data .cLibrary .dont_free (.obj 7), .str "ttf", .int 3] .cFace).state.trace
      = [.FT_New_Memory_Face 99 (.bytes "ttf") 3 0 (.cell 1)] ∧
    (ft_face_new_from_memory sampleEnv glyphLibraryEngine sampleState
        [.data .cLibrary .dont_free (.obj 7), .str "ttf", .int 3, .int 1] .cFace).state.trace
      = [.FT_New_Memory_Face 99 (.bytes "ttf") 3 1 (.cell 1)] ∧
    (ft_glyphslot_library glyphLibraryEngine sampleState sampleSlot).result
      = .ok (.data .cLibrary .dont_free (.cell 1)) ∧
    (ft_face_new_from_memory sampleEnv glyphLibraryEngine
        (ft_glyphslot_library glyphLibraryEngine sampleState sampleSlot).state
        [.data .cLibrary .dont_free (.cell 1), .str "ttf", .int 3] .cFace).state.trace
      = [.FT_New_Memory_Face 7 (.bytes "ttf") 3 0 (.cell 2)] :=
  ⟨rfl, rfl, rfl, rfl, rfl, rfl⟩


/-! ### Claims C11 to C20 -/

/-- C11 (evaluation at the failing input): `face.kerning (10, 11, nil)` raises
`TypeError` without any engine call, because `NUM2INT (ft_kerning_default)`
converts the word 0, which is `false`; `face.kerning (10, 11,
FT2::KerningMode::DEFAULT)` makes the engine's kerning call with mode 0 and
returns the vector. -/
theorem kerning_nil_raises :
    (ft_face_kerning sampleEnv sampleEngine sampleState sampleFace
        (.int 10) (.int 11) .Qnil).result = .error .rb_eTypeError ∧
    (ft_face_kerning sampleEnv sampleEngine sampleState sampleFace
        (.int 10) (.int 11) .Qnil).state.trace = [] ∧
    (ft_face_kerning sampleEnv sampleEngine sampleState sampleFace
        (.int 10) (.int 11) (KerningMode_DEFAULT sampleEnv)).result = .ok (.ary [.int 0, .int 0]) ∧
    (ft_face_kerning sampleEnv sampleEngine sampleState sampleFace
        (.int 10) (.int 11) (KerningMode_DEFAULT sampleEnv)).state.trace
      = [.FT_Get_Kerning 42 10 11 0] :=
  ⟨rfl, rfl, rfl, rfl⟩

/-- C13 (evaluation at the failing input): on the charmap with codes 3, 5, 7,
`face.first_char` returns `[3, 10]`, and `face.next_char (3)` asks the engine
for the entry after 7, the machine word of the Fixnum 3, and returns `[0, 0]`
instead of `[5, 11]`. -/
theorem next_char_passes_value_word :
    (ft_face_first_char (charmapEngine [(3, 10), (5, 11), (7, 12)]) sampleState
        sampleFace).result = .ok (.ary [.int 3, .int 10]) ∧
    (ft_face_next_char sampleEnv (charmapEngine [(3, 10), (5, 11), (7, 12)]) sampleState
        sampleFace (.int 3)).state.trace = [.FT_Get_Next_Char 42 7] ∧
    (ft_face_next_char sampleEnv (charmapEngine [(3, 10), (5, 11), (7, 12)]) sampleState
        sampleFace (.int 3)).result = .ok (.ary [.int 0, .int 0]) :=
  ⟨rfl, rfl, rfl⟩

theorem FTFIX2DBL_exact (f : Int) : FTFIX2DBL f = (f : ℚ) / 65536 := by
  unfold FTFIX2DBL
  norm_num

/-- C14 (evaluation at the failing input): for a slot whose `linearVertAdvance`
is 65535, `slot.v_advance` is 1, not 65535 / 65536, and for the fixed value
-65536 the conversion `ft_fixed_to_double` gives 65535, not -1; `slot.h_advance`
divides by 65536 for every fixed value. -/
theorem v_advance_not_scaled :
    (ft_glyphslot_v_advance advanceEngine sampleState sampleSlot).result = .ok 1 ∧
    (1 : ℚ) ≠ 65535 / 65536 ∧
    ft_fixed_to_double (-65536) = 65535 ∧
    (∀ E s klass d p, (ft_glyphslot_h_advance E s (.data klass d p)).result
      = .ok ((E.rdi s.trace (.field (deref E s p) .linearHoriAdvance) : ℚ) / 65536)) := by
  refine ⟨?_, by norm_num, by norm_num [ft_fixed_to_double], ?_⟩
  · show Except.ok (ft_fixed_to_double 65535) = Except.ok 1
    norm_num [ft_fixed_to_double]
  · intro E s klass d p
    show Except.ok (FTFIX2DBL _) = _
    rw [FTFIX2DBL_exact]

/-- C15 (evaluation at the failing input): in the method table of `Init_ft2` the
GlyphSlot names `linearVertAdvance`, `v_adv` and `va` are bound to
`ft_glyphslot_h_advance`, while `v_advance` is bound to
`ft_glyphslot_v_advance`; on a slot with horizontal advance 2.0 and vertical
advance word 65535, `slot.va` returns 2 and `slot.v_advance` returns 1. -/
theorem vert_aliases_call_h_advance :
    method_of sampleSlot "linearVertAdvance" = some .ft_glyphslot_h_advance ∧
    method_of sampleSlot "v_adv" = some .ft_glyphslot_h_advance ∧
    method_of sampleSlot "va" = some .ft_glyphslot_h_advance ∧
    method_of sampleSlot "v_advance" = some .ft_glyphslot_v_advance ∧
    (send_advance advanceEngine sampleState sampleSlot "va").map (fun o => o.result)
      = some (.ok 2) ∧
    (send_advance advanceEngine sampleState sampleSlot "v_advance").map (fun o => o.result)
      = some (.ok 1) := by
  refine ⟨by decide, by decide, by decide, by decide, ?_, ?_⟩
  · have h : method_of sampleSlot "va" = some .ft_glyphslot_h_advance := by decide
    simp only [send_advance, h, Option.map]
    show some (Except.ok (FTFIX2DBL 131072)) = _
    norm_num [FTFIX2DBL]
  · have h : method_of sampleSlot "v_advance" = some .ft_glyphslot_v_advance := by decide
    simp only [send_advance, h, Option.map]
    show some (Except.ok (ft_fixed_to_double 65535)) = _
    norm_num [ft_fixed_to_double]

/-- C16 (evaluation at the failing input): a successful
`glyph.to_bmap (0, [0, 0], nil)` returns the receiver, an instance of
`FT2::Glyph` and not of `FT2::BitmapGlyph`; the method table has no `top`,
`left` or `bitmap` for it, which exist for instances of `FT2::BitmapGlyph`. -/
theorem to_bmap_returns_plain_glyph :
    (ft_glyph_to_bmap sampleEnv sampleEngine sampleState sampleGlyph
        (.int 0) (.ary [.int 0, .int 0]) .Qnil).result = .ok sampleGlyph ∧
    klass_of sampleGlyph = some .cGlyph ∧
    rb_obj_is_kind_of sampleGlyph .cBitmapGlyph = false ∧
    method_of sampleGlyph "top" = none ∧
    method_of sampleGlyph "left" = none ∧
    method_of sampleGlyph "bitmap" = none ∧
    method_of sampleBitmapGlyph "top" = some .ft_bmapglyph_top ∧
    method_of sampleBitmapGlyph "left" = some .ft_bmapglyph_left ∧
    method_of sampleBitmapGlyph "bitmap" = some .ft_bmapglyph_bitmap :=
  ⟨rfl, rfl, rfl, by decide, by decide, by decide, by decide, by decide, by decide⟩

/-- C18 (evaluation at the failing input): when the engine's glyph-name call
answers status 6 (invalid argument), `face.glyph_name (5)` raises the mapped
exception instead of returning `nil`. -/
theorem glyph_name_raises_on_status :
    (ft_face_glyph_name sampleEnv invalidArgumentEngine sampleState sampleFace
        (.int 5)).result
      = .error (.rb_eException "FreeType2 Error: invalid argument.") ∧
    (ft_face_glyph_name sampleEnv invalidArgumentEngine sampleState sampleFace
        (.int 5)).state.trace = [.FT_Get_Glyph_Name 42 5 1024] :=
  ⟨rfl, rfl⟩

/-- C19 (evaluation at the failing input): `glyph.to_bmap (0, nil, nil)` applies
`rb_ary_entry` to `nil`, which is undefined behaviour of the C code; no engine
call is made. -/
theorem to_bmap_nil_origin_fails :
    (ft_glyph_to_bmap sampleEnv sampleEngine sampleState sampleGlyph
        (.int 0) .Qnil .Qnil).result = .error .fatal ∧
    (ft_glyph_to_bmap sampleEnv sampleEngine sampleState sampleGlyph
        (.int 0) .Qnil .Qnil).state.trace = [] :=
  ⟨rfl, rfl⟩

/-- C20 (evaluation at the failing input): `glyph.to_bmap (0, [0, 0], true)`
succeeds and returns the receiver, of class `FT2::Glyph`, for which the method
table has no `bitmap`; the only instances of `FT2::BitmapGlyph` a program can
hold are the plain objects made by `FT2::BitmapGlyph.new`, and on these
`FT2::BitmapGlyph#bitmap` raises `TypeError` in every state.  The sibling
`FT2::GlyphSlot#bitmap` returns an `FT2::Bitmap`. -/
theorem bitmap_glyph_bitmap_never_returns :
    (ft_glyph_to_bmap sampleEnv sampleEngine sampleState sampleGlyph
        (.int 0) (.ary [.int 0, .int 0]) .Qtrue).result = .ok sampleGlyph ∧
    klass_of sampleGlyph = some .cGlyph ∧
    method_of sampleGlyph "bitmap" = none ∧
    method_of (.object .cBitmapGlyph) "bitmap" = some .ft_bmapglyph_bitmap ∧
    (∀ s : State, (ft_bmapglyph_bitmap sampleEngine s (.object .cBitmapGlyph)).result
      = .error .rb_eTypeError) ∧
    (ft_glyphslot_bitmap sampleEngine sampleState sampleSlot).result
      = .ok (.data .cBitmap .dont_free (.cell 1)) :=
  ⟨rfl, rfl, by decide, by decide, fun _ => rfl, rfl⟩

/-- C17 (evaluation at the failing input): on a face (record 42) whose active
size is the record 20 with ppem 12 by 12, `face.size` wraps the address of the
size record itself; `Size#metrics` and `Size#face` dereference that address
once more, so they work on the record whose address is the first word of the
size record (the face, 42): `face.size.metrics.x_ppem` is 0 and
`face.size.metrics.y_ppem` is 3, not 12, and `face.size.face` holds the word 1,
not the face handle 42. -/
theorem face_size_wrong_indirection :
    (ft_face_size layoutEngine sampleState sampleFace).result
      = .ok (.data .cSize .dont_free (.obj 20)) ∧
    layoutEngine.rds [] (.field 20 .metrics) = [12, 12, 65536, 65536] ∧
    (ft_size_metrics layoutEngine sampleState (.data .cSize .dont_free (.obj 20))).result
      = .ok (.data .cSizeMetrics .dont_free (.cell 1)) ∧
    (ft_size_metrics_x_ppem sampleEnv layoutEngine
        (ft_size_metrics layoutEngine sampleState (.data .cSize .dont_free (.obj 20))).state
        (.data .cSizeMetrics .dont_free (.cell 1))).result = .ok (.int 0) ∧
    (ft_size_metrics_y_ppem sampleEnv layoutEngine
        (ft_size_metrics layoutEngine sampleState (.data .cSize .dont_free (.obj 20))).state
        (.data .cSizeMetrics .dont_free (.cell 1))).result = .ok (.int 3) ∧
    (ft_size_face layoutEngine sampleState (.data .cSize .dont_free (.obj 20))).result
      = .ok (.data .cFace .dont_free (.cell 1)) ∧
    deref layoutEngine
        (ft_size_face layoutEngine sampleState (.data .cSize .dont_free (.obj 20))).state
        (.cell 1) = 1 ∧
    deref layoutEngine sampleState (.cell 0) = 42 :=
  ⟨rfl, rfl, rfl, rfl, rfl, rfl, rfl, rfl⟩

/-! ### The charmap loop -/

theorem rb_hash_aset_new (h : List (Int × Int)) (k v : Int) (hk : ∀ e ∈ h, e.1 ≠ k) :
    rb_hash_aset h k v = h ++ [(k, v)] := by
  induction h with
  | nil => rfl
  | cons e rest ih =>
    have h1 : e.1 ≠ k := hk e (List.mem_cons_self _ _)
    simp only [rb_hash_aset, if_neg h1, List.cons_append]
    rw [ih (fun e' he' => hk e' (List.mem_cons_of_mem _ he'))]

theorem find_append_skip {α : Type} (p : α → Bool) (l1 l2 : List α)
    (h : ∀ e ∈ l1, p e = false) : (l1 ++ l2).find? p = l2.find? p := by
  induction l1 with
  | nil => rfl
  | cons a rest ih =>
    have h1 : p a = false := h a (List.mem_cons_self _ _)
    simp only [List.cons_append, List.find?, h1]
    exact ih (fun e he => h e (List.mem_cons_of_mem _ he))

theorem next_entry_split (pre rest : List (Nat × Nat)) (c g : Nat)
    (hs : (pre ++ (c, g) :: rest).Pairwise (fun a b => a.1 < b.1)) :
    next_entry (pre ++ (c, g) :: rest) (c : Int) = first_entry rest := by
  have hpre : ∀ e ∈ pre, e.1 < c := by
    intro e he
    exact (List.pairwise_append.mp hs).2.2 e he (c, g) (List.mem_cons_self _ _)
  have hrest : ((c, g) :: rest).Pairwise (fun a b => a.1 < b.1) :=
    (List.pairwise_append.mp hs).2.1
  unfold next_entry
  rw [find_append_skip]
  · cases rest with
    | nil => simp [List.find?, first_entry]
    | cons e2 rest2 =>
      have h2 : c < e2.1 := (List.pairwise_cons.mp hrest).1 e2 (List.mem_cons_self _ _)
      simp [List.find?, first_entry, h2]
  · intro e he
    have := hpre e he
    simp only [decide_eq_false_iff_not, not_lt, Nat.cast_le]
    omega

theorem charmap_loop_spec (E : Engine) (face : Handle) (cm : List (Nat × Nat))
    (hE : IsCharmap E face cm) (hs : cm.Pairwise (fun a b => a.1 < b.1))
    (hz : ∀ e ∈ cm, e.1 ≠ 0) :
    ∀ (rest pre : List (Nat × Nat)) (c g : Nat) (s : State) (fuel : Nat),
      cm = pre ++ (c, g) :: rest → rest.length + 2 ≤ fuel →
      ft_face_current_charmap.loop E face fuel s c g (pre.map entry_to_int)
        = some (cm.map entry_to_int,
            { trace := s.trace ++ ((c, g) :: rest).map
                (fun e => NativeCall.FT_Get_Next_Char face (e.1 : Int)),
              cells := s.cells, freed := s.freed }) := by
  intro rest
  induction rest with
  | nil =>
    intro pre c g s fuel hcm hfuel
    obtain ⟨f, rfl⟩ : ∃ f, fuel = f + 2 := ⟨fuel - 2, by simp at hfuel; omega⟩
    have hc : c ≠ 0 := hz (c, g) (by rw [hcm]; simp)
    have hnext := hE.2 s.trace (c : Int)
    rw [hcm, next_entry_split pre [] c g (hcm ▸ hs)] at hnext
    have h1 := congrArg Prod.fst hnext
    have h2 := congrArg Prod.snd hnext
    simp only [first_entry, List.headD] at h1 h2
    have hkey : ∀ e ∈ pre.map entry_to_int, e.1 ≠ (c : Int) := by
      intro e he
      obtain ⟨a, ha, rfl⟩ := List.mem_map.mp he
      have : a.1 < c := (List.pairwise_append.mp (hcm ▸ hs)).2.2 a ha (c, g)
        (List.mem_cons_self _ _)
      simp only [entry_to_int, ne_eq, Nat.cast_inj]
      omega
    simp only [ft_face_current_charmap.loop, call, h1, h2, if_pos hc, ne_eq,
      not_true_eq_false, if_false, rb_hash_aset_new _ _ _ hkey]
    simp [hcm, entry_to_int]
  | cons e2 rest2 ih =>
    intro pre c g s fuel hcm hfuel
    obtain ⟨f, rfl⟩ : ∃ f, fuel = f + 1 := ⟨fuel - 1, by simp at hfuel; omega⟩
    have hc : c ≠ 0 := hz (c, g) (by rw [hcm]; simp)
    have hnext := hE.2 s.trace (c : Int)
    rw [hcm, next_entry_split pre (e2 :: rest2) c g (hcm ▸ hs)] at hnext
    have h1 := congrArg Prod.fst hnext
    have h2 := congrArg Prod.snd hnext
    simp only [first_entry, List.headD] at h1 h2
    have hkey : ∀ e ∈ pre.map entry_to_int, e.1 ≠ (c : Int) := by
      intro e he
      obtain ⟨a, ha, rfl⟩ := List.mem_map.mp he
      have : a.1 < c := (List.pairwise_append.mp (hcm ▸ hs)).2.2 a ha (c, g)
        (List.mem_cons_self _ _)
      simp only [entry_to_int, ne_eq, Nat.cast_inj]
      omega
    have hcm2 : cm = (pre ++ [(c, g)]) ++ (e2.1, e2.2) :: rest2 := by
      rw [hcm]; simp
    have := ih (pre ++ [(c, g)]) e2.1 e2.2
      { trace := s.trace ++ [NativeCall.FT_Get_Next_Char face (c : Int)],
        cells := s.cells, freed := s.freed } f hcm2
      (by simp only [List.length_cons] at hfuel; omega)
    simp only [ft_face_current_charmap.loop, call, h1, h2, if_pos hc,
      rb_hash_aset_new _ _ _ hkey]
    simp only [List.map_append, List.map_cons, List.map_nil, entry_to_int,
      List.append_assoc, List.singleton_append] at this ⊢
    exact this

theorem charmapEngine_isCharmap (cm : List (Nat × Nat)) (face : Handle) :
    IsCharmap (charmapEngine cm) face cm :=
  ⟨fun _ => rfl, fun _ _ => rfl⟩

/-- C12 (evaluation at the failing input): the charmap with the three entries
(0, 1), (32, 3), (65, 36) has strictly increasing codes and non-zero glyph
indices, and the engine follows the protocol for it.  `first_char` returns
`[0, 1]`, a defined entry; yet for every bound on the loop `current_charmap`
returns `nil`, which its comment reserves for an empty charmap, not a table of
three entries. -/
theorem current_charmap_first_code_zero :
    IsCharmap (charmapEngine [(0, 1), (32, 3), (65, 36)]) 42 [(0, 1), (32, 3), (65, 36)] ∧
    List.Pairwise (fun a b : Nat × Nat => a.1 < b.1) [(0, 1), (32, 3), (65, 36)] ∧
    (∀ e ∈ [((0 : Nat), (1 : Nat)), (32, 3), (65, 36)], e.2 ≠ 0) ∧
    (ft_face_first_char (charmapEngine [(0, 1), (32, 3), (65, 36)]) sampleState
        sampleFace).result = .ok (.ary [.int 0, .int 1]) ∧
    (∀ fuel, (ft_face_current_charmap (charmapEngine [(0, 1), (32, 3), (65, 36)]) fuel
        sampleState sampleFace).map (fun o => o.result) = some (.ok .Qnil)) :=
  ⟨charmapEngine_isCharmap _ _, by decide, by decide, rfl, fun _ => rfl⟩

/-- Charmaps whose codes are all non-zero are materialised in full: for a
charmap given as N (code, glyph index) entries with
strictly increasing non-zero codes and non-zero glyph indices, on an engine
that follows the first-char / next-char protocol for it, `current_charmap` ends
within N + 1 tests of its loop condition, makes one first-char call and N
next-char calls, and returns `nil` when N = 0 and otherwise the table of
exactly these N entries. -/
theorem current_charmap_materialises (E : Engine) (s : State) (klass : Klass) (d : Dfree)
    (p : Ptr) (cm : List (Nat × Nat)) (fuel : Nat)
    (hE : IsCharmap E (deref E s p) cm)
    (hs : cm.Pairwise (fun a b => a.1 < b.1))
    (hz : ∀ e ∈ cm, e.1 ≠ 0) (hg : ∀ e ∈ cm, e.2 ≠ 0)
    (hfuel : cm.length + 1 ≤ fuel) :
    ft_face_current_charmap E fuel s (.data klass d p)
      = some ⟨.ok (if cm = [] then .Qnil else .hash (cm.map entry_to_int)),
          { trace := s.trace ++ NativeCall.FT_Get_First_Char (deref E s p)
              :: cm.map (fun e => NativeCall.FT_Get_Next_Char (deref E s p) (e.1 : Int)),
            cells := s.cells, freed := s.freed }⟩ := by
  have hfirst := hE.1 s.trace
  have h1 := congrArg Prod.fst hfirst
  have h2 := congrArg Prod.snd hfirst
  cases cm with
  | nil =>
    simp only [first_entry, List.headD] at h1 h2
    simp [ft_face_current_charmap, Data_Get_Struct, call, h1, h2]
  | cons e rest =>
    simp only [first_entry, List.headD] at h1 h2
    have hc : e.1 ≠ 0 := hz e (List.mem_cons_self _ _)
    have hgi : e.2 ≠ 0 := hg e (List.mem_cons_self _ _)
    have hloop := charmap_loop_spec E (deref E s p) (e :: rest) hE hs hz rest [] e.1 e.2
      { trace := s.trace ++ [NativeCall.FT_Get_First_Char (deref E s p)],
        cells := s.cells, freed := s.freed } fuel rfl
      (by simp only [List.length_cons] at hfuel; omega)
    simp only [List.map_nil] at hloop
    simp only [ft_face_current_charmap, Data_Get_Struct, call, h1, h2, hc, hgi, or_self,
      if_false, hloop]
    simp

/-- Evaluation of `current_charmap_materialises` on the charmap with codes 3, 5, 7. -/
theorem current_charmap_materialises_witness :
    (IsCharmap (charmapEngine [(3, 10), (5, 11), (7, 12)])
        (deref (charmapEngine [(3, 10), (5, 11), (7, 12)]) sampleState (.cell 0))
        [(3, 10), (5, 11), (7, 12)] ∧
      List.Pairwise (fun a b : Nat × Nat => a.1 < b.1) [(3, 10), (5, 11), (7, 12)]) ∧
    ft_face_current_charmap (charmapEngine [(3, 10), (5, 11), (7, 12)]) 4 sampleState sampleFace
      = some ⟨.ok (.hash [(3, 10), (5, 11), (7, 12)]),
          { trace := [.FT_Get_First_Char 42, .FT_Get_Next_Char 42 3,
              .FT_Get_Next_Char 42 5, .FT_Get_Next_Char 42 7],
            cells := [.word 42], freed := [] }⟩ :=
  ⟨⟨charmapEngine_isCharmap _ _, by decide⟩,
   current_charmap_materialises (charmapEngine [(3, 10), (5, 11), (7, 12)]) sampleState
     .cFace .face_free (.cell 0) [(3, 10), (5, 11), (7, 12)] 4
     (charmapEngine_isCharmap _ _) (by decide) (by decide) (by decide) (by decide)⟩

/-! ### General forms of the evaluations above -/

theorem kerning_nil_always_raises (env : Env) (E : Engine) (s : State)
    (self left_glyph right_glyph : Value) :
    (ft_face_kerning env E s self left_glyph right_glyph .Qnil).result
        = .error .rb_eTypeError ∧
    (ft_face_kerning env E s self left_glyph right_glyph .Qnil).state = s := by
  cases self <;> exact ⟨rfl, rfl⟩

theorem next_char_call (env : Env) (E : Engine) (s : State) (klass : Klass) (d : Dfree)
    (p : Ptr) (char_code : Value) :
    (ft_face_next_char env E s (.data klass d p) char_code).state.trace
      = s.trace ++ [.FT_Get_Next_Char (deref E s p) (VALUE_word env char_code)] :=
  rfl

theorem to_bmap_returns_self (env : Env) (E : Engine) (s : State)
    (self render_mode origin destroy v : Value)
    (h : (ft_glyph_to_bmap env E s self render_mode origin destroy).result = .ok v) :
    v = self := by
  unfold ft_glyph_to_bmap at h
  split at h
  · cases h
  · simp only [call, status_or] at h
    split_ifs at h
    cases h
    rfl

theorem glyph_name_raises (env : Env) (E : Engine) (s : State) (klass : Klass) (d : Dfree)
    (p : Ptr) (i : Int) (hi : INT_MIN ≤ i ∧ i ≤ INT_MAX)
    (hst : (E.reply s.trace (.FT_Get_Glyph_Name (deref E s p) i 1024)).status ≠ 0) :
    (ft_face_glyph_name env E s (.data klass d p) (.int i)).result
      = .error (handle_error env
          (E.reply s.trace (.FT_Get_Glyph_Name (deref E s p) i 1024)).status) := by
  have h : (do
      let face ← Data_Get_Struct (.data klass d p)
      let i ← NUM2INT (.int i)
      pure (face, i) : Except Raised (Ptr × Int)) = .ok (p, i) := by
    simp [Data_Get_Struct, NUM2INT_int i hi]; rfl
  simp only [ft_face_glyph_name, h, call, status_or, if_pos hst]

theorem face_size_payload (E : Engine) (s : State) (klass : Klass) (d : Dfree) (p : Ptr)
    (h : E.rd s.trace (.field (deref E s p) .size) ≠ 0) :
    (ft_face_size E s (.data klass d p)).result
      = .ok (.data .cSize .dont_free (.obj (E.rd s.trace (.field (deref E s p) .size)))) := by
  simp only [ft_face_size, Data_Get_Struct, if_pos h, Data_Wrap_Struct]


set_option maxRecDepth 4000 in
theorem init_ft2_binds_every_statement :
    Init_ft2.methods.length = Init_ft2.stmts.length := by
  decide

theorem size_metrics_source (E : Engine) (s : State) (klass : Klass) (d : Dfree)
    (size : Handle) :
    (ft_size_metrics E s (.data klass d (.obj size))).state.cells
      = (s.cells ++ [Cell.uninit]).set s.cells.length
          (.record (E.rds s.trace (.field (E.rd s.trace (.obj size)) .metrics))) :=
  rfl

theorem glyphslot_metrics_source (E : Engine) (s : State) (klass : Klass) (d : Dfree)
    (face : Handle) :
    (ft_glyphslot_metrics E s (.data klass d (.field face .glyph))).state.cells
      = (s.cells ++ [Cell.uninit]).set s.cells.length
          (.record (E.rds s.trace (.field (E.rd s.trace (.field face .glyph)) .metrics))) :=
  rfl


/-! ### Claims C21 to C26 -/

/-- C21: on a face wrapper, `Face#glyph`, `Face#size` and `Face#charmap` return
`nil` exactly when the face's `glyph`, `size`, `charmap` member is null, and
otherwise a borrowing wrapper of class `GlyphSlot`, `Size`, `CharMap` whose
data pointer is taken from that member (its address for the glyph slot, its
value for the size and the charmap); the state, and with it the trace of
engine calls, is unchanged. -/
theorem face_views (E : Engine) (s : State) (klass : Klass) (d : Dfree) (p : Ptr) :
    (ft_face_glyph E s (.data klass d p)
      = ⟨.ok (if E.rd s.trace (.field (deref E s p) .glyph) = 0 then .Qnil
          else .data .cGlyphSlot .dont_free (.field (deref E s p) .glyph)), s⟩) ∧
    (ft_face_size E s (.data klass d p)
      = ⟨.ok (if E.rd s.trace (.field (deref E s p) .size) = 0 then .Qnil
          else .data .cSize .dont_free (.obj (E.rd s.trace (.field (deref E s p) .size)))),
         s⟩) ∧
    (ft_face_charmap E s (.data klass d p)
      = ⟨.ok (if E.rd s.trace (.field (deref E s p) .charmap) = 0 then .Qnil
          else .data .cCharMap .dont_free
            (.obj (E.rd s.trace (.field (deref E s p) .charmap)))), s⟩) ∧
    (((ft_face_glyph E s (.data klass d p)).result = .ok .Qnil
        ↔ E.rd s.trace (.field (deref E s p) .glyph) = 0) ∧
      ((ft_face_size E s (.data klass d p)).result = .ok .Qnil
        ↔ E.rd s.trace (.field (deref E s p) .size) = 0) ∧
      ((ft_face_charmap E s (.data klass d p)).result = .ok .Qnil
        ↔ E.rd s.trace (.field (deref E s p) .charmap) = 0)) := by
  have hg : ft_face_glyph E s (.data klass d p)
      = ⟨.ok (if E.rd s.trace (.field (deref E s p) .glyph) = 0 then .Qnil
          else .data .cGlyphSlot .dont_free (.field (deref E s p) .glyph)), s⟩ := by
    simp only [ft_face_glyph, Data_Get_Struct, Data_Wrap_Struct]
    split_ifs <;> first | rfl | contradiction
  have hs : ft_face_size E s (.data klass d p)
      = ⟨.ok (if E.rd s.trace (.field (deref E s p) .size) = 0 then .Qnil
          else .data .cSize .dont_free (.obj (E.rd s.trace (.field (deref E s p) .size)))),
         s⟩ := by
    simp only [ft_face_size, Data_Get_Struct, Data_Wrap_Struct]
    split_ifs <;> first | rfl | contradiction
  have hc : ft_face_charmap E s (.data klass d p)
      = ⟨.ok (if E.rd s.trace (.field (deref E s p) .charmap) = 0 then .Qnil
          else .data .cCharMap .dont_free
            (.obj (E.rd s.trace (.field (deref E s p) .charmap)))), s⟩ := by
    simp only [ft_face_charmap, Data_Get_Struct, Data_Wrap_Struct]
    split_ifs <;> first | rfl | contradiction
  refine ⟨hg, hs, hc, ?_, ?_, ?_⟩
  · rw [hg]
    constructor
    · intro h
      by_contra h0
      simp only [if_neg h0] at h
      cases h
    · intro h0
      simp only [if_pos h0]
  · rw [hs]
    constructor
    · intro h
      by_contra h0
      simp only [if_neg h0] at h
      cases h
    · intro h0
      simp only [if_pos h0]
  · rw [hc]
    constructor
    · intro h
      by_contra h0
      simp only [if_neg h0] at h
      cases h
    · intro h0
      simp only [if_pos h0]

theorem clean_set_transform_matrix (env : Env) (matrix : Value) :
    Clean (ft_face_set_transform.matrix env matrix) := by
  unfold ft_face_set_transform.matrix
  split_ifs
  · exact clean_bind _ _ (clean_matrix_entry _ _ _ _) (fun _ =>
      clean_bind _ _ (clean_matrix_entry _ _ _ _) (fun _ =>
        clean_bind _ _ (clean_matrix_entry _ _ _ _) (fun _ =>
          clean_bind _ _ (clean_matrix_entry _ _ _ _) (fun _ => clean_pure _))))
  · exact clean_pure _

theorem clean_set_transform_delta (delta : Value) :
    Clean (ft_face_set_transform.delta delta) := by
  unfold ft_face_set_transform.delta
  split_ifs
  · exact clean_bind _ _ (clean_vector_entry _ _) (fun _ =>
      clean_bind _ _ (clean_vector_entry _ _) (fun _ => clean_pure _))
  · exact clean_pure _

theorem bind_ok {α β : Type} (x : Except Raised α) (f : α → Except Raised β) (b : β)
    (h : x >>= f = .ok b) : ∃ a, x = .ok a ∧ f a = .ok b := by
  cases x with
  | error e => cases h
  | ok a => exact ⟨a, rfl, h⟩

theorem set_transform_matrix_spec (env : Env) (matrix : Value)
    (m : Option (Int × Int × Int × Int))
    (h : ft_face_set_transform.matrix env matrix = .ok m) :
    (m = none ↔ matrix.is_nil = true) ∧
    (∀ xx xy yx yy, m = some (xx, xy, yx, yy) →
      matrix_entry env matrix 0 0 = .ok xx ∧ matrix_entry env matrix 1 0 = .ok xy ∧
      matrix_entry env matrix 0 1 = .ok yx ∧ matrix_entry env matrix 1 1 = .ok yy) := by
  unfold ft_face_set_transform.matrix at h
  by_cases hn : matrix.is_nil = true
  · simp only [hn, Bool.not_true, Bool.false_eq_true, if_false] at h
    cases h
    simp [hn]
  · simp only [hn, Bool.not_false, if_true, Bool.not_eq_true] at h
    obtain ⟨a1, h1, h⟩ := bind_ok _ _ _ h
    obtain ⟨a2, h2, h⟩ := bind_ok _ _ _ h
    obtain ⟨a3, h3, h⟩ := bind_ok _ _ _ h
    obtain ⟨a4, h4, h⟩ := bind_ok _ _ _ h
    cases h
    refine ⟨by simp [hn], ?_⟩
    intro xx xy yx yy hm
    cases hm
    exact ⟨h1, h2, h3, h4⟩

theorem set_transform_delta_spec (delta : Value) (v : Option (Int × Int))
    (h : ft_face_set_transform.delta delta = .ok v) :
    (v = none ↔ delta.is_nil = true) ∧
    (∀ x y, v = some (x, y) →
      vector_entry delta 0 = .ok x ∧ vector_entry delta 1 = .ok y) := by
  unfold ft_face_set_transform.delta at h
  by_cases hn : delta.is_nil = true
  · simp only [hn, Bool.not_true, Bool.false_eq_true, if_false] at h
    cases h
    simp [hn]
  · simp only [hn, Bool.not_false, if_true, Bool.not_eq_true] at h
    obtain ⟨a1, h1, h⟩ := bind_ok _ _ _ h
    obtain ⟨a2, h2, h⟩ := bind_ok _ _ _ h
    cases h
    refine ⟨by simp [hn], ?_⟩
    intro x y hv
    cases hv
    exact ⟨h1, h2⟩

theorem is_nil_iff (v : Value) : v.is_nil = true ↔ v = .Qnil := by
  cases v <;> simp [Value.is_nil]

/-- C23: `Face#set_transform (matrix, delta)` on a face wrapper never raises an
exception of `handle_error`; when the conversion of its arguments succeeds it
makes exactly one set-transform call and returns the face, and in that call the
matrix is null exactly when `matrix` is `nil` and the vector is null exactly
when `delta` is `nil`; a matrix that is passed has the members converted from
the entries `[0][0]`, `[1][0]`, `[0][1]`, `[1][1]` of `matrix` (as `xx`, `xy`,
`yx`, `yy`), a vector that is passed the two entries of `delta`. -/
theorem set_transform_nil_is_null (env : Env) (E : Engine) (s : State) (klass : Klass)
    (d : Dfree) (p : Ptr) (matrix delta : Value) :
    (∀ e, (ft_face_set_transform env E s (.data klass d p) matrix delta).result = .error e →
      e.is_engine_error = false) ∧
    (∀ m v, ft_face_set_transform.matrix env matrix = .ok m →
      ft_face_set_transform.delta delta = .ok v →
      ft_face_set_transform env E s (.data klass d p) matrix delta
        = ⟨.ok (.data klass d p),
            { s with trace := s.trace ++ [.FT_Set_Transform (deref E s p) m v] }⟩ ∧
      (m = none ↔ matrix = .Qnil) ∧ (v = none ↔ delta = .Qnil) ∧
      (∀ xx xy yx yy, m = some (xx, xy, yx, yy) →
        matrix_entry env matrix 0 0 = .ok xx ∧ matrix_entry env matrix 1 0 = .ok xy ∧
        matrix_entry env matrix 0 1 = .ok yx ∧ matrix_entry env matrix 1 1 = .ok yy) ∧
      (∀ x y, v = some (x, y) →
        vector_entry delta 0 = .ok x ∧ vector_entry delta 1 = .ok y)) := by
  constructor
  · intro e h
    unfold ft_face_set_transform at h
    split at h
    · rename_i e1 heq
      have he : e = e1 := by cases h; rfl
      subst he
      exact clean_bind _ _ (clean_Data_Get_Struct _) (fun _ =>
        clean_bind _ _ (clean_set_transform_matrix _ _) (fun _ =>
          clean_bind _ _ (clean_set_transform_delta _) (fun _ => clean_pure _))) e heq
    · split_ifs at h
  · intro m v hm hv
    have hms := set_transform_matrix_spec env matrix m hm
    have hvs := set_transform_delta_spec delta v hv
    refine ⟨?_, ?_, ?_, hms.2, hvs.2⟩
    · have hargs : (do
          let face ← Data_Get_Struct (.data klass d p)
          let m ← ft_face_set_transform.matrix env matrix
          let v ← ft_face_set_transform.delta delta
          pure (face, m, v) :
            Except Raised (Ptr × Option (Int × Int × Int × Int) × Option (Int × Int)))
          = .ok (p, m, v) := by
        simp only [Data_Get_Struct, hm, hv]
        rfl
      simp only [ft_face_set_transform, hargs, call]
      by_cases h1 : matrix.is_nil = true <;> by_cases h2 : delta.is_nil = true
      · have := hms.1.mpr h1
        have := hvs.1.mpr h2
        subst_vars
        simp [h1, h2]
      · have := hms.1.mpr h1
        subst this
        simp [h1, h2]
      · have := hvs.1.mpr h2
        subst this
        simp [h1, h2]
      · simp [h1, h2]
    · rw [hms.1, is_nil_iff]
    · rw [hvs.1, is_nil_iff]

/-- Witness of C23: the four combinations on the sample face, with the matrix
`[[1, 2], [3, 4]]` and the vector `[5, 6]`. -/
theorem set_transform_nil_is_null_witness :
    ft_face_set_transform sampleEnv sampleEngine sampleState sampleFace
        (.ary [.ary [.int 1, .int 2], .ary [.int 3, .int 4]]) (.ary [.int 5, .int 6])
      = ⟨.ok sampleFace,
          { sampleState with trace := [.FT_Set_Transform 42
              (some (65536, 196608, 131072, 262144)) (some (5, 6))] }⟩ ∧
    ft_face_set_transform sampleEnv sampleEngine sampleState sampleFace
        .Qnil (.ary [.int 5, .int 6])
      = ⟨.ok sampleFace,
          { sampleState with trace := [.FT_Set_Transform 42 none (some (5, 6))] }⟩ ∧
    ft_face_set_transform sampleEnv sampleEngine sampleState sampleFace
        (.ary [.ary [.int 1, .int 2], .ary [.int 3, .int 4]]) .Qnil
      = ⟨.ok sampleFace,
          { sampleState with trace := [.FT_Set_Transform 42
              (some (65536, 196608, 131072, 262144)) none] }⟩ ∧
    ft_face_set_transform sampleEnv sampleEngine sampleState sampleFace .Qnil .Qnil
      = ⟨.ok sampleFace,
          { sampleState with trace := [.FT_Set_Transform 42 none none] }⟩ :=
  ⟨((set_transform_nil_is_null sampleEnv sampleEngine sampleState .cFace .face_free (.cell 0)
      (.ary [.ary [.int 1, .int 2], .ary [.int 3, .int 4]]) (.ary [.int 5, .int 6])).2
      (some (65536, 196608, 131072, 262144)) (some (5, 6)) rfl rfl).1,
   ((set_transform_nil_is_null sampleEnv sampleEngine sampleState .cFace .face_free (.cell 0)
      .Qnil (.ary [.int 5, .int 6])).2 none (some (5, 6)) rfl rfl).1,
   ((set_transform_nil_is_null sampleEnv sampleEngine sampleState .cFace .face_free (.cell 0)
      (.ary [.ary [.int 1, .int 2], .ary [.int 3, .int 4]]) .Qnil).2
      (some (65536, 196608, 131072, 262144)) none rfl rfl).1,
   ((set_transform_nil_is_null sampleEnv sampleEngine sampleState .cFace .face_free (.cell 0)
      .Qnil .Qnil).2 none none rfl rfl).1⟩

/-! ### Snapshots -/

theorem status_arm_cells (env : Env) (E : Engine) (s : State) (c : NativeCall) (v : Value) :
    (status_or env (call E s c).1 (call E s c).2 v).state.cells = s.cells := by
  unfold status_or
  split_ifs <;> rfl

theorem changes_parent_cells (env : Env) (E : Engine) (s : State) (op : StatusOp)
    (h : op.changes_parent = true) : (op.run env E s).state.cells = s.cells := by
  cases op <;> simp only [StatusOp.changes_parent, Bool.false_eq_true] at h
  · simp only [StatusOp.run, ft_face_set_char_size]
    split
    · rfl
    · exact status_arm_cells env E s _ _
  · simp only [StatusOp.run, ft_face_set_pixel_sizes]
    split
    · rfl
    · exact status_arm_cells env E s _ _
  · simp only [StatusOp.run, ft_face_load_glyph]
    split
    · rfl
    · exact status_arm_cells env E s _ _
  · simp only [StatusOp.run, ft_face_load_char]
    split
    · rfl
    · exact status_arm_cells env E s _ _
  · simp only [StatusOp.run, ft_glyphslot_render]
    split
    · rfl
    · exact status_arm_cells env E s _ _

theorem run_ops_cells (env : Env) (E : Engine) (ops : List StatusOp)
    (h : ∀ op ∈ ops, op.changes_parent = true) :
    ∀ s : State, (run_ops env E ops s).cells = s.cells := by
  induction ops with
  | nil => intro s; rfl
  | cons op rest ih =>
    intro s
    simp only [run_ops]
    rw [ih (fun o ho => h o (List.mem_cons_of_mem _ ho))]
    exact changes_parent_cells env E s op (h op (List.mem_cons_self _ _))

theorem load_record_cell (E : Engine) (s : State) (n : Nat) (words : List Int)
    (h : s.cells.getD n .uninit = .record words) : load_record E s (.cell n) = words := by
  show (match s.cells.getD n .uninit with
    | .record words => words
    | _ => E.rds s.trace (.cell n)) = words
  rw [h]

theorem accessor_reads_record (env : Env) (E : Engine) (klass : Klass) (d : Dfree) (p : Ptr)
    (acc : SnapshotAccessor) :
    ∃ f : List Int → Value,
      ∀ s' : State, (acc.run env E s' (.data klass d p)).result = .ok (f (load_record E s' p)) := by
  cases acc
  case glyphmetrics_width => exact ⟨fun ws => INT2NUM (ws.getD 0 0), fun _ => rfl⟩
  case glyphmetrics_height => exact ⟨fun ws => INT2NUM (ws.getD 1 0), fun _ => rfl⟩
  case glyphmetrics_h_bear_x => exact ⟨fun ws => INT2NUM (ws.getD 2 0), fun _ => rfl⟩
  case glyphmetrics_h_bear_y => exact ⟨fun ws => INT2NUM (ws.getD 3 0), fun _ => rfl⟩
  case glyphmetrics_h_advance => exact ⟨fun ws => INT2NUM (ws.getD 4 0), fun _ => rfl⟩
  case glyphmetrics_v_bear_x => exact ⟨fun ws => INT2NUM (ws.getD 5 0), fun _ => rfl⟩
  case glyphmetrics_v_bear_y => exact ⟨fun ws => INT2NUM (ws.getD 6 0), fun _ => rfl⟩
  case glyphmetrics_v_advance => exact ⟨fun ws => INT2NUM (ws.getD 7 0), fun _ => rfl⟩
  case size_metrics_x_ppem => exact ⟨fun ws => INT2FIX env (int_cast (ws.getD 0 0)), fun _ => rfl⟩
  case size_metrics_y_ppem => exact ⟨fun ws => INT2FIX env (int_cast (ws.getD 1 0)), fun _ => rfl⟩
  case size_metrics_x_scale => exact ⟨fun ws => INT2FIX env (int_cast (ws.getD 2 0)), fun _ => rfl⟩
  case size_metrics_y_scale => exact ⟨fun ws => INT2FIX env (int_cast (ws.getD 3 0)), fun _ => rfl⟩
  case bitmap_rows => exact ⟨fun ws => INT2FIX env (ws.getD 0 0), fun _ => rfl⟩
  case bitmap_width => exact ⟨fun ws => INT2FIX env (ws.getD 1 0), fun _ => rfl⟩
  case bitmap_pitch => exact ⟨fun ws => INT2FIX env (ws.getD 2 0), fun _ => rfl⟩
  case bitmap_num_grays => exact ⟨fun ws => INT2FIX env (ws.getD 4 0), fun _ => rfl⟩
  case bitmap_pixel_mode => exact ⟨fun ws => INT2FIX env (ws.getD 5 0), fun _ => rfl⟩

theorem fresh_cell_record (cells : List Cell) (c : Cell) :
    ((cells ++ [Cell.uninit]).set cells.length c).getD cells.length .uninit = c := by
  simp

theorem snapshot_source_spec (E : Engine) (s : State) (klass : Klass) (d : Dfree) (p : Ptr)
    (src : SnapshotSource) :
    ∃ k, (src.run E s (.data klass d p)).result
        = .ok (.data k .dont_free (.cell s.cells.length)) ∧
      (src.run E s (.data klass d p)).state.cells.getD s.cells.length .uninit
        = .record (E.rds s.trace (.field (deref E s p) src.member)) := by
  cases src
  · exact ⟨.cGlyphMetrics, rfl, fresh_cell_record _ _⟩
  · exact ⟨.cSizeMetrics, rfl, fresh_cell_record _ _⟩
  · exact ⟨.cBitmap, rfl, fresh_cell_record _ _⟩

/-- The copied records are stable: a record wrapper returned by
`ft_glyphslot_metrics`, `ft_size_metrics` or `ft_glyphslot_bitmap` holds the
record these functions read through their receiver; after every sequence of `load_glyph`,
`load_char`, `render`, `set_char_size` and `set_pixel_sizes` operations
(whatever their receivers, arguments and outcomes), the record it points at is
still that record, and each of its seventeen scalar accessors returns what it
returned right after the call. -/
theorem snapshots_keep_values (env : Env) (E : Engine) (s : State) (klass : Klass)
    (d : Dfree) (p : Ptr) (src : SnapshotSource) (w : Value) (ops : List StatusOp)
    (acc : SnapshotAccessor)
    (hw : (src.run E s (.data klass d p)).result = .ok w)
    (hops : ∀ op ∈ ops, op.changes_parent = true) :
    (∃ n, Data_Get_Struct w = .ok (.cell n) ∧
      load_record E (run_ops env E ops (src.run E s (.data klass d p)).state) (.cell n)
        = E.rds s.trace (.field (deref E s p) src.member)) ∧
    (acc.run env E (run_ops env E ops (src.run E s (.data klass d p)).state) w).result
      = (acc.run env E (src.run E s (.data klass d p)).state w).result := by
  obtain ⟨k, hres, hcell⟩ := snapshot_source_spec E s klass d p src
  rw [hres] at hw
  cases hw
  have hcells := run_ops_cells env E ops hops (src.run E s (.data klass d p)).state
  have hrec1 := load_record_cell E (src.run E s (.data klass d p)).state s.cells.length _ hcell
  have hrec2 := load_record_cell E
    (run_ops env E ops (src.run E s (.data klass d p)).state) s.cells.length _
    (by rw [hcells]; exact hcell)
  refine ⟨⟨s.cells.length, rfl, hrec2⟩, ?_⟩
  obtain ⟨f, hf⟩ := accessor_reads_record env E k .dont_free (.cell s.cells.length) acc
  rw [hf, hf, hrec1, hrec2]

/-- C22 (evaluation at the failing input): on a face (record 42) whose active
size is the record 20 with metrics 12, 12, 65536, 65536, the snapshot taken by
`face.size.metrics` does not hold the values of the Size: `Size#metrics`
dereferences the wrapped size record once more and copies the words the face
record holds at that place, so the copy is 0, 3, 7, 7 and `x_ppem`, `y_ppem`,
`x_scale`, `y_scale` of the snapshot return 0, 3, 7, 7, before and after a
`set_pixel_sizes`. -/
theorem size_metrics_snapshot_misses_parent :
    (ft_face_size layoutEngine sampleState sampleFace).result
      = .ok (.data .cSize .dont_free (.obj 20)) ∧
    layoutEngine.rds sampleState.trace (.field 20 .metrics) = [12, 12, 65536, 65536] ∧
    (SnapshotSource.size_metrics.run layoutEngine sampleState
        (.data .cSize .dont_free (.obj 20))).result
      = .ok (.data .cSizeMetrics .dont_free (.cell 1)) ∧
    (SnapshotSource.size_metrics.run layoutEngine sampleState
        (.data .cSize .dont_free (.obj 20))).state.cells
      = [.word 42, .record [0, 3, 7, 7]] ∧
    [SnapshotAccessor.size_metrics_x_ppem, .size_metrics_y_ppem, .size_metrics_x_scale,
        .size_metrics_y_scale].map
      (fun acc => (acc.run sampleEnv layoutEngine
        (SnapshotSource.size_metrics.run layoutEngine sampleState
          (.data .cSize .dont_free (.obj 20))).state
        (.data .cSizeMetrics .dont_free (.cell 1))).result)
      = [.ok (.int 0), .ok (.int 3), .ok (.int 7), .ok (.int 7)] ∧
    [SnapshotAccessor.size_metrics_x_ppem, .size_metrics_y_ppem, .size_metrics_x_scale,
        .size_metrics_y_scale].map
      (fun acc => (acc.run sampleEnv layoutEngine
        (run_ops sampleEnv layoutEngine
          [StatusOp.face_set_pixel_sizes sampleFace (.int 12) (.int 12)]
          (SnapshotSource.size_metrics.run layoutEngine sampleState
            (.data .cSize .dont_free (.obj 20))).state)
        (.data .cSizeMetrics .dont_free (.cell 1))).result)
      = [.ok (.int 0), .ok (.int 3), .ok (.int 7), .ok (.int 7)] :=
  ⟨rfl, rfl, rfl, rfl, rfl, rfl⟩

/-- Evaluation of `snapshots_keep_values` on a concrete input: the metrics of
the slot of `sampleState` are copied when no engine call has been made; after
`load_glyph` and `render` (two engine calls, after which the slot's own record
starts with 2) the copy still starts with 0 and `width` still returns 0. -/
theorem snapshots_keep_values_witness :
    (SnapshotSource.glyphslot_metrics.run reloadingEngine sampleState sampleSlot).result
      = .ok (.data .cGlyphMetrics .dont_free (.cell 1)) ∧
    (∀ op ∈ [StatusOp.face_load_glyph sampleFace (.int 3) (.int 0),
        StatusOp.glyphslot_render sampleSlot (.int 0)], op.changes_parent = true) ∧
    ((∃ n, Data_Get_Struct (Value.data .cGlyphMetrics .dont_free (.cell 1)) = .ok (.cell n) ∧
      load_record reloadingEngine
        (run_ops sampleEnv reloadingEngine
          [StatusOp.face_load_glyph sampleFace (.int 3) (.int 0),
            StatusOp.glyphslot_render sampleSlot (.int 0)]
          (SnapshotSource.glyphslot_metrics.run reloadingEngine sampleState sampleSlot).state)
        (.cell n)
        = reloadingEngine.rds sampleState.trace
            (.field (deref reloadingEngine sampleState (.cell 0))
              SnapshotSource.glyphslot_metrics.member)) ∧
    (SnapshotAccessor.glyphmetrics_width.run sampleEnv reloadingEngine
        (run_ops sampleEnv reloadingEngine
          [StatusOp.face_load_glyph sampleFace (.int 3) (.int 0),
            StatusOp.glyphslot_render sampleSlot (.int 0)]
          (SnapshotSource.glyphslot_metrics.run reloadingEngine sampleState sampleSlot).state)
        (.data .cGlyphMetrics .dont_free (.cell 1))).result
      = (SnapshotAccessor.glyphmetrics_width.run sampleEnv reloadingEngine
          (SnapshotSource.glyphslot_metrics.run reloadingEngine sampleState sampleSlot).state
          (.data .cGlyphMetrics .dont_free (.cell 1))).result) ∧
    (SnapshotSource.glyphslot_metrics.run reloadingEngine
        (run_ops sampleEnv reloadingEngine
          [StatusOp.face_load_glyph sampleFace (.int 3) (.int 0),
            StatusOp.glyphslot_render sampleSlot (.int 0)]
          (SnapshotSource.glyphslot_metrics.run reloadingEngine sampleState sampleSlot).state)
        sampleSlot).state.cells
      = [.word 42, .record [0, 640, 0, 576, 704, 0, 0, 0],
          .record [2, 640, 0, 576, 704, 0, 0, 0]] :=
  ⟨rfl, by intro op h; simp only [List.mem_cons, List.mem_singleton, List.not_mem_nil, or_false] at h; rcases h with rfl | rfl <;> rfl,
    snapshots_keep_values sampleEnv reloadingEngine sampleState .cGlyphSlot .dont_free (.cell 0)
      .glyphslot_metrics (.data .cGlyphMetrics .dont_free (.cell 1))
      [StatusOp.face_load_glyph sampleFace (.int 3) (.int 0),
        StatusOp.glyphslot_render sampleSlot (.int 0)]
      .glyphmetrics_width rfl
      (by intro op h; simp only [List.mem_cons, List.mem_singleton, List.not_mem_nil, or_false] at h; rcases h with rfl | rfl <;> rfl),
    by decide⟩


/-! ### A glyph and the face it came from -/

theorem getD_fresh_lt (cells : List Cell) (c : Cell) (i : Nat) (h : i < cells.length) :
    ((cells ++ [Cell.uninit]).set cells.length c).getD i .uninit = cells.getD i .uninit := by
  rw [List.getD_eq_getElem?_getD, List.getD_eq_getElem?_getD,
    List.getElem?_set_ne (Nat.ne_of_gt h), List.getElem?_append_left h]

theorem live_cell_lt (cells : List Cell) (i : Nat) (f : Handle)
    (h : cells.getD i .uninit = .word f) : i < cells.length := by
  by_contra hlt
  rw [List.getD_eq_default _ _ (Nat.le_of_not_lt hlt)] at h
  cases h

theorem glyphslot_glyph_ok (env : Env) (E : Engine) (s : State) (klass : Klass) (d : Dfree)
    (p : Ptr) (G : Value)
    (h : (ft_glyphslot_glyph env E s (.data klass d p)).result = .ok G) :
    G = .data .cGlyph .glyph_free (.cell s.cells.length) ∧
    (ft_glyphslot_glyph env E s (.data klass d p)).state
      = { trace := s.trace ++ [.FT_Get_Glyph (deref E s p) (.cell s.cells.length)],
          cells := (s.cells ++ [Cell.uninit]).set s.cells.length
            (.word (E.reply s.trace (.FT_Get_Glyph (deref E s p) (.cell s.cells.length))).handle),
          freed := s.freed } := by
  have hd := deref_malloc E s p
  simp only [malloc] at hd
  simp only [ft_glyphslot_glyph, Data_Get_Struct, malloc, call, poke, hd] at h ⊢
  split_ifs at h ⊢
  cases h
  exact ⟨rfl, rfl⟩

theorem face_free_state (env : Env) (E : Engine) (s : State) (i : Nat) (f : Handle)
    (h : s.cells.getD i .uninit = .word f) :
    (face_free env E s (.cell i)).state.trace = s.trace ++ [.FT_Done_Face f] ∧
    (face_free env E s (.cell i)).state.cells = s.cells ∧
    ((face_free env E s (.cell i)).state.freed = s.freed ∨
      (face_free env E s (.cell i)).state.freed = s.freed ++ [.cell i]) := by
  simp only [face_free, call, deref_word E s i f h]
  split_ifs
  · exact ⟨rfl, rfl, Or.inl rfl⟩
  · exact ⟨rfl, rfl, Or.inr rfl⟩

theorem glyph_free_cell (E : Engine) (s : State) (n : Nat) (g : Handle)
    (h : s.cells.getD n .uninit = .word g) :
    glyph_free E s (.cell n)
      = ⟨.ok (), { trace := s.trace ++ [.FT_Done_Glyph g], cells := s.cells,
                   freed := s.freed ++ [.cell n] }⟩ := by
  simp only [glyph_free, call, free, deref_word E s n g h]

/-- C25: a Glyph extracted by `GlyphSlot#glyph` outlives its Face.  On a state
whose Face wrapper holds the live face `f`, let `G` be the wrapper that
`GlyphSlot#glyph` returns and `g` the glyph handle the engine stored for it.
Running the destructor of the Face wrapper and then the destructor of `G`:
the destructor of `G` returns normally, the engine calls made since the start
are exactly the extraction, `FT_Done_Face f` and one `FT_Done_Glyph g`, the
block released is the one of `G` (not the one of the Face wrapper), and the
destructor of `G` does the same whatever native memory holds and whatever the
engine replies (it reads only the block of `G`). -/
theorem glyph_outlives_face (env : Env) (E : Engine) (s : State) (ks kf : Klass) (ds : Dfree)
    (ps : Ptr) (i : Nat) (f : Handle) (G : Value)
    (hf : s.cells.getD i .uninit = .word f)
    (hG : (ft_glyphslot_glyph env E s (.data ks ds ps)).result = .ok G) :
    G = .data .cGlyph .glyph_free (.cell s.cells.length) ∧
    i ≠ s.cells.length ∧
    (run_dfree env E
      (run_dfree env E (ft_glyphslot_glyph env E s (.data ks ds ps)).state
        (.data kf .face_free (.cell i))).state G).result = .ok () ∧
    (run_dfree env E
      (run_dfree env E (ft_glyphslot_glyph env E s (.data ks ds ps)).state
        (.data kf .face_free (.cell i))).state G).state.trace
      = s.trace ++ [.FT_Get_Glyph (deref E s ps) (.cell s.cells.length), .FT_Done_Face f,
          .FT_Done_Glyph
            (E.reply s.trace (.FT_Get_Glyph (deref E s ps) (.cell s.cells.length))).handle] ∧
    (run_dfree env E
      (run_dfree env E (ft_glyphslot_glyph env E s (.data ks ds ps)).state
        (.data kf .face_free (.cell i))).state G).state.freed
      = (run_dfree env E (ft_glyphslot_glyph env E s (.data ks ds ps)).state
          (.data kf .face_free (.cell i))).state.freed ++ [.cell s.cells.length] ∧
    ∀ E2 : Engine,
      run_dfree env E2
        (run_dfree env E (ft_glyphslot_glyph env E s (.data ks ds ps)).state
          (.data kf .face_free (.cell i))).state G
      = run_dfree env E
        (run_dfree env E (ft_glyphslot_glyph env E s (.data ks ds ps)).state
          (.data kf .face_free (.cell i))).state G := by
  obtain ⟨hGeq, hst⟩ := glyphslot_glyph_ok env E s ks ds ps G hG
  have hi := live_cell_lt s.cells i f hf
  subst hGeq
  have hcell1 : (ft_glyphslot_glyph env E s (.data ks ds ps)).state.cells.getD i .uninit
      = .word f := by
    rw [hst]
    exact (getD_fresh_lt s.cells _ i hi).trans hf
  obtain ⟨htr, hcells, _⟩ :=
    face_free_state env E (ft_glyphslot_glyph env E s (.data ks ds ps)).state i f hcell1
  have hcell2 : (face_free env E (ft_glyphslot_glyph env E s (.data ks ds ps)).state
      (.cell i)).state.cells.getD s.cells.length .uninit
      = .word (E.reply s.trace (.FT_Get_Glyph (deref E s ps) (.cell s.cells.length))).handle := by
    rw [hcells, hst]
    exact fresh_cell_record s.cells _
  have key : ∀ E2 : Engine, run_dfree env E2
      (run_dfree env E (ft_glyphslot_glyph env E s (.data ks ds ps)).state
        (.data kf .face_free (.cell i))).state (.data .cGlyph .glyph_free (.cell s.cells.length))
      = ⟨.ok (), {
          trace := (face_free env E (ft_glyphslot_glyph env E s (.data ks ds ps)).state
            (.cell i)).state.trace ++ [.FT_Done_Glyph
              (E.reply s.trace (.FT_Get_Glyph (deref E s ps) (.cell s.cells.length))).handle],
          cells := (face_free env E (ft_glyphslot_glyph env E s (.data ks ds ps)).state
            (.cell i)).state.cells,
          freed := (face_free env E (ft_glyphslot_glyph env E s (.data ks ds ps)).state
            (.cell i)).state.freed ++ [.cell s.cells.length] }⟩ :=
    fun E2 => glyph_free_cell E2 _ s.cells.length _ hcell2
  refine ⟨rfl, Nat.ne_of_lt hi, ?_, ?_, ?_, ?_⟩
  · rw [key E]
  · rw [key E]
    show (face_free env E _ (.cell i)).state.trace ++ _ = _
    rw [htr, hst]
    simp
  · rw [key E]
    rfl
  · intro E2
    rw [key E2, key E]

/-- Evaluation of `glyph_outlives_face` on a concrete input: the Face wrapper of
`sampleState` holds face 42; the glyph extracted from its slot gets handle 5
in block 1; after the Face is released the destructor of the Glyph makes the
one call `FT_Done_Glyph 5`, also on an engine whose every call fails. -/
theorem glyph_outlives_face_witness :
    sampleState.cells.getD 0 .uninit = .word 42 ∧
    (ft_glyphslot_glyph sampleEnv sampleEngine sampleState sampleSlot).result
      = .ok (.data .cGlyph .glyph_free (.cell 1)) ∧
    (run_dfree sampleEnv sampleEngine
      (run_dfree sampleEnv sampleEngine
        (ft_glyphslot_glyph sampleEnv sampleEngine sampleState sampleSlot).state
        sampleFace).state (.data .cGlyph .glyph_free (.cell 1))).state.trace
      = [.FT_Get_Glyph 42 (.cell 1), .FT_Done_Face 42, .FT_Done_Glyph 5] ∧
    run_dfree sampleEnv failingEngine
        (run_dfree sampleEnv sampleEngine
          (ft_glyphslot_glyph sampleEnv sampleEngine sampleState sampleSlot).state
          sampleFace).state (.data .cGlyph .glyph_free (.cell 1))
      = run_dfree sampleEnv sampleEngine
        (run_dfree sampleEnv sampleEngine
          (ft_glyphslot_glyph sampleEnv sampleEngine sampleState sampleSlot).state
          sampleFace).state (.data .cGlyph .glyph_free (.cell 1)) :=
  ⟨rfl, rfl,
    (glyph_outlives_face sampleEnv sampleEngine sampleState .cGlyphSlot .cFace .dont_free
      (.cell 0) 0 42 (.data .cGlyph .glyph_free (.cell 1)) rfl rfl).2.2.2.1,
    (glyph_outlives_face sampleEnv sampleEngine sampleState .cGlyphSlot .cFace .dont_free
      (.cell 0) 0 42 (.data .cGlyph .glyph_free (.cell 1)) rfl rfl).2.2.2.2.2 failingEngine⟩


/-! ### The engine handle -/

theorem run_dfree_no_shutdown (env : Env) (E : Engine) (s : State) (v : Value)
    (c : NativeCall) (hc : c ∈ (run_dfree env E s v).state.trace)
    (hs : c.is_shutdown = true) : c ∈ s.trace := by
  cases v
  case data klass d p =>
    cases d
    case face_free =>
      have htr : (run_dfree env E s (.data klass .face_free p)).state.trace
          = s.trace ++ [.FT_Done_Face (deref E s p)] := by
        simp only [run_dfree, face_free, call]
        split_ifs <;> rfl
      rw [htr, List.mem_append, List.mem_singleton] at hc
      rcases hc with hc | hc
      · exact hc
      · subst hc
        cases hs
    case glyph_free =>
      have htr : (run_dfree env E s (.data klass .glyph_free p)).state.trace
          = s.trace ++ [.FT_Done_Glyph (deref E s p)] := rfl
      rw [htr, List.mem_append, List.mem_singleton] at hc
      rcases hc with hc | hc
      · exact hc
      · subst hc
        cases hs
    case dont_free => exact hc
  all_goals exact hc

theorem run_dfrees_no_shutdown (env : Env) (E : Engine) (live : List Value) :
    ∀ (s : State) (c : NativeCall), c ∈ (run_dfrees env E live s).trace →
      c.is_shutdown = true → c ∈ s.trace := by
  induction live with
  | nil => intro s c hc _; exact hc
  | cons v rest ih =>
    intro s c hc hs
    exact run_dfree_no_shutdown env E s v c (ih _ c hc hs) hs

/-- C26, the claim as stated fails: on an engine whose every call succeeds,
`Init_ft2` registers nothing to run at process exit, and process exit with one
live Face wrapper makes the calls `FT_Init_FreeType` and `FT_Done_Face 42` only:
no shutdown call of the engine is performed or registered. -/
theorem init_ft2_registers_no_shutdown :
    (Init_ft2 sampleEnv sampleEngine sampleState).result
      = .ok { library := 5, methods := Init_ft2.methods, end_procs := [] } ∧
    (process_exit sampleEnv sampleEngine
        { library := 5, methods := Init_ft2.methods, end_procs := [] } [sampleFace]
        (Init_ft2 sampleEnv sampleEngine sampleState).state).trace
      = [.FT_Init_FreeType, .FT_Done_Face 42] ∧
    [NativeCall.FT_Init_FreeType, NativeCall.FT_Done_Face 42].any NativeCall.is_shutdown
      = false :=
  ⟨rfl, rfl, rfl⟩

/-- C26, amended: `Init_ft2` makes exactly one engine call, `FT_Init_FreeType`;
when it fails the mapped error is raised and nothing is defined; when it
succeeds the handle it stored is the library, the method table is defined, and
nothing is registered to run at process exit.  At process exit, whatever
wrappers are still alive, the binding makes no shutdown call of the engine:
the handle created at load is never released by the binding. -/
theorem engine_lifecycle (env : Env) (E : Engine) (s : State) :
    (Init_ft2 env E s).state.trace = s.trace ++ [.FT_Init_FreeType] ∧
    ((E.reply s.trace .FT_Init_FreeType).status ≠ 0 →
      (Init_ft2 env E s).result
        = .error (handle_error env (E.reply s.trace .FT_Init_FreeType).status)) ∧
    ((E.reply s.trace .FT_Init_FreeType).status = 0 →
      (Init_ft2 env E s).result
        = .ok { library := (E.reply s.trace .FT_Init_FreeType).handle,
                methods := Init_ft2.methods, end_procs := [] }) ∧
    ∀ l : Loaded, (Init_ft2 env E s).result = .ok l →
      l.end_procs = [] ∧
      ∀ (live : List Value) (s2 : State) (c : NativeCall),
        c ∈ (process_exit env E l live s2).trace → c.is_shutdown = true → c ∈ s2.trace := by
  refine ⟨?_, ?_, ?_, ?_⟩
  · simp only [Init_ft2, call]
    split_ifs <;> rfl
  · intro h
    simp only [Init_ft2, call]
    rw [if_pos h]
  · intro h
    simp only [Init_ft2, call]
    rw [if_neg (not_not.mpr h)]
  · intro l hl
    have hend : l.end_procs = [] := by
      simp only [Init_ft2, call] at hl
      split_ifs at hl
      cases hl
      rfl
    refine ⟨hend, ?_⟩
    intro live s2 c hc hs
    simp only [process_exit, hend, List.foldl_nil] at hc
    exact run_dfrees_no_shutdown env E live s2 c hc hs

/-- Evaluation of `engine_lifecycle` on a concrete input: loading on the sample
engine stores handle 5 and registers nothing; at exit with a live Face and a
live Glyph wrapper a shutdown call is in the trace only if it was there
before. -/
theorem engine_lifecycle_witness :
    (Init_ft2 sampleEnv sampleEngine sampleState).state.trace = [.FT_Init_FreeType] ∧
    (Init_ft2 sampleEnv sampleEngine sampleState).result
      = .ok { library := 5, methods := Init_ft2.methods, end_procs := [] } ∧
    (Init_ft2 sampleEnv failingEngine sampleState).result
      = .error (.rb_eException "FreeType2 Error: cannot open resource.") ∧
    (∀ c : NativeCall,
      c ∈ (process_exit sampleEnv sampleEngine
        { library := 5, methods := Init_ft2.methods, end_procs := [] }
        [sampleFace, sampleGlyph] sampleState).trace →
      c.is_shutdown = true → c ∈ sampleState.trace) :=
  ⟨(engine_lifecycle sampleEnv sampleEngine sampleState).1,
    (engine_lifecycle sampleEnv sampleEngine sampleState).2.2.1 rfl,
    (engine_lifecycle sampleEnv failingEngine sampleState).2.1 (by decide),
    ((engine_lifecycle sampleEnv sampleEngine sampleState).2.2.2 _ rfl).2
      [sampleFace, sampleGlyph] sampleState⟩


/-! ### Flag methods of FT2::Face -/

theorem nat_single_bit (N k : Nat) (B : Nat → Bool)
    (h : ∀ j, N.testBit j = (decide (k = j) && B j)) : N ≠ 0 ↔ B k = true := by
  constructor
  · intro hN
    by_contra hb
    apply hN
    apply Nat.zero_of_testBit_eq_false
    intro j
    rw [h j]
    by_cases hkj : k = j
    · subst hkj
      simp [hb]
    · simp [hkj]
  · intro hb hN
    have := h k
    rw [hN, Nat.zero_testBit] at this
    simp [hb] at this

theorem land_flag_ne_zero (x : Int) (k : Nat) :
    Int.land x (FLAG k) ≠ 0 ↔ Int.testBit x k = true := by
  cases x with
  | ofNat m =>
    show ((m &&& 2 ^ k : Nat) : Int) ≠ 0 ↔ Nat.testBit m k = true
    rw [Int.natCast_ne_zero]
    apply nat_single_bit _ k (fun j => Nat.testBit m j)
    intro j
    rw [Nat.testBit_and, Nat.testBit_two_pow, Bool.and_comm]
  | negSucc m =>
    show ((Nat.ldiff (2 ^ k) m : Nat) : Int) ≠ 0 ↔ (!Nat.testBit m k) = true
    rw [Int.natCast_ne_zero]
    apply nat_single_bit _ k (fun j => !Nat.testBit m j)
    intro j
    rw [Nat.testBit_ldiff, Nat.testBit_two_pow]

theorem testBit_div_mod (x : Int) (k : Nat) :
    Int.testBit x k = decide (x / 2 ^ k % 2 = 1) := by
  cases x with
  | ofNat m =>
    show Nat.testBit m k = _
    rw [Nat.testBit_to_div_mod]
    congr 1
    apply propext
    have : ((m : Int) / 2 ^ k % 2) = ((m / 2 ^ k % 2 : Nat) : Int) := by push_cast; rfl
    show _ ↔ ((m : Int) / 2 ^ k % 2 = 1)
    rw [this]
    omega
  | negSucc m =>
    show (!Nat.testBit m k) = _
    rw [Nat.testBit_to_div_mod]
    have hpos : (0 : Int) < 2 ^ k := by positivity
    rw [Int.negSucc_ediv m hpos]
    have : (Int.ediv (m : Int) (2 ^ k)) = ((m / 2 ^ k : Nat) : Int) := by
      show (m : Int) / 2 ^ k = _
      push_cast; rfl
    rw [this]
    generalize m / 2 ^ k = q
    by_cases hq : q % 2 = 1
    · simp [hq]; omega
    · simp [hq]; omega

/-- Adding a multiple of `2 ^ m` leaves the bits below `m` alone. -/
theorem bit_add_mul_pow (n q : Int) (k m : Nat) (hk : k < m) :
    (n + 2 ^ m * q) / 2 ^ k % 2 = n / 2 ^ k % 2 := by
  have hpos : (0 : Int) < 2 ^ k := by positivity
  have hsplit : (2 : Int) ^ m = 2 ^ k * (2 * 2 ^ (m - 1 - k)) := by
    rw [← pow_succ', ← pow_add]
    congr 1
    omega
  rw [hsplit, mul_assoc, Int.add_mul_ediv_left _ _ (ne_of_gt hpos), mul_assoc,
    Int.add_mul_emod_self_left]

theorem int_cast_eq (n : Int) : int_cast n = n + 2 ^ 32 * (-((n + 2 ^ 31) / 2 ^ 32)) := by
  unfold int_cast
  have := Int.emod_add_ediv (n + 2 ^ 31) (2 ^ 32)
  linarith

theorem int_cast_bit (n : Int) (k : Nat) (hk : k < 32) :
    int_cast n / 2 ^ k % 2 = n / 2 ^ k % 2 := by
  rw [int_cast_eq, bit_add_mul_pow n _ k 32 hk]

theorem land_int_cast (n : Int) (k : Nat) (hk : k < 32) :
    Int.land (int_cast n) (FLAG k) ≠ 0 ↔ Int.land n (FLAG k) ≠ 0 := by
  rw [land_flag_ne_zero, land_flag_ne_zero, testBit_div_mod, testBit_div_mod,
    int_cast_bit n k hk]

theorem int_cast_range (n : Int) : -2 ^ 31 ≤ int_cast n ∧ int_cast n < 2 ^ 31 := by
  unfold int_cast
  omega

theorem FLAG_range (k : Nat) (hk : k < 31) : 0 < FLAG k ∧ FLAG k < 2 ^ 31 := by
  unfold FLAG
  have h1 : (2 : Nat) ^ k < 2 ^ 31 := Nat.pow_lt_pow_right (by norm_num) hk
  have h2 : 0 < (2 : Nat) ^ k := by positivity
  constructor
  · exact_mod_cast h2
  · exact_mod_cast h1

theorem INT2FIX_lp64 (env : Env) (h : env.lp64 = true) (n : Int)
    (hn : -2 ^ 62 ≤ n ∧ n < 2 ^ 62) : INT2FIX env n = .int n := by
  simp only [INT2FIX, Env.long_bits, h, if_true]
  congr 1
  norm_num
  omega

theorem INT2FIX_ilp32 (env : Env) (h : env.lp64 = false) (n : Int) :
    INT2FIX env n = .int ((n + 2 ^ 30) % 2 ^ 31 - 2 ^ 30) := by
  simp only [INT2FIX, Env.long_bits, h]
  rfl

/-- Masking with the Fixnum `-2 ^ 30` tests the sign of a 31-bit number. -/
theorem land_sign (y : Int) (h : -2 ^ 30 ≤ y ∧ y < 2 ^ 30) :
    Int.land y (-2 ^ 30) ≠ 0 ↔ y < 0 := by
  have hneg : (-2 ^ 30 : Int) = Int.negSucc (2 ^ 30 - 1) := by decide
  rw [hneg]
  cases y with
  | ofNat m =>
    have hm : m < 2 ^ 30 := by
      have h2 : (m : Int) < 2 ^ 30 := h.2
      omega
    show ((Nat.ldiff m (2 ^ 30 - 1) : Nat) : Int) ≠ 0 ↔ _
    have hz : Nat.ldiff m (2 ^ 30 - 1) = 0 := by
      apply Nat.zero_of_testBit_eq_false
      intro i
      rw [Nat.testBit_ldiff, Nat.testBit_two_pow_sub_one]
      by_cases hi : i < 30
      · simp [hi]
      · have : m < 2 ^ i := lt_of_lt_of_le hm (Nat.pow_le_pow_right (by norm_num) (by omega))
        simp [Nat.testBit_lt_two_pow this]
    rw [hz]
    constructor
    · intro h0; exact absurd rfl h0
    · intro hlt
      have : (0 : Int) ≤ Int.ofNat m := Int.ofNat_nonneg m
      omega
  | negSucc a =>
    show Int.negSucc (a ||| (2 ^ 30 - 1)) ≠ 0 ↔ _
    constructor
    · intro _; exact Int.negSucc_lt_zero a
    · intro _ h0; cases h0

/-- What the flag test sees agrees with what Ruby computes from the two
Fixnums, on both word sizes. -/
theorem flag_fixnums (env : Env) (x : Int) (k : Nat) (hk : k < 31) :
    ∃ n c : Int, INT2FIX env (int_cast x) = .int n ∧ INT2FIX env (FLAG k) = .int c ∧
      (Int.land n c ≠ 0 ↔ Int.land x (FLAG k) ≠ 0) := by
  have hr := int_cast_range x
  have hf := FLAG_range k hk
  by_cases hlp : env.lp64 = true
  · refine ⟨int_cast x, FLAG k, INT2FIX_lp64 env hlp _ (by constructor <;> omega),
      INT2FIX_lp64 env hlp _ (by constructor <;> omega), land_int_cast x k (by omega)⟩
  · have hlp2 : env.lp64 = false := by simpa using hlp
    refine ⟨_, _, INT2FIX_ilp32 env hlp2 _, INT2FIX_ilp32 env hlp2 _, ?_⟩
    rw [← land_int_cast x k (by omega)]
    generalize int_cast x = y at hr ⊢
    have hy : (y + 2 ^ 30) % 2 ^ 31 - 2 ^ 30 = y + 2 ^ 31 * (-((y + 2 ^ 30) / 2 ^ 31)) := by
      have := Int.emod_add_ediv (y + 2 ^ 30) (2 ^ 31)
      linarith
    by_cases hk30 : k = 30
    · subst hk30
      have hc : (FLAG 30 + 2 ^ 30) % 2 ^ 31 - 2 ^ 30 = -2 ^ 30 := by decide
      rw [hc, land_sign _ (by constructor <;> omega), land_flag_ne_zero, testBit_div_mod]
      simp only [decide_eq_true_eq]
      omega
    · have hk29 : k < 30 := by omega
      have h2k : (2 : Nat) ^ k < 2 ^ 30 := Nat.pow_lt_pow_right (by norm_num) hk29
      have h2k' : FLAG k < 2 ^ 30 := by unfold FLAG; exact_mod_cast h2k
      have hc : (FLAG k + 2 ^ 30) % 2 ^ 31 - 2 ^ 30 = FLAG k := by omega
      rw [hc, land_flag_ne_zero, land_flag_ne_zero, testBit_div_mod, testBit_div_mod, hy,
        bit_add_mul_pow y _ k 31 (by omega)]

theorem flag_method_core (env : Env) (E : Engine) (s : State) (klass : Klass) (d : Dfree)
    (p : Ptr) (member : Field) (k : Nat) (hk : k < 31) :
    ∃ n c : Int,
      INT2FIX env (int_cast (E.rdi s.trace (.field (deref E s p) member))) = .int n ∧
      INT2FIX env (FLAG k) = .int c ∧
      face_flag_test E s (.data klass d p) member k
        = ⟨.ok (if Int.land n c ≠ 0 then .Qtrue else .Qfalse), s⟩ := by
  obtain ⟨n, c, hn, hc, hiff⟩ :=
    flag_fixnums env (E.rdi s.trace (.field (deref E s p) member)) k hk
  refine ⟨n, c, hn, hc, ?_⟩
  simp only [face_flag_test, Data_Get_Struct]
  by_cases h : Int.land (E.rdi s.trace (.field (deref E s p) member)) (FLAG k) ≠ 0
  · rw [if_pos h, if_pos (hiff.mpr h)]
  · rw [if_neg h, if_neg (fun h2 => h (hiff.mp h2))]

set_option maxRecDepth 8000 in
theorem flag_methods_bound :
    Init_ft2.methods.search .cFace FlagMethod.scalable.name = some .ft_face_flag_scalable ∧
    Init_ft2.methods.search .cFace FlagMethod.fixed_sizes.name = some .ft_face_flag_fixed_sizes ∧
    Init_ft2.methods.search .cFace FlagMethod.fixed_width.name = some .ft_face_flag_fixed_width ∧
    Init_ft2.methods.search .cFace FlagMethod.horizontal.name = some .ft_face_flag_horizontal ∧
    Init_ft2.methods.search .cFace FlagMethod.vertical.name = some .ft_face_flag_vertical ∧
    Init_ft2.methods.search .cFace FlagMethod.sfnt.name = some .ft_face_flag_sfnt ∧
    Init_ft2.methods.search .cFace FlagMethod.kerning.name = some .ft_face_flag_kerning ∧
    Init_ft2.methods.search .cFace FlagMethod.external_stream.name = some .ft_face_flag_external_stream ∧
    Init_ft2.methods.search .cFace FlagMethod.fast_glyphs.name = some .ft_face_flag_fast_glyphs ∧
    Init_ft2.methods.search .cFace FlagMethod.bold.name = some .ft_face_flag_bold ∧
    Init_ft2.methods.search .cFace FlagMethod.italic.name = some .ft_face_flag_italic := by
  refine ⟨?_, ?_, ?_, ?_, ?_, ?_, ?_, ?_, ?_, ?_, ?_⟩ <;> decide

/-- C24: each boolean flag method of `FT2::Face` agrees with the integer flags.
For flag masks that are single bits of a positive C `int` and every Face
wrapper, with `n` the Integer that `flags` returns (`style_flags` for `bold?`
and `italic?`) and `c` the value of the constant of `FT2::Face` that belongs to
the method (`SCALABLE`, `FIXED_SIZES`, `FIXED_WIDTH`, `FIXED_HORIZONTAL`,
`FIXED_VERTICAL`, `SFNT`, `KERNING`, `EXTERNAL_STREAM`, `FAST_GLYPHS`, `BOLD`,
`ITALIC`), the function the method table binds to the method returns true
exactly when `n & c` is non-zero, and false otherwise. -/
theorem flag_methods_agree (env : Env) (fm : FlagBits) (hfit : fm.fit) (E : Engine) (s : State)
    (klass : Klass) (d : Dfree) (p : Ptr) (m : FlagMethod) :
    ∃ n c : Int, (m.flags env E s (.data klass d p)).result = .ok (.int n) ∧
      Face_const env fm m.constant = some (.int c) ∧
      m.run fm E s (.data klass d p)
        = some ⟨.ok (if Int.land n c ≠ 0 then .Qtrue else .Qfalse), s⟩ := by
  obtain ⟨h1, h2, h3, h4, h5, h6, h7, h8, h9, h10, h11, h12, h13⟩ := hfit
  obtain ⟨b1, b2, b3, b4, b5, b6, b7, b8, b9, b10, b11⟩ := flag_methods_bound
  cases m
  case scalable =>
    obtain ⟨n, c, hn, hc, ht⟩ := flag_method_core env E s klass d p .face_flags fm.FT_FACE_FLAG_SCALABLE h1
    refine ⟨n, c, congrArg Except.ok hn, congrArg some hc, ?_⟩
    unfold FlagMethod.run
    rw [b1]
    exact congrArg some ht
  case fixed_sizes =>
    obtain ⟨n, c, hn, hc, ht⟩ := flag_method_core env E s klass d p .face_flags fm.FT_FACE_FLAG_FIXED_SIZES h2
    refine ⟨n, c, congrArg Except.ok hn, congrArg some hc, ?_⟩
    unfold FlagMethod.run
    rw [b2]
    exact congrArg some ht
  case fixed_width =>
    obtain ⟨n, c, hn, hc, ht⟩ := flag_method_core env E s klass d p .face_flags fm.FT_FACE_FLAG_FIXED_WIDTH h3
    refine ⟨n, c, congrArg Except.ok hn, congrArg some hc, ?_⟩
    unfold FlagMethod.run
    rw [b3]
    exact congrArg some ht
  case horizontal =>
    obtain ⟨n, c, hn, hc, ht⟩ := flag_method_core env E s klass d p .face_flags fm.FT_FACE_FLAG_HORIZONTAL h4
    refine ⟨n, c, congrArg Except.ok hn, congrArg some hc, ?_⟩
    unfold FlagMethod.run
    rw [b4]
    exact congrArg some ht
  case vertical =>
    obtain ⟨n, c, hn, hc, ht⟩ := flag_method_core env E s klass d p .face_flags fm.FT_FACE_FLAG_VERTICAL h5
    refine ⟨n, c, congrArg Except.ok hn, congrArg some hc, ?_⟩
    unfold FlagMethod.run
    rw [b5]
    exact congrArg some ht
  case sfnt =>
    obtain ⟨n, c, hn, hc, ht⟩ := flag_method_core env E s klass d p .face_flags fm.FT_FACE_FLAG_SFNT h6
    refine ⟨n, c, congrArg Except.ok hn, congrArg some hc, ?_⟩
    unfold FlagMethod.run
    rw [b6]
    exact congrArg some ht
  case kerning =>
    obtain ⟨n, c, hn, hc, ht⟩ := flag_method_core env E s klass d p .face_flags fm.FT_FACE_FLAG_KERNING h7
    refine ⟨n, c, congrArg Except.ok hn, congrArg some hc, ?_⟩
    unfold FlagMethod.run
    rw [b7]
    exact congrArg some ht
  case external_stream =>
    obtain ⟨n, c, hn, hc, ht⟩ := flag_method_core env E s klass d p .face_flags fm.FT_FACE_FLAG_EXTERNAL_STREAM h10
    refine ⟨n, c, congrArg Except.ok hn, congrArg some hc, ?_⟩
    unfold FlagMethod.run
    rw [b8]
    exact congrArg some ht
  case fast_glyphs =>
    obtain ⟨n, c, hn, hc, ht⟩ := flag_method_core env E s klass d p .face_flags fm.FT_FACE_FLAG_FAST_GLYPHS h11
    refine ⟨n, c, congrArg Except.ok hn, congrArg some hc, ?_⟩
    unfold FlagMethod.run
    rw [b9]
    exact congrArg some ht
  case bold =>
    obtain ⟨n, c, hn, hc, ht⟩ := flag_method_core env E s klass d p .style_flags fm.FT_STYLE_FLAG_BOLD h12
    refine ⟨n, c, congrArg Except.ok hn, congrArg some hc, ?_⟩
    unfold FlagMethod.run
    rw [b10]
    exact congrArg some ht
  case italic =>
    obtain ⟨n, c, hn, hc, ht⟩ := flag_method_core env E s klass d p .style_flags fm.FT_STYLE_FLAG_ITALIC h13
    refine ⟨n, c, congrArg Except.ok hn, congrArg some hc, ?_⟩
    unfold FlagMethod.run
    rw [b11]
    exact congrArg some ht

/-- Evaluation of `flag_methods_agree` with the bit numbers of FreeType on a
face whose `face_flags` are 0x59 and whose `style_flags` are 2: `flags` is 89,
`KERNING` is 64 and `kerning?` is true, `FIXED_VERTICAL` is 32 and `vertical?`
is false, `bold?` is true and `italic?` is false. -/
theorem flag_methods_agree_witness :
    freetypeBits.fit ∧
    (∃ n c : Int,
      (FlagMethod.kerning.flags sampleEnv flagsEngine sampleState sampleFace).result = .ok (.int n) ∧
      Face_const sampleEnv freetypeBits FlagMethod.kerning.constant = some (.int c) ∧
      FlagMethod.kerning.run freetypeBits flagsEngine sampleState sampleFace
        = some ⟨.ok (if Int.land n c ≠ 0 then .Qtrue else .Qfalse), sampleState⟩) ∧
    (ft_face_flags sampleEnv flagsEngine sampleState sampleFace).result = .ok (.int 89) ∧
    Face_const sampleEnv freetypeBits "KERNING" = some (.int 64) ∧
    Face_const sampleEnv freetypeBits "FIXED_VERTICAL" = some (.int 32) ∧
    (ft_face_flag_kerning freetypeBits flagsEngine sampleState sampleFace).result
      = .ok .Qtrue ∧
    (ft_face_flag_vertical freetypeBits flagsEngine sampleState sampleFace).result
      = .ok .Qfalse ∧
    (ft_face_flag_bold freetypeBits flagsEngine sampleState sampleFace).result = .ok .Qtrue ∧
    (ft_face_flag_italic freetypeBits flagsEngine sampleState sampleFace).result
      = .ok .Qfalse :=
  ⟨by unfold FlagBits.fit; decide,
    flag_methods_agree sampleEnv freetypeBits (by unfold FlagBits.fit; decide) flagsEngine sampleState
      .cFace .face_free (.cell 0) .kerning,
    rfl, rfl, rfl, rfl, rfl, rfl, rfl⟩


/-! ### The sixteen status-returning operations, call by call -/

theorem onecall_status_or (env : Env) (E : Engine) (s : State) (c : NativeCall) (v : Value) :
    OneCall env E s (status_or env (call E s c).1 (call E s c).2 v) c v := by
  unfold OneCall status_or call
  refine ⟨by split_ifs <;> rfl, ?_, ?_⟩
  · intro h
    rw [if_pos h]
  · intro h
    rw [if_neg (not_not.mpr h)]

theorem onecall_ite (env : Env) (E : Engine) (s s1 s2 : State) (c : NativeCall) (v : Value)
    (h1 : s1.trace = s.trace ++ [c]) (h2 : s2.trace = s.trace ++ [c]) :
    OneCall env E s
      (if (E.reply s.trace c).status ≠ 0 then
        ⟨.error (handle_error env (E.reply s.trace c).status), s1⟩
       else ⟨.ok v, s2⟩) c v := by
  unfold OneCall
  refine ⟨by split_ifs <;> assumption, ?_, ?_⟩
  · intro h
    rw [if_pos h]
  · intro h
    rw [if_neg (not_not.mpr h)]

theorem ok_bind {α β : Type} (a : α) (f : α → Except Raised β) :
    (Except.ok a >>= f) = f a := rfl

theorem NUM2DBL_int (env : Env) (n : Int) : NUM2DBL env (.int n) = .ok (env.dbl n) := rfl

theorem FIX2INT_fixnum (env : Env) (m : Int) (hm : -2 ^ 30 ≤ m ∧ m < 2 ^ 30) :
    FIX2INT env (.int m) = .ok m := by
  unfold FIX2INT
  by_cases h : env.lp64 = true
  · rw [if_pos h]
    exact NUM2INT_int m (by unfold INT_MIN INT_MAX; constructor <;> omega)
  · have h2 : env.lp64 = false := by simpa using h
    have hf : FIXABLE env m = true := by
      simp only [FIXABLE, Env.long_bits, h2, Bool.and_eq_true, decide_eq_true_eq]
      norm_num
      omega
    simp only [h2, hf, if_true]
    rfl

theorem INT2FIX_zero (env : Env) : INT2FIX env 0 = .int 0 := by
  unfold INT2FIX Env.long_bits
  split_ifs <;> rfl

theorem onecall_face_new (env : Env) (E : Engine) (s : State) (klass : Klass) (path : String) :
    OneCall env E s (ft_face_new env E s [.str path] klass)
      (.FT_New_Face env.library (.bytes path) 0 (.cell s.cells.length))
      (.data klass .face_free (.cell s.cells.length)) := by
  simp only [ft_face_new, ft_face_new.args, malloc, RSTRING_ptr, call, poke, lib_handle,
    Data_Wrap_Struct]
  exact onecall_ite env E s _ _ _ _ rfl rfl

theorem onecall_face_new_index (env : Env) (E : Engine) (s : State) (klass : Klass)
    (path : String) (i : Int) (hi : INT_MIN ≤ i ∧ i ≤ INT_MAX) :
    OneCall env E s (ft_face_new env E s [.str path, .int i] klass)
      (.FT_New_Face env.library (.bytes path) i (.cell s.cells.length))
      (.data klass .face_free (.cell s.cells.length)) := by
  have h2 : ft_face_new.args [.str path, .int i] = .ok (none, .str path, i) := by
    simp [ft_face_new.args, rb_obj_is_kind_of, klass_of, Klass.is_a, NUM2INT_int i hi]
  simp only [ft_face_new, h2, malloc, RSTRING_ptr, call, poke, lib_handle, Data_Wrap_Struct]
  exact onecall_ite env E s _ _ _ _ rfl rfl

theorem onecall_new_from_memory (env : Env) (E : Engine) (s : State) (argv : List Value)
    (klass : Klass) (lib : Option Ptr) (mem : CharPtr) (len face_index : Int)
    (h : ft_face_new_from_memory.args argv = .ok (lib, mem, len, face_index)) :
    OneCall env E s (ft_face_new_from_memory env E s argv klass)
      (.FT_New_Memory_Face (lib_handle env E s lib) mem len face_index (.cell s.cells.length))
      (.data klass .face_free (.cell s.cells.length)) := by
  have hl : lib_handle env E (malloc s).2 lib = lib_handle env E s lib := by
    cases lib with
    | none => rfl
    | some p => exact deref_malloc E s p
  simp only [ft_face_new_from_memory, h, call, poke, Data_Wrap_Struct]
  rw [hl]
  simp only [malloc]
  exact onecall_ite env E s _ _ _ _ rfl rfl

theorem onecall_face_attach (env : Env) (E : Engine) (s : State) (k : Klass) (d : Dfree)
    (p : Ptr) (path : String) :
    OneCall env E s (ft_face_attach env E s (.data k d p) (.str path))
      (.FT_Attach_File (deref E s p) (.bytes path)) (.data k d p) :=
  onecall_status_or env E s _ _

theorem onecall_face_set_char_size (env : Env) (E : Engine) (s : State) (k : Klass)
    (d : Dfree) (p : Ptr) (w h hr vr : Int)
    (hhr : INT_MIN ≤ hr ∧ hr ≤ INT_MAX) (hvr : INT_MIN ≤ vr ∧ vr ≤ INT_MAX) :
    OneCall env E s
      (ft_face_set_char_size env E s (.data k d p) (.int w) (.int h) (.int hr) (.int vr))
      (.FT_Set_Char_Size (deref E s p) (env.dbl w) (env.dbl h) hr vr) (.data k d p) := by
  have ha : (do
      let face ← Data_Get_Struct (.data k d p)
      let w1 ← NUM2DBL env (.int w)
      let h1 ← NUM2DBL env (.int h)
      let hr1 ← NUM2INT (.int hr)
      let vr1 ← NUM2INT (.int vr)
      pure (face, w1, h1, hr1, vr1) : Except Raised (Ptr × Int × Int × Int × Int))
      = .ok (p, env.dbl w, env.dbl h, hr, vr) := by
    simp only [Data_Get_Struct, NUM2DBL_int, NUM2INT_int hr hhr, NUM2INT_int vr hvr]
    rfl
  unfold ft_face_set_char_size
  rw [ha]
  exact onecall_status_or env E s _ _

theorem onecall_face_set_pixel_sizes (env : Env) (E : Engine) (s : State) (k : Klass)
    (d : Dfree) (p : Ptr) (w h : Int)
    (hw : INT_MIN ≤ w ∧ w ≤ INT_MAX) (hh : INT_MIN ≤ h ∧ h ≤ INT_MAX) :
    OneCall env E s (ft_face_set_pixel_sizes env E s (.data k d p) (.int w) (.int h))
      (.FT_Set_Pixel_Sizes (deref E s p) w h) (.data k d p) := by
  have ha : (do
      let face ← Data_Get_Struct (.data k d p)
      let w1 ← NUM2INT (.int w)
      let h1 ← NUM2INT (.int h)
      pure (face, w1, h1) : Except Raised (Ptr × Int × Int)) = .ok (p, w, h) := by
    simp only [Data_Get_Struct, NUM2INT_int w hw, NUM2INT_int h hh]
    rfl
  unfold ft_face_set_pixel_sizes
  rw [ha]
  exact onecall_status_or env E s _ _

theorem onecall_face_load_glyph (env : Env) (E : Engine) (s : State) (k : Klass)
    (d : Dfree) (p : Ptr) (i f : Int)
    (hi : INT_MIN ≤ i ∧ i ≤ INT_MAX) (hf : INT_MIN ≤ f ∧ f ≤ INT_MAX) :
    OneCall env E s (ft_face_load_glyph env E s (.data k d p) (.int i) (.int f))
      (.FT_Load_Glyph (deref E s p) i f) (.data k d p) ∧
    OneCall env E s (ft_face_load_glyph env E s (.data k d p) (.int i) .Qnil)
      (.FT_Load_Glyph (deref E s p) i FT_LOAD_DEFAULT) (.data k d p) := by
  constructor
  · have ha : (do
        let face ← Data_Get_Struct (.data k d p)
        let flags := if (Value.int f).is_nil then INT2FIX env FT_LOAD_DEFAULT else .int f
        let i1 ← NUM2INT (.int i)
        let f1 ← NUM2INT flags
        pure (face, i1, f1) : Except Raised (Ptr × Int × Int)) = .ok (p, i, f) := by
      simp only [Data_Get_Struct, Value.is_nil, Bool.false_eq_true, if_false, NUM2INT_int i hi,
        NUM2INT_int f hf]
      rfl
    unfold ft_face_load_glyph
    rw [ha]
    exact onecall_status_or env E s _ _
  · have ha : (do
        let face ← Data_Get_Struct (.data k d p)
        let flags := if Value.Qnil.is_nil then INT2FIX env FT_LOAD_DEFAULT else .Qnil
        let i1 ← NUM2INT (.int i)
        let f1 ← NUM2INT flags
        pure (face, i1, f1) : Except Raised (Ptr × Int × Int))
        = .ok (p, i, FT_LOAD_DEFAULT) := by
      simp only [Data_Get_Struct, Value.is_nil, if_true, NUM2INT_int i hi, FT_LOAD_DEFAULT,
        INT2FIX_zero]
      rfl
    unfold ft_face_load_glyph
    rw [ha]
    exact onecall_status_or env E s _ _

theorem onecall_face_load_char (env : Env) (E : Engine) (s : State) (k : Klass)
    (d : Dfree) (p : Ptr) (c f : Int)
    (hc : INT_MIN ≤ c ∧ c ≤ INT_MAX) (hf : INT_MIN ≤ f ∧ f ≤ INT_MAX) :
    OneCall env E s (ft_face_load_char env E s (.data k d p) (.int c) (.int f))
      (.FT_Load_Char (deref E s p) c f) (.data k d p) := by
  have ha : (do
      let face ← Data_Get_Struct (.data k d p)
      let c1 ← NUM2INT (.int c)
      let f1 ← NUM2INT (.int f)
      pure (face, c1, f1) : Except Raised (Ptr × Int × Int)) = .ok (p, c, f) := by
    simp only [Data_Get_Struct, NUM2INT_int c hc, NUM2INT_int f hf]
    rfl
  unfold ft_face_load_char
  rw [ha]
  exact onecall_status_or env E s _ _

theorem onecall_face_kerning (env : Env) (E : Engine) (s : State) (k : Klass)
    (d : Dfree) (p : Ptr) (l r m : Int)
    (hl : INT_MIN ≤ l ∧ l ≤ INT_MAX) (hr : INT_MIN ≤ r ∧ r ≤ INT_MAX)
    (hm : INT_MIN ≤ m ∧ m ≤ INT_MAX) :
    OneCall env E s (ft_face_kerning env E s (.data k d p) (.int l) (.int r) (.int m))
      (.FT_Get_Kerning (deref E s p) l r m)
      (.ary [INT2FIX env (E.reply s.trace (.FT_Get_Kerning (deref E s p) l r m)).x,
             INT2FIX env (E.reply s.trace (.FT_Get_Kerning (deref E s p) l r m)).y]) := by
  have ha : (do
      let face ← Data_Get_Struct (.data k d p)
      let km ←
        if (Value.int m).is_nil then (NUM2INT_word ft_kerning_default).map Sum.inr
        else pure (Sum.inl (Value.int m))
      let l1 ← NUM2INT (.int l)
      let r1 ← NUM2INT (.int r)
      let mode ←
        match km with
        | Sum.inl v => NUM2INT v
        | Sum.inr k => NUM2INT_word k
      pure (face, l1, r1, mode) : Except Raised (Ptr × Int × Int × Int))
      = .ok (p, l, r, m) := by
    simp only [Data_Get_Struct, Value.is_nil, Bool.false_eq_true, if_false, NUM2INT_int l hl,
      NUM2INT_int r hr, ok_bind, pure_bind, NUM2INT_int m hm]
    rfl
  unfold ft_face_kerning
  rw [ha]
  exact onecall_status_or env E s _ _

theorem onecall_face_glyph_name (env : Env) (E : Engine) (s : State) (k : Klass)
    (d : Dfree) (p : Ptr) (i : Int) (hi : INT_MIN ≤ i ∧ i ≤ INT_MAX) :
    OneCall env E s (ft_face_glyph_name env E s (.data k d p) (.int i))
      (.FT_Get_Glyph_Name (deref E s p) i 1024)
      (if (E.reply s.trace (.FT_Get_Glyph_Name (deref E s p) i 1024)).name.length ≠ 0
        then .str (E.reply s.trace (.FT_Get_Glyph_Name (deref E s p) i 1024)).name
        else .Qnil) := by
  have ha : (do
      let face ← Data_Get_Struct (.data k d p)
      let i1 ← NUM2INT (.int i)
      pure (face, i1) : Except Raised (Ptr × Int)) = .ok (p, i) := by
    simp only [Data_Get_Struct, NUM2INT_int i hi]
    rfl
  unfold ft_face_glyph_name
  rw [ha]
  exact onecall_status_or env E s _ _

theorem onecall_face_select_charmap (env : Env) (E : Engine) (s : State) (k : Klass)
    (d : Dfree) (p : Ptr) (e : Int) (he : INT_MIN ≤ e ∧ e ≤ INT_MAX) :
    OneCall env E s (ft_face_select_charmap env E s (.data k d p) (.int e))
      (.FT_Select_Charmap (deref E s p) e) (.data k d p) := by
  have ha : (do
      let face ← Data_Get_Struct (.data k d p)
      let e1 ← NUM2INT (.int e)
      pure (face, e1) : Except Raised (Ptr × Int)) = .ok (p, e) := by
    simp only [Data_Get_Struct, NUM2INT_int e he]
    rfl
  unfold ft_face_select_charmap
  rw [ha]
  exact onecall_status_or env E s _ _

theorem onecall_face_set_charmap (env : Env) (E : Engine) (s : State) (k k2 : Klass)
    (d d2 : Dfree) (p p2 : Ptr) :
    OneCall env E s (ft_face_set_charmap env E s (.data k d p) (.data k2 d2 p2))
      (.FT_Set_Charmap (deref E s p) (deref E s p2)) (.data k d p) :=
  onecall_status_or env E s _ _

theorem onecall_glyphslot_render (env : Env) (E : Engine) (s : State) (k : Klass)
    (d : Dfree) (p : Ptr) (m : Int) (hm : INT_MIN ≤ m ∧ m ≤ INT_MAX) :
    OneCall env E s (ft_glyphslot_render env E s (.data k d p) (.int m))
      (.FT_Render_Glyph (deref E s p) m) (.data k d p) ∧
    OneCall env E s (ft_glyphslot_render env E s (.data k d p) .Qnil)
      (.FT_Render_Glyph (deref E s p) ft_render_mode_normal) (.data k d p) := by
  constructor
  · have ha : (do
        let glyph ← Data_Get_Struct (.data k d p)
        let render_mode :=
          if (Value.int m).is_nil then INT2FIX env ft_render_mode_normal else .int m
        let m1 ← NUM2INT render_mode
        pure (glyph, m1) : Except Raised (Ptr × Int)) = .ok (p, m) := by
      simp only [Data_Get_Struct, Value.is_nil, Bool.false_eq_true, if_false, NUM2INT_int m hm]
      rfl
    unfold ft_glyphslot_render
    rw [ha]
    exact onecall_status_or env E s _ _
  · have ha : (do
        let glyph ← Data_Get_Struct (.data k d p)
        let render_mode :=
          if Value.Qnil.is_nil then INT2FIX env ft_render_mode_normal else .Qnil
        let m1 ← NUM2INT render_mode
        pure (glyph, m1) : Except Raised (Ptr × Int)) = .ok (p, ft_render_mode_normal) := by
      simp only [Data_Get_Struct, Value.is_nil, if_true, ft_render_mode_normal, INT2FIX_zero]
      rfl
    unfold ft_glyphslot_render
    rw [ha]
    exact onecall_status_or env E s _ _

theorem onecall_glyphslot_glyph (env : Env) (E : Engine) (s : State) (k : Klass)
    (d : Dfree) (p : Ptr) :
    OneCall env E s (ft_glyphslot_glyph env E s (.data k d p))
      (.FT_Get_Glyph (deref E s p) (.cell s.cells.length))
      (.data .cGlyph .glyph_free (.cell s.cells.length)) := by
  have hd := deref_malloc E s p
  simp only [malloc] at hd
  simp only [ft_glyphslot_glyph, Data_Get_Struct, malloc, call, poke, hd, Data_Wrap_Struct]
  exact onecall_ite env E s _ _ _ _ rfl rfl

theorem onecall_glyph_dup (env : Env) (E : Engine) (s : State) (k : Klass)
    (d : Dfree) (p : Ptr) :
    OneCall env E s (ft_glyph_dup env E s (.data k d p))
      (.FT_Glyph_Copy (deref E s p) (.cell s.cells.length))
      (.data .cGlyph .glyph_free (.cell s.cells.length)) := by
  have hd := deref_malloc E s p
  simp only [malloc] at hd
  simp only [ft_glyph_dup, Data_Get_Struct, malloc, call, poke, hd, Data_Wrap_Struct]
  exact onecall_ite env E s _ _ _ _ rfl rfl

theorem onecall_glyph_transform (env : Env) (E : Engine) (s : State) (k : Klass)
    (d : Dfree) (p : Ptr) (xx xy yx yy dx dy : Int)
    (hdx : INT_MIN ≤ dx ∧ dx ≤ INT_MAX) (hdy : INT_MIN ≤ dy ∧ dy ≤ INT_MAX) :
    OneCall env E s
      (ft_glyph_transform env E s (.data k d p)
        (.ary [.ary [.int xx, .int xy], .ary [.int yx, .int yy]]) (.ary [.int dx, .int dy]))
      (.FT_Glyph_Transform (deref E s p) (DBL2FTFIX (env.dbl xx)) (DBL2FTFIX (env.dbl xy))
        (DBL2FTFIX (env.dbl yx)) (DBL2FTFIX (env.dbl yy)) dx dy) (.data k d p) := by
  have ha : (do
      let xx1 ← matrix_entry env (.ary [.ary [.int xx, .int xy], .ary [.int yx, .int yy]]) 0 0
      let xy1 ← matrix_entry env (.ary [.ary [.int xx, .int xy], .ary [.int yx, .int yy]]) 0 1
      let yx1 ← matrix_entry env (.ary [.ary [.int xx, .int xy], .ary [.int yx, .int yy]]) 1 0
      let yy1 ← matrix_entry env (.ary [.ary [.int xx, .int xy], .ary [.int yx, .int yy]]) 1 1
      let dx1 ← vector_entry (.ary [.int dx, .int dy]) 0
      let dy1 ← vector_entry (.ary [.int dx, .int dy]) 1
      let glyph ← Data_Get_Struct (.data k d p)
      pure (glyph, xx1, xy1, yx1, yy1, dx1, dy1) :
        Except Raised (Ptr × Int × Int × Int × Int × Int × Int))
      = .ok (p, DBL2FTFIX (env.dbl xx), DBL2FTFIX (env.dbl xy), DBL2FTFIX (env.dbl yx),
          DBL2FTFIX (env.dbl yy), dx, dy) := by
    have e1 : vector_entry (.ary [.int dx, .int dy]) 0 = .ok dx := by
      rw [← NUM2INT_int dx hdx]; rfl
    have e2 : vector_entry (.ary [.int dx, .int dy]) 1 = .ok dy := by
      rw [← NUM2INT_int dy hdy]; rfl
    rw [e1, e2]
    rfl
  unfold ft_glyph_transform
  rw [ha]
  exact onecall_status_or env E s _ _

theorem onecall_glyph_to_bmap (env : Env) (E : Engine) (s : State) (k : Klass)
    (d : Dfree) (p : Ptr) (m x y : Int) (destroy : Value)
    (hm : -2 ^ 30 ≤ m ∧ m < 2 ^ 30)
    (hx : INT_MIN ≤ x ∧ x ≤ INT_MAX) (hy : INT_MIN ≤ y ∧ y ≤ INT_MAX) :
    OneCall env E s
      (ft_glyph_to_bmap env E s (.data k d p) (.int m) (.ary [.int x, .int y]) destroy)
      (.FT_Glyph_To_Bitmap p (deref E s p) m x y (if !destroy.is_nil then 1 else 0))
      (.data k d p) := by
  have ha : (do
      let glyph ← Data_Get_Struct (.data k d p)
      let x1 ← vector_entry (.ary [.int x, .int y]) 0
      let y1 ← vector_entry (.ary [.int x, .int y]) 1
      let d1 : Int := if !destroy.is_nil then 1 else 0
      let m1 ← FIX2INT env (.int m)
      pure (glyph, x1, y1, d1, m1) : Except Raised (Ptr × Int × Int × Int × Int))
      = .ok (p, x, y, (if !destroy.is_nil then 1 else 0), m) := by
    have e1 : vector_entry (.ary [.int x, .int y]) 0 = .ok x := by
      rw [← NUM2INT_int x hx]; rfl
    have e2 : vector_entry (.ary [.int x, .int y]) 1 = .ok y := by
      rw [← NUM2INT_int y hy]; rfl
    rw [e1, e2, FIX2INT_fixnum env m hm]
    rfl
  unfold ft_glyph_to_bmap
  rw [ha]
  simp only [call]
  refine ⟨?_, ?_, ?_⟩
  · unfold status_or
    split_ifs <;> simp [poke_trace]
  · intro h
    unfold status_or
    rw [if_pos h]
  · intro h
    unfold status_or
    rw [if_neg (not_not.mpr h)]

/-- C4: the sixteen operations that make a status-returning engine call fail
fast.  For all arguments, an operation either rejects an argument before any
engine call (raising no engine error) or makes exactly one engine call, after
which a non-zero status is raised through `handle_error` and status zero gives
the normal result.  For well-formed arguments (a `T_DATA` receiver, Strings,
Integers in the range of a C `int`, Arrays of such) each operation makes the
engine call written below, with these arguments, and no other; a non-zero
status of that call raises the mapped error (no value, no second call), status
zero returns the value written below: the new owning wrapper for `Face.new`,
`Face.new_from_memory`, `GlyphSlot#glyph` and `Glyph#dup`, the kerning vector,
the glyph name, and the receiver for the others. -/
theorem status_ops_fail_fast (env : Env) (E : Engine) (s : State) :
    (∀ op : StatusOp, FailFast env E s (op.run env E s) (fun r v => op.normal env r v)) ∧
    (∀ (klass : Klass) (path : String) (i : Int), INT_MIN ≤ i ∧ i ≤ INT_MAX →
      OneCall env E s (ft_face_new env E s [.str path] klass)
        (.FT_New_Face env.library (.bytes path) 0 (.cell s.cells.length))
        (.data klass .face_free (.cell s.cells.length)) ∧
      OneCall env E s (ft_face_new env E s [.str path, .int i] klass)
        (.FT_New_Face env.library (.bytes path) i (.cell s.cells.length))
        (.data klass .face_free (.cell s.cells.length))) ∧
    (∀ (klass : Klass) (buffer : String) (size i : Int) (d : Dfree) (p : Ptr),
      INT_MIN ≤ size ∧ size ≤ INT_MAX → INT_MIN ≤ i ∧ i ≤ INT_MAX →
      OneCall env E s (ft_face_new_from_memory env E s [.str buffer, .int size] klass)
        (.FT_New_Memory_Face env.library (.bytes buffer) size 0 (.cell s.cells.length))
        (.data klass .face_free (.cell s.cells.length)) ∧
      OneCall env E s (ft_face_new_from_memory env E s [.str buffer, .int size, .int i] klass)
        (.FT_New_Memory_Face env.library (.bytes buffer) size i (.cell s.cells.length))
        (.data klass .face_free (.cell s.cells.length)) ∧
      OneCall env E s
        (ft_face_new_from_memory env E s [.data .cLibrary d p, .str buffer, .int size] klass)
        (.FT_New_Memory_Face (deref E s p) (.bytes buffer) size 0 (.cell s.cells.length))
        (.data klass .face_free (.cell s.cells.length)) ∧
      OneCall env E s
        (ft_face_new_from_memory env E s
          [.data .cLibrary d p, .str buffer, .int size, .int i] klass)
        (.FT_New_Memory_Face (deref E s p) (.bytes buffer) size i (.cell s.cells.length))
        (.data klass .face_free (.cell s.cells.length))) ∧
    (∀ (k : Klass) (d : Dfree) (p : Ptr) (path : String),
      OneCall env E s (ft_face_attach env E s (.data k d p) (.str path))
        (.FT_Attach_File (deref E s p) (.bytes path)) (.data k d p)) ∧
    (∀ (k : Klass) (d : Dfree) (p : Ptr) (w h hr vr : Int),
      INT_MIN ≤ hr ∧ hr ≤ INT_MAX → INT_MIN ≤ vr ∧ vr ≤ INT_MAX →
      OneCall env E s
        (ft_face_set_char_size env E s (.data k d p) (.int w) (.int h) (.int hr) (.int vr))
        (.FT_Set_Char_Size (deref E s p) (env.dbl w) (env.dbl h) hr vr) (.data k d p)) ∧
    (∀ (k : Klass) (d : Dfree) (p : Ptr) (w h : Int),
      INT_MIN ≤ w ∧ w ≤ INT_MAX → INT_MIN ≤ h ∧ h ≤ INT_MAX →
      OneCall env E s (ft_face_set_pixel_sizes env E s (.data k d p) (.int w) (.int h))
        (.FT_Set_Pixel_Sizes (deref E s p) w h) (.data k d p)) ∧
    (∀ (k : Klass) (d : Dfree) (p : Ptr) (i f : Int),
      INT_MIN ≤ i ∧ i ≤ INT_MAX → INT_MIN ≤ f ∧ f ≤ INT_MAX →
      OneCall env E s (ft_face_load_glyph env E s (.data k d p) (.int i) (.int f))
        (.FT_Load_Glyph (deref E s p) i f) (.data k d p) ∧
      OneCall env E s (ft_face_load_glyph env E s (.data k d p) (.int i) .Qnil)
        (.FT_Load_Glyph (deref E s p) i FT_LOAD_DEFAULT) (.data k d p)) ∧
    (∀ (k : Klass) (d : Dfree) (p : Ptr) (c f : Int),
      INT_MIN ≤ c ∧ c ≤ INT_MAX → INT_MIN ≤ f ∧ f ≤ INT_MAX →
      OneCall env E s (ft_face_load_char env E s (.data k d p) (.int c) (.int f))
        (.FT_Load_Char (deref E s p) c f) (.data k d p)) ∧
    (∀ (k : Klass) (d : Dfree) (p : Ptr) (l r m : Int),
      INT_MIN ≤ l ∧ l ≤ INT_MAX → INT_MIN ≤ r ∧ r ≤ INT_MAX → INT_MIN ≤ m ∧ m ≤ INT_MAX →
      OneCall env E s (ft_face_kerning env E s (.data k d p) (.int l) (.int r) (.int m))
        (.FT_Get_Kerning (deref E s p) l r m)
        (.ary [INT2FIX env (E.reply s.trace (.FT_Get_Kerning (deref E s p) l r m)).x,
               INT2FIX env (E.reply s.trace (.FT_Get_Kerning (deref E s p) l r m)).y])) ∧
    (∀ (k : Klass) (d : Dfree) (p : Ptr) (i : Int), INT_MIN ≤ i ∧ i ≤ INT_MAX →
      OneCall env E s (ft_face_glyph_name env E s (.data k d p) (.int i))
        (.FT_Get_Glyph_Name (deref E s p) i 1024)
        (if (E.reply s.trace (.FT_Get_Glyph_Name (deref E s p) i 1024)).name.length ≠ 0
          then .str (E.reply s.trace (.FT_Get_Glyph_Name (deref E s p) i 1024)).name
          else .Qnil)) ∧
    (∀ (k : Klass) (d : Dfree) (p : Ptr) (e : Int), INT_MIN ≤ e ∧ e ≤ INT_MAX →
      OneCall env E s (ft_face_select_charmap env E s (.data k d p) (.int e))
        (.FT_Select_Charmap (deref E s p) e) (.data k d p)) ∧
    (∀ (k k2 : Klass) (d d2 : Dfree) (p p2 : Ptr),
      OneCall env E s (ft_face_set_charmap env E s (.data k d p) (.data k2 d2 p2))
        (.FT_Set_Charmap (deref E s p) (deref E s p2)) (.data k d p)) ∧
    (∀ (k : Klass) (d : Dfree) (p : Ptr) (m : Int), INT_MIN ≤ m ∧ m ≤ INT_MAX →
      OneCall env E s (ft_glyphslot_render env E s (.data k d p) (.int m))
        (.FT_Render_Glyph (deref E s p) m) (.data k d p) ∧
      OneCall env E s (ft_glyphslot_render env E s (.data k d p) .Qnil)
        (.FT_Render_Glyph (deref E s p) ft_render_mode_normal) (.data k d p)) ∧
    (∀ (k : Klass) (d : Dfree) (p : Ptr),
      OneCall env E s (ft_glyphslot_glyph env E s (.data k d p))
        (.FT_Get_Glyph (deref E s p) (.cell s.cells.length))
        (.data .cGlyph .glyph_free (.cell s.cells.length)) ∧
      OneCall env E s (ft_glyph_dup env E s (.data k d p))
        (.FT_Glyph_Copy (deref E s p) (.cell s.cells.length))
        (.data .cGlyph .glyph_free (.cell s.cells.length))) ∧
    (∀ (k : Klass) (d : Dfree) (p : Ptr) (xx xy yx yy dx dy : Int),
      INT_MIN ≤ dx ∧ dx ≤ INT_MAX → INT_MIN ≤ dy ∧ dy ≤ INT_MAX →
      OneCall env E s
        (ft_glyph_transform env E s (.data k d p)
          (.ary [.ary [.int xx, .int xy], .ary [.int yx, .int yy]]) (.ary [.int dx, .int dy]))
        (.FT_Glyph_Transform (deref E s p) (DBL2FTFIX (env.dbl xx)) (DBL2FTFIX (env.dbl xy))
          (DBL2FTFIX (env.dbl yx)) (DBL2FTFIX (env.dbl yy)) dx dy) (.data k d p)) ∧
    (∀ (k : Klass) (d : Dfree) (p : Ptr) (m x y : Int) (destroy : Value),
      -2 ^ 30 ≤ m ∧ m < 2 ^ 30 → INT_MIN ≤ x ∧ x ≤ INT_MAX → INT_MIN ≤ y ∧ y ≤ INT_MAX →
      OneCall env E s
        (ft_glyph_to_bmap env E s (.data k d p) (.int m) (.ary [.int x, .int y]) destroy)
        (.FT_Glyph_To_Bitmap p (deref E s p) m x y (if !destroy.is_nil then 1 else 0))
        (.data k d p)) := by
  refine ⟨?_, ?_, ?_, ?_, ?_, ?_, ?_, ?_, ?_, ?_, ?_, ?_, ?_, ?_, ?_, ?_⟩
  · intro op
    cases op with
    | face_new argv klass => exact failfast_face_new env E s argv klass
    | face_new_from_memory argv klass => exact failfast_face_new_from_memory env E s argv klass
    | face_attach self path => exact failfast_face_attach env E s self path
    | face_set_char_size self a b c d => exact failfast_face_set_char_size env E s self a b c d
    | face_set_pixel_sizes self a b => exact failfast_face_set_pixel_sizes env E s self a b
    | face_load_glyph self a b => exact failfast_face_load_glyph env E s self a b
    | face_load_char self a b => exact failfast_face_load_char env E s self a b
    | face_kerning self a b c => exact failfast_face_kerning env E s self a b c
    | face_glyph_name self a => exact failfast_face_glyph_name env E s self a
    | face_select_charmap self a => exact failfast_face_select_charmap env E s self a
    | face_set_charmap self a => exact failfast_face_set_charmap env E s self a
    | glyphslot_render self a => exact failfast_glyphslot_render env E s self a
    | glyphslot_glyph self => exact failfast_glyphslot_glyph env E s self
    | glyph_dup self => exact failfast_glyph_dup env E s self
    | glyph_transform self a b => exact failfast_glyph_transform env E s self a b
    | glyph_to_bmap self a b c => exact failfast_glyph_to_bmap env E s self a b c
  · exact fun klass path i hi =>
      ⟨onecall_face_new env E s klass path, onecall_face_new_index env E s klass path i hi⟩
  · intro klass buffer size i d p hs hi
    refine ⟨?_, ?_, ?_, ?_⟩
    · exact onecall_new_from_memory env E s _ klass none _ _ _
        (by simp [ft_face_new_from_memory.args, RSTRING_ptr, NUM2INT_int size hs]; rfl)
    · exact onecall_new_from_memory env E s _ klass none _ _ _
        (by simp [ft_face_new_from_memory.args, RSTRING_ptr, NUM2INT_int size hs,
              NUM2INT_int i hi, rb_obj_is_kind_of, klass_of, Klass.is_a]; rfl)
    · exact onecall_new_from_memory env E s _ klass (some p) _ _ _
        (by simp [ft_face_new_from_memory.args, RSTRING_ptr, NUM2INT_int size hs,
              rb_obj_is_kind_of, klass_of, Klass.is_a, Data_Get_Struct, Klass.super]; rfl)
    · exact onecall_new_from_memory env E s _ klass (some p) _ _ _
        (by simp [ft_face_new_from_memory.args, RSTRING_ptr, NUM2INT_int size hs,
              NUM2INT_int i hi, Data_Get_Struct]; rfl)
  · exact fun k d p path => onecall_face_attach env E s k d p path
  · exact fun k d p w h hr vr hhr hvr => onecall_face_set_char_size env E s k d p w h hr vr hhr hvr
  · exact fun k d p w h hw hh => onecall_face_set_pixel_sizes env E s k d p w h hw hh
  · exact fun k d p i f hi hf => onecall_face_load_glyph env E s k d p i f hi hf
  · exact fun k d p c f hc hf => onecall_face_load_char env E s k d p c f hc hf
  · exact fun k d p l r m hl hr hm => onecall_face_kerning env E s k d p l r m hl hr hm
  · exact fun k d p i hi => onecall_face_glyph_name env E s k d p i hi
  · exact fun k d p e he => onecall_face_select_charmap env E s k d p e he
  · exact fun k k2 d d2 p p2 => onecall_face_set_charmap env E s k k2 d d2 p p2
  · exact fun k d p m hm => onecall_glyphslot_render env E s k d p m hm
  · exact fun k d p => ⟨onecall_glyphslot_glyph env E s k d p, onecall_glyph_dup env E s k d p⟩
  · exact fun k d p xx xy yx yy dx dy hdx hdy =>
      onecall_glyph_transform env E s k d p xx xy yx yy dx dy hdx hdy
  · exact fun k d p m x y destroy hm hx hy =>
      onecall_glyph_to_bmap env E s k d p m x y destroy hm hx hy

/-- Evaluation of `status_ops_fail_fast` on concrete inputs: `face.load_glyph
(3, 0)` makes the call `FT_Load_Glyph (42, 3, 0)`; on the engine that answers
status 1 it raises the mapped error, on the engine that answers 0 it returns
the face; `glyph.dup` on the failing engine makes the one call `FT_Glyph_Copy`
and raises the mapped error. -/
theorem status_ops_fail_fast_witness :
    ((INT_MIN ≤ 3 ∧ (3 : Int) ≤ INT_MAX) ∧ (INT_MIN ≤ 0 ∧ (0 : Int) ≤ INT_MAX)) ∧
    OneCall sampleEnv failingEngine sampleState
      (ft_face_load_glyph sampleEnv failingEngine sampleState sampleFace (.int 3) (.int 0))
      (.FT_Load_Glyph 42 3 0) sampleFace ∧
    (ft_face_load_glyph sampleEnv failingEngine sampleState sampleFace (.int 3) (.int 0)).result
      = .error (.rb_eException "FreeType2 Error: cannot open resource.") ∧
    (ft_face_load_glyph sampleEnv sampleEngine sampleState sampleFace (.int 3) (.int 0)).result
      = .ok sampleFace ∧
    OneCall sampleEnv failingEngine sampleState
      (ft_glyph_dup sampleEnv failingEngine sampleState sampleGlyph)
      (.FT_Glyph_Copy 42 (.cell 1)) (.data .cGlyph .glyph_free (.cell 1)) ∧
    (ft_glyph_dup sampleEnv failingEngine sampleState sampleGlyph).state.trace
      = [.FT_Glyph_Copy 42 (.cell 1)] :=
  ⟨⟨by decide, by decide⟩,
    ((status_ops_fail_fast sampleEnv failingEngine sampleState).2.2.2.2.2.2.1
      .cFace .face_free (.cell 0) 3 0 (by decide) (by decide)).1,
    ((status_ops_fail_fast sampleEnv failingEngine sampleState).2.2.2.2.2.2.1
      .cFace .face_free (.cell 0) 3 0 (by decide) (by decide)).1.2.1 (by decide),
    ((status_ops_fail_fast sampleEnv sampleEngine sampleState).2.2.2.2.2.2.1
      .cFace .face_free (.cell 0) 3 0 (by decide) (by decide)).1.2.2 rfl,
    ((status_ops_fail_fast sampleEnv failingEngine sampleState).2.2.2.2.2.2.2.2.2.2.2.2.2.1
      .cGlyph .glyph_free (.cell 0)).2,
    ((status_ops_fail_fast sampleEnv failingEngine sampleState).2.2.2.2.2.2.2.2.2.2.2.2.2.1
      .cGlyph .glyph_free (.cell 0)).2.1⟩


/-! ### Ownership of the wrappers made by a program -/

end FT2
